import Mathlib

/-!
GPU marker tracking and the device pool of the WPF hardware layer.

A shallow embedding of

* `core/hw/gpumarker.cpp` (`CGPUMarker`),
* the marker bookkeeping of `core/hw/d3ddevice.cpp` / `d3ddevice.h`
  (`InsertGPUMarker`, `ConsumePresentMarkers`, `IsConsumedGPUMarker`,
  `FreeMarkerAndItsPredecessors`, `ResetMarkers`, `MarkUnusable`),
* the pool bookkeeping of `core/hw/d3ddevicemanager.cpp`
  (`HandleDisplayChange`, `GetD3DDevice`, `GetSWDevice`, `CreateNewDevice`,
  `UnusedNotification`, `UnusableNotification`, `NotifyDeviceLost`),
* further device operations of `core/hw/d3ddevice.cpp` (the allocation loop,
  `CreateVertexBuffer`, `Present`, `HandlePresentFailure`, `Enter`, `Leave`,
  `AdvanceFrame`, `FlushBufferFan`),
* the state-object caches of `core/hw/d3drenderstate.cpp`
  (`SetRasterizerState`, `SetDepthStencilState`, `SetSamplerState`,
  `SetBlendState`).

Conventions.

* Pointers are natural numbers, `0` being `NULL`.  Marker objects live in a
  heap `Nat → CGPUMarker`; the two marker arrays hold addresses, as in the
  source (`DynArray<CGPUMarker *>`).
* `DynArray<T>` is a `List T`.  Reading or writing an element outside
  `[0, GetCount())` is a `Fault`, so every function that indexes an array
  returns `Except Fault _`.
* Results of native Direct3D calls are inputs of the functions (an oracle or
  an environment record).  Host memory allocation (`new`, the growth of a
  `DynArray` in `Add` / `ReserveSpace`) is taken to succeed.
* `UINT` arithmetic is taken modulo `2 ^ 32`.
* `CD3DResourceManager` is not among the sources: `AdvanceFrame` takes its three
  operations as parameters, and the delayed release is stated over a resource
  manager modelled from the specification.
-/

namespace WpfGfx

/-! ## Result codes -/

/-- A Windows `HRESULT`, read as a signed 32-bit value. -/
abbrev HRESULT := Int

def S_OK : HRESULT := 0
def S_FALSE : HRESULT := 1
/-- The code `0x80004005`. -/
def E_FAIL : HRESULT := -2147467259
/-- The code `0x88760868`. -/
def D3DERR_DEVICELOST : HRESULT := -2005530520
/-- The code `0x8876086A`. -/
def D3DERR_NOTAVAILABLE : HRESULT := -2005530518
/-- The code `0x88760827`. -/
def D3DERR_DRIVERINTERNALERROR : HRESULT := -2005530585
/-- The code `0x88980006`. -/
def WGXERR_DISPLAYSTATEINVALID : HRESULT := -2003304442

def SUCCEEDED (hr : HRESULT) : Bool := decide (0 ≤ hr)
def FAILED (hr : HRESULT) : Bool := decide (hr < 0)

def UINT_MOD : Nat := 2 ^ 32

/-! ## Arrays -/

/-- An access outside the bounds of a `DynArray`. -/
inductive Fault where
  | outOfBounds
deriving DecidableEq, Repr

deriving instance DecidableEq for Except

/-- The element read `rg[i]` of a `DynArray`. -/
def DynArray.at {α : Type} (rg : List α) (i : Nat) : Except Fault α :=
  match rg.get? i with
  | some a => .ok a
  | none => .error Fault.outOfBounds

/-- The element write `rg[i] = a` of a `DynArray`. -/
def DynArray.put {α : Type} (rg : List α) (i : Nat) (a : α) : Except Fault (List α) :=
  if i < rg.length then .ok (rg.set i a) else .error Fault.outOfBounds

/-- The call `rg.SetCount(n)`; new elements, if any, are copies of `fill`
(they are uninitialised in the source). -/
def DynArray.SetCount {α : Type} (rg : List α) (n : Nat) (fill : α) : List α :=
  if n ≤ rg.length then rg.take n else rg ++ List.replicate (n - rg.length) fill

/-! ## `CGPUMarker` (gpumarker.cpp) -/

def D3D11_ASYNC_GETDATA_DONOTFLUSH : Nat := 1

structure CGPUMarker where
  m_pQuery : Nat
  m_fIssued : Bool
  m_fConsumed : Bool
  m_ullMarkerId : Nat
deriving DecidableEq, Repr

def CGPUMarker.Reset (m : CGPUMarker) (ullMarkerId : Nat) : CGPUMarker :=
  { m with m_fIssued := false, m_fConsumed := false, m_ullMarkerId := ullMarkerId }

/-- The constructor `CGPUMarker(pQuery, ullMarkerId)`. -/
def CGPUMarker.ctor (pQuery : Nat) (ullMarkerId : Nat) : CGPUMarker :=
  CGPUMarker.Reset ⟨pQuery, false, false, 0⟩ ullMarkerId

def CGPUMarker.InsertIntoCommandStream (m : CGPUMarker) : CGPUMarker × HRESULT :=
  if m.m_pQuery = 0 then (m, E_FAIL)
  else ({ m with m_fIssued := true }, S_OK)

/-- The status check; `GetData pQuery dwFlags` is the result of the native
`pContext->GetData(m_pQuery, nullptr, 0, dwFlags)`.  Returns the marker, the
result code and `*pfConsumed`. -/
def CGPUMarker.CheckStatus (m : CGPUMarker) (GetData : Nat → Nat → HRESULT)
    (fFlush : Bool) : CGPUMarker × HRESULT × Bool :=
  if m.m_fIssued then
    if !m.m_fConsumed then
      let dwFlags := if fFlush then 0 else D3D11_ASYNC_GETDATA_DONOTFLUSH
      let hr := GetData m.m_pQuery dwFlags
      let m1 := { m with m_fConsumed := decide (hr = S_OK) }
      let hr1 := if hr = S_FALSE then S_OK else hr
      (m1, hr1, m1.m_fConsumed)
    else (m, S_OK, m.m_fConsumed)
  else (m, S_OK, false)

/-! ## Marker bookkeeping of `CD3DDeviceLevel1` (d3ddevice.h, d3ddevice.cpp) -/

def GPU_MARKERS_MAX_ARRAY_SIZE : Nat := 35

def GPUMARKER_FLAGS_MARKERS_ENABLED : Nat := 0x1
def GPUMARKER_FLAGS_MARKERS_TESTED : Nat := 0x10
def GPUMARKER_FLAGS_MARKER_CONSUMED : Nat := 0x100

/-- The fields of `CD3DDeviceLevel1` that the marker code reads or writes,
and the heap of marker objects. -/
structure CD3DDeviceLevel1 where
  m_pD3DDevice : Nat
  m_hrDisplayInvalid : HRESULT
  m_ullLastMarkerId : Nat
  m_ullLastConsumedMarkerId : Nat
  m_rgpMarkerActive : List Nat
  m_rgpMarkerFree : List Nat
  m_uNumSuccessfulPresentsSinceMarkerFlush : Nat
  m_dwGPUMarkerFlags : Nat
  heap : Nat → CGPUMarker

/-- The device as the constructor and `Init(pID3DDevice, ..)` leave it. -/
def CD3DDeviceLevel1.ctor (pID3DDevice : Nat) : CD3DDeviceLevel1 where
  m_pD3DDevice := pID3DDevice
  m_hrDisplayInvalid := S_OK
  m_ullLastMarkerId := 0
  m_ullLastConsumedMarkerId := 0
  m_rgpMarkerActive := []
  m_rgpMarkerFree := []
  m_uNumSuccessfulPresentsSinceMarkerFlush := 0
  m_dwGPUMarkerFlags := 0
  heap := fun _ => ⟨0, false, false, 0⟩

def CD3DDeviceLevel1.ResetMarkers (d : CD3DDeviceLevel1) : CD3DDeviceLevel1 :=
  { d with
    m_ullLastConsumedMarkerId := d.m_ullLastMarkerId
    m_rgpMarkerFree := []
    m_rgpMarkerActive := [] }

def CD3DDeviceLevel1.SetGPUMarkersAsEnabled (d : CD3DDeviceLevel1) : CD3DDeviceLevel1 :=
  { d with m_dwGPUMarkerFlags := d.m_dwGPUMarkerFlags ||| GPUMARKER_FLAGS_MARKERS_ENABLED }

def CD3DDeviceLevel1.DisableGPUMarkers (d : CD3DDeviceLevel1) : CD3DDeviceLevel1 :=
  CD3DDeviceLevel1.ResetMarkers
    { d with m_dwGPUMarkerFlags :=
        d.m_dwGPUMarkerFlags &&& (GPUMARKER_FLAGS_MARKERS_ENABLED ^^^ (UINT_MOD - 1)) }

def CD3DDeviceLevel1.AreGPUMarkersEnabled (d : CD3DDeviceLevel1) : Bool :=
  (d.m_dwGPUMarkerFlags &&& GPUMARKER_FLAGS_MARKERS_ENABLED) != 0

def CD3DDeviceLevel1.SetGPUMarkersAsTested (d : CD3DDeviceLevel1) : CD3DDeviceLevel1 :=
  { d with m_dwGPUMarkerFlags := d.m_dwGPUMarkerFlags ||| GPUMARKER_FLAGS_MARKERS_TESTED }

def CD3DDeviceLevel1.AreGPUMarkersTested (d : CD3DDeviceLevel1) : Bool :=
  (d.m_dwGPUMarkerFlags &&& GPUMARKER_FLAGS_MARKERS_TESTED) != 0

def CD3DDeviceLevel1.SetGPUMarkersAsConsumed (d : CD3DDeviceLevel1) : CD3DDeviceLevel1 :=
  { d with m_dwGPUMarkerFlags := d.m_dwGPUMarkerFlags ||| GPUMARKER_FLAGS_MARKER_CONSUMED }

def CD3DDeviceLevel1.HaveGPUMarkersBeenConsumed (d : CD3DDeviceLevel1) : Bool :=
  (d.m_dwGPUMarkerFlags &&& GPUMARKER_FLAGS_MARKER_CONSUMED) != 0

def CD3DDeviceLevel1.HandleDIE (d : CD3DDeviceLevel1) (hr : HRESULT) :
    CD3DDeviceLevel1 × HRESULT :=
  if hr = D3DERR_DRIVERINTERNALERROR then
    ({ d with m_hrDisplayInvalid := D3DERR_DRIVERINTERNALERROR }, WGXERR_DISPLAYSTATEINVALID)
  else (d, hr)

/-- What the native layer answers during one `InsertGPUMarker` call. -/
structure InsertEnv where
  /-- Result of the probe `CreateQuery(&desc, NULL)`. -/
  hrProbe : HRESULT
  /-- Result of `CreateQuery(&desc, &pQuery)`. -/
  hrCreateQuery : HRESULT
  /-- The query written to `pQuery`. -/
  pQuery : Nat
  /-- Address of the object made by `new CGPUMarker`. -/
  pNewMarker : Nat

/-- The body of `InsertGPUMarker` up to the label `Cleanup`: the device and
the value of `hr` on reaching the label. -/
def CD3DDeviceLevel1.InsertGPUMarker_body (d : CD3DDeviceLevel1) (ullMarkerId : Nat)
    (env : InsertEnv) : CD3DDeviceLevel1 × HRESULT :=
  if ullMarkerId < d.m_ullLastMarkerId then (d, S_OK)
  else if d.m_pD3DDevice = 0 then (d, S_OK)
  else
    -- if (!AreGPUMarkersTested()) ..
    let (d1, hr1) :=
      if !d.AreGPUMarkersTested then
        let hr := env.hrProbe
        let d0 := if SUCCEEDED hr then d.SetGPUMarkersAsEnabled else d
        (d0.SetGPUMarkersAsTested, hr)
      else (d, S_OK)
    if !d1.AreGPUMarkersEnabled then
      ({ d1 with m_ullLastMarkerId := ullMarkerId }, hr1)
    else
      -- obtain pMarker: from the free list, or a new one
      let got : Option (CD3DDeviceLevel1 × Nat) × HRESULT :=
        match d1.m_rgpMarkerFree.getLast? with
        | some p =>
          (some ({ d1 with
                    m_rgpMarkerFree := d1.m_rgpMarkerFree.dropLast
                    heap := Function.update d1.heap p ((d1.heap p).Reset ullMarkerId) }, p),
           hr1)
        | none =>
          if FAILED env.hrCreateQuery then (none, env.hrCreateQuery)
          else
            (some ({ d1 with
                      heap := Function.update d1.heap env.pNewMarker
                        (CGPUMarker.ctor env.pQuery ullMarkerId) }, env.pNewMarker),
             env.hrCreateQuery)
      match got with
      | (none, hr2) => (d1, hr2)
      | (some (d2, p), _) =>
        let (m, hr3) := (d2.heap p).InsertIntoCommandStream
        let d3 := { d2 with heap := Function.update d2.heap p m }
        if FAILED hr3 then (d3, hr3)
        else ({ d3 with m_rgpMarkerActive := d3.m_rgpMarkerActive ++ [p] }, S_OK)

/-- The code of `InsertGPUMarker` from the label `Cleanup` on. -/
def CD3DDeviceLevel1.InsertGPUMarker_Cleanup (d : CD3DDeviceLevel1) (hr : HRESULT) :
    CD3DDeviceLevel1 × HRESULT :=
  let d1 :=
    if d.m_rgpMarkerActive.length > GPU_MARKERS_MAX_ARRAY_SIZE then d.DisableGPUMarkers else d
  let hr1 := if hr = D3DERR_DEVICELOST ∨ hr = D3DERR_NOTAVAILABLE then S_OK else hr
  let (d2, hr2) := if FAILED hr1 then (d1.DisableGPUMarkers, S_OK) else (d1, hr1)
  d2.HandleDIE hr2

def CD3DDeviceLevel1.InsertGPUMarker (d : CD3DDeviceLevel1) (ullMarkerId : Nat)
    (env : InsertEnv) : CD3DDeviceLevel1 × HRESULT :=
  let (d1, hr) := d.InsertGPUMarker_body ullMarkerId env
  d1.InsertGPUMarker_Cleanup hr

/-- The code of `IsConsumedGPUMarker`: the device, the returned result code and
`*pfMarkerConsumed`. -/
def CD3DDeviceLevel1.IsConsumedGPUMarker (d : CD3DDeviceLevel1)
    (GetData : Nat → Nat → HRESULT) (uMarkerIndex : Nat) (fFlushMarkers : Bool) :
    Except Fault (CD3DDeviceLevel1 × HRESULT × Bool) :=
  match DynArray.at d.m_rgpMarkerActive uMarkerIndex with
  | .error e => .error e
  | .ok p =>
    let (m, hr, fConsumed) := (d.heap p).CheckStatus GetData fFlushMarkers
    let d1 := { d with heap := Function.update d.heap p m }
    let (fConsumed1, hr1) :=
      if hr = D3DERR_DEVICELOST then (true, S_OK) else (fConsumed, hr)
    let d2 := if SUCCEEDED hr1 && fConsumed1 then d1.SetGPUMarkersAsConsumed else d1
    if FAILED hr1 then .ok (d2.DisableGPUMarkers, S_OK, true)
    else .ok (d2, hr1, fConsumed1)

/-- First loop of `FreeMarkerAndItsPredecessors`, `n` iterations from `ui` on:
`m_rgpMarkerFree.Add(m_rgpMarkerActive[ui]); m_rgpMarkerActive[ui] = NULL`.
Returns the active and the free array. -/
def FreeMarkerAndItsPredecessors_moveToFree :
    Nat → Nat → List Nat → List Nat → Except Fault (List Nat × List Nat)
  | 0, _, active, free => .ok (active, free)
  | n + 1, ui, active, free =>
    match DynArray.at active ui with
    | .error e => .error e
    | .ok p =>
      match DynArray.put active ui 0 with
      | .error e => .error e
      | .ok active1 =>
        FreeMarkerAndItsPredecessors_moveToFree n (ui + 1) active1 (free ++ [p])

/-- Second loop of `FreeMarkerAndItsPredecessors`, `n` iterations from `ui` on:
`m_rgpMarkerActive[ui] = m_rgpMarkerActive[cConsumed + ui]`. -/
def FreeMarkerAndItsPredecessors_shift (cConsumed : Nat) :
    Nat → Nat → List Nat → Except Fault (List Nat)
  | 0, _, active => .ok active
  | n + 1, ui, active =>
    match DynArray.at active (cConsumed + ui) with
    | .error e => .error e
    | .ok p =>
      match DynArray.put active ui p with
      | .error e => .error e
      | .ok active1 => FreeMarkerAndItsPredecessors_shift cConsumed n (ui + 1) active1

def CD3DDeviceLevel1.FreeMarkerAndItsPredecessors (d : CD3DDeviceLevel1) (uIndex : Nat) :
    Except Fault (CD3DDeviceLevel1 × HRESULT) :=
  let cConsumed := (uIndex + 1) % UINT_MOD
  let cNew := (d.m_rgpMarkerActive.length + UINT_MOD - cConsumed) % UINT_MOD
  match DynArray.at d.m_rgpMarkerActive uIndex with
  | .error e => .error e
  | .ok p =>
    let d1 := { d with m_ullLastConsumedMarkerId := (d.heap p).m_ullMarkerId }
    match FreeMarkerAndItsPredecessors_moveToFree cConsumed 0
            d1.m_rgpMarkerActive d1.m_rgpMarkerFree with
    | .error e => .error e
    | .ok (active1, free1) =>
      match FreeMarkerAndItsPredecessors_shift cConsumed cNew 0 active1 with
      | .error e => .error e
      | .ok active2 =>
        .ok ({ d1 with
                m_rgpMarkerFree := free1
                m_rgpMarkerActive := DynArray.SetCount active2 cNew 0 }, S_OK)

/-- The loop of `ConsumePresentMarkers` with `i + 1 = n` the loop variable plus
one (`n = 0` is the exit `i < 0`), `hr` the current result code. -/
def CD3DDeviceLevel1.ConsumePresentMarkers_loop (GetData : Nat → Nat → HRESULT) :
    Nat → CD3DDeviceLevel1 → Bool → HRESULT → Except Fault (CD3DDeviceLevel1 × HRESULT)
  | 0, d, _, hr => .ok (d, hr)
  | i + 1, d, fForceFlush, _ =>
    match d.IsConsumedGPUMarker GetData i fForceFlush with
    | .error e => .error e
    | .ok (d1, hr1, fMarkerConsumed) =>
      if FAILED hr1 then .ok (d1, hr1)
      else if fMarkerConsumed then d1.FreeMarkerAndItsPredecessors i
      else if fForceFlush then
        CD3DDeviceLevel1.ConsumePresentMarkers_loop GetData i
          { d1 with m_uNumSuccessfulPresentsSinceMarkerFlush := 0 } false hr1
      else
        CD3DDeviceLevel1.ConsumePresentMarkers_loop GetData i d1 fForceFlush hr1

def CD3DDeviceLevel1.ConsumePresentMarkers (d : CD3DDeviceLevel1)
    (GetData : Nat → Nat → HRESULT) (fForceFlush : Bool) :
    Except Fault (CD3DDeviceLevel1 × HRESULT) :=
  -- static_cast<int>(GetCount()): a count with the top bit set is a negative int
  let c := d.m_rgpMarkerActive.length % UINT_MOD
  let n := if c < 2 ^ 31 then c else 0
  CD3DDeviceLevel1.ConsumePresentMarkers_loop GetData n d fForceFlush S_OK

/-- The ids of the markers in an array of marker addresses. -/
def CD3DDeviceLevel1.ids (d : CD3DDeviceLevel1) (rg : List Nat) : List Nat :=
  rg.map (fun p => (d.heap p).m_ullMarkerId)

/-- The flush flag that `ConsumePresentMarkers` passes to the status check of
the marker at index `j` of `n` active markers while no marker has been found
consumed: `fForceFlush` for the newest marker, `false` after it. -/
def flushAt (fForceFlush : Bool) (n j : Nat) : Bool :=
  fForceFlush && decide (j + 1 = n)

/-- The result code and `*pfConsumed` of `CGPUMarker::CheckStatus` for the
marker at index `j` of the active array. -/
def CD3DDeviceLevel1.statusAt (d : CD3DDeviceLevel1) (GetData : Nat → Nat → HRESULT)
    (fFlush : Bool) (j : Nat) : HRESULT × Bool :=
  ((d.heap (d.m_rgpMarkerActive.getD j 0)).CheckStatus GetData fFlush).2

/-- A device with three issued, unconsumed markers at addresses 1, 2, 3 (ids
10, 20, 30, queries 101, 102, 103) and marker 4 on the free list. -/
def exampleDevice : CD3DDeviceLevel1 :=
  { CD3DDeviceLevel1.ctor 7 with
    m_rgpMarkerActive := [1, 2, 3]
    m_rgpMarkerFree := [4]
    m_dwGPUMarkerFlags := GPUMARKER_FLAGS_MARKERS_ENABLED ||| GPUMARKER_FLAGS_MARKERS_TESTED
    heap := fun p => ⟨100 + p, true, false, 10 * p⟩ }

/-- A GPU that has completed queries 101 and 102 but not yet 103. -/
def exampleGetData : Nat → Nat → HRESULT :=
  fun pQuery _ => if pQuery ≤ 102 then S_OK else S_FALSE

/-- A run of `InsertGPUMarker` calls, each with its marker id and the answers
of the native layer, with no `ConsumePresentMarkers` call in between. -/
def CD3DDeviceLevel1.insertMarkers (d : CD3DDeviceLevel1) :
    List (Nat × InsertEnv) → CD3DDeviceLevel1
  | [] => d
  | (ullMarkerId, env) :: rest =>
    CD3DDeviceLevel1.insertMarkers (d.InsertGPUMarker ullMarkerId env).1 rest

/-- A native layer on which every call succeeds; the new marker object is put
at address `p` and its query is `100 + p`. -/
def envSuccess (p : Nat) : InsertEnv := ⟨S_OK, S_OK, 100 + p, p⟩

/-- Every native call of one `InsertGPUMarker` call succeeds and yields a query. -/
def InsertEnv.succeeds (env : InsertEnv) : Prop :=
  0 ≤ env.hrProbe ∧ 0 ≤ env.hrCreateQuery ∧ env.pQuery ≠ 0

/-- The calls inserting the ids `1, 2, .., k`, the `n`-th call (from 0) with the
native answers `envs n`. -/
def insertCalls (envs : Nat → InsertEnv) (k : Nat) : List (Nat × InsertEnv) :=
  (List.range k).map (fun n => (n + 1, envs n))

/-! ## The device pool of `CD3DDeviceManager` (D3DDeviceManager.h, d3ddevicemanager.cpp) -/

structure D3DDeviceCreationParameters where
  AdapterOrdinal : Nat
  RTInitFlags : Nat
deriving DecidableEq, Repr

structure D3DDeviceInformation where
  pDeviceLevel1 : Nat
  CreateParams : D3DDeviceCreationParameters
  fIsDeviceLost : Bool
deriving DecidableEq, Repr

/-- A call that the code makes and that the properties below count: a
notification of the manager, or a callback of a registered listener. -/
inductive Event where
  | UnusableNotification (pUnusable : Nat)
  | NotifyAdapterStatus (pListener : Nat) (uAdapter : Nat) (fIsValid : Bool)
deriving DecidableEq, Repr

/-- The fields of `CD3DDeviceManager`.  `trace` and `deleted` are not fields of
the source: `trace` records, oldest first, the `UnusableNotification` calls
received and the `NotifyAdapterStatus` calls made; `deleted` records the devices
on which `delete` was called. -/
structure CD3DDeviceManager where
  m_cCallers : Nat
  m_pID3D : Nat
  m_fD3DLoaded : Bool
  m_pDisplaySet : Nat
  m_pNextDisplaySet : Nat
  m_pNullRefDevice : Nat
  m_pSWDevice : Nat
  m_rgDeviceList : List D3DDeviceInformation
  m_iFirstUnusable : Nat
  m_rgAdapterStatusListeners : List Nat
  trace : List Event
  deleted : List Nat
deriving DecidableEq, Repr

/-- The constructor `CD3DDeviceManager()`. -/
def CD3DDeviceManager.ctor : CD3DDeviceManager where
  m_cCallers := 0
  m_pID3D := 0
  m_fD3DLoaded := false
  m_pDisplaySet := 0
  m_pNextDisplaySet := 0
  m_pNullRefDevice := 0
  m_pSWDevice := 0
  m_rgDeviceList := []
  m_iFirstUnusable := 0
  m_rgAdapterStatusListeners := []
  trace := []
  deleted := []

def CD3DDeviceManager.IncCallers (m : CD3DDeviceManager) : CD3DDeviceManager :=
  { m with m_cCallers := (m.m_cCallers + 1) % UINT_MOD }

def CD3DDeviceManager.DecCallers (m : CD3DDeviceManager) : CD3DDeviceManager :=
  let cCallers := (m.m_cCallers + UINT_MOD - 1) % UINT_MOD
  if cCallers = 0 then
    if m.m_fD3DLoaded then
      if m.m_pID3D ≠ 0 then
        { m with
          m_cCallers := cCallers
          m_pNullRefDevice := 0
          m_pID3D := 0
          m_pDisplaySet := 0
          m_fD3DLoaded := false
          m_pNextDisplaySet := 0 }
      else
        { m with
          m_cCallers := cCallers
          m_pDisplaySet := 0
          m_fD3DLoaded := false
          m_pNextDisplaySet := 0 }
    else { m with m_cCallers := cCallers, m_pNextDisplaySet := 0 }
  else { m with m_cCallers := cCallers }

def CD3DDeviceManager.AddAdapterStatusListener (m : CD3DDeviceManager) (pListener : Nat) :
    CD3DDeviceManager :=
  { m with m_rgAdapterStatusListeners := m.m_rgAdapterStatusListeners ++ [pListener] }

/-- The code of `NotifyDeviceLost(info)` for the listeners registered: the entry
as the call leaves it, and the listener callbacks made, in order. -/
def NotifyDeviceLost (listeners : List Nat) (info : D3DDeviceInformation) :
    D3DDeviceInformation × List Event :=
  if !info.fIsDeviceLost then
    ({ info with fIsDeviceLost := true },
     listeners.map (fun pListener =>
       Event.NotifyAdapterStatus pListener info.CreateParams.AdapterOrdinal false))
  else (info, [])

/-- The entry and the callbacks, in order, after `n` calls of `NotifyDeviceLost`
in a row on one entry. -/
def NotifyDeviceLost_times (listeners : List Nat) :
    Nat → D3DDeviceInformation → D3DDeviceInformation × List Event
  | 0, info => (info, [])
  | n + 1, info =>
    let r := NotifyDeviceLost listeners info
    let r1 := NotifyDeviceLost_times listeners n r.1
    (r1.1, r.2 ++ r1.2)

/-- The call `NotifyDeviceLost(m_rgDeviceList[i])` inside the manager. -/
def CD3DDeviceManager.NotifyDeviceLostAt (m : CD3DDeviceManager) (i : Nat) :
    Except Fault CD3DDeviceManager :=
  match DynArray.at m.m_rgDeviceList i with
  | .error e => .error e
  | .ok info =>
    let r := NotifyDeviceLost m.m_rgAdapterStatusListeners info
    .ok { m with m_rgDeviceList := m.m_rgDeviceList.set i r.1, trace := m.trace ++ r.2 }

/-- The assignment `rg[dst] = rg[src]`. -/
def DynArray.copy {α : Type} (rg : List α) (dst src : Nat) : Except Fault (List α) :=
  match DynArray.at rg src with
  | .error e => .error e
  | .ok a => DynArray.put rg dst a

/-- The body of the `if` in the loop of `UnusableNotification`, for a match at
index `i`. -/
def CD3DDeviceManager.UnusableNotification_found (m : CD3DDeviceManager) (i : Nat) :
    Except Fault CD3DDeviceManager :=
  match m.NotifyDeviceLostAt i with
  | .error e => .error e
  | .ok m1 =>
    let iFirstUnusable := (m1.m_iFirstUnusable + UINT_MOD - 1) % UINT_MOD
    if i ≠ iFirstUnusable then
      match DynArray.at m1.m_rgDeviceList i with
      | .error e => .error e
      | .ok temp =>
        match DynArray.copy m1.m_rgDeviceList i iFirstUnusable with
        | .error e => .error e
        | .ok rg1 =>
          match DynArray.put rg1 iFirstUnusable temp with
          | .error e => .error e
          | .ok rg2 => .ok { m1 with m_iFirstUnusable := iFirstUnusable, m_rgDeviceList := rg2 }
    else .ok { m1 with m_iFirstUnusable := iFirstUnusable }

/-- The loop of `UnusableNotification` with `n` iterations left, at index `i`. -/
def CD3DDeviceManager.UnusableNotification_scan (pDeviceLevel1 : Nat) :
    Nat → Nat → CD3DDeviceManager → Except Fault CD3DDeviceManager
  | 0, _, m => .ok m
  | n + 1, i, m =>
    match DynArray.at m.m_rgDeviceList i with
    | .error e => .error e
    | .ok info =>
      if info.pDeviceLevel1 = pDeviceLevel1 then m.UnusableNotification_found i
      else CD3DDeviceManager.UnusableNotification_scan pDeviceLevel1 n (i + 1) m

def CD3DDeviceManager.UnusableNotification (m : CD3DDeviceManager) (pUnusable : Nat) :
    Except Fault CD3DDeviceManager :=
  CD3DDeviceManager.UnusableNotification_scan pUnusable m.m_iFirstUnusable 0
    { m with trace := m.trace ++ [Event.UnusableNotification pUnusable] }

/-- The body of the loop of `UnusedNotification` for a match at index `i` whose
reference count is zero; `uCount` is the count read before the loop. -/
def CD3DDeviceManager.UnusedNotification_remove (m : CD3DDeviceManager) (uCount i : Nat) :
    Except Fault CD3DDeviceManager :=
  match DynArray.at m.m_rgDeviceList i with
  | .error e => .error e
  | .ok info =>
    match m.NotifyDeviceLostAt i with
    | .error e => .error e
    | .ok m1 =>
      let m2 := { m1 with deleted := m1.deleted ++ [info.pDeviceLevel1] }
      let iLast := (uCount + UINT_MOD - 1) % UINT_MOD
      let moved : Except Fault (Nat × List D3DDeviceInformation) :=
        if i < m2.m_iFirstUnusable then
          let iFirstUnusable := (m2.m_iFirstUnusable + UINT_MOD - 1) % UINT_MOD
          match DynArray.copy m2.m_rgDeviceList i iFirstUnusable with
          | .error e => .error e
          | .ok rg1 =>
            match DynArray.copy rg1 iFirstUnusable iLast with
            | .error e => .error e
            | .ok rg2 => .ok (iFirstUnusable, rg2)
        else
          match DynArray.copy m2.m_rgDeviceList i iLast with
          | .error e => .error e
          | .ok rg1 => .ok (m2.m_iFirstUnusable, rg1)
      match moved with
      | .error e => .error e
      | .ok (iFirstUnusable, rg) =>
        .ok (CD3DDeviceManager.DecCallers
          { m2 with
            m_iFirstUnusable := iFirstUnusable
            m_rgDeviceList := DynArray.SetCount rg iLast info })

/-- The loop of `UnusedNotification` with `n` iterations left, at index `i`;
`GetRefCount p` is the reference count of the device `p`. -/
def CD3DDeviceManager.UnusedNotification_scan (GetRefCount : Nat → Nat)
    (pDeviceLevel1 uCount : Nat) :
    Nat → Nat → CD3DDeviceManager → Except Fault CD3DDeviceManager
  | 0, _, m => .ok m
  | n + 1, i, m =>
    match DynArray.at m.m_rgDeviceList i with
    | .error e => .error e
    | .ok info =>
      if info.pDeviceLevel1 = pDeviceLevel1 then
        if GetRefCount pDeviceLevel1 ≠ 0 then .ok m
        else m.UnusedNotification_remove uCount i
      else
        CD3DDeviceManager.UnusedNotification_scan GetRefCount pDeviceLevel1 uCount n (i + 1) m

def CD3DDeviceManager.UnusedNotification (m : CD3DDeviceManager) (GetRefCount : Nat → Nat)
    (pUnused : Nat) : Except Fault CD3DDeviceManager :=
  if m.m_fD3DLoaded then
    if m.m_pSWDevice = pUnused ∧ GetRefCount pUnused = 0 then
      .ok (CD3DDeviceManager.DecCallers
        { m with deleted := m.deleted ++ [pUnused], m_pSWDevice := 0 })
    else
      CD3DDeviceManager.UnusedNotification_scan GetRefCount pUnused
        (m.m_rgDeviceList.length % UINT_MOD) (m.m_rgDeviceList.length % UINT_MOD) 0 m
  else .ok m

/-- What the display manager and the native layer answer during one
`GetD3DDevice` or `GetSWDevice` call. -/
structure DeviceEnv where
  /-- Result of `g_DisplayManager.DangerousGetLatestDisplaySet`. -/
  hrLatestDisplaySet : HRESULT
  /-- The display set it yields. -/
  pLatestDisplaySet : Nat
  /-- Value of `DangerousHasDisplayStateChanged()` at the start of `CreateNewDevice`. -/
  fChangedBeforeCreate : Bool
  hrD3D11CreateDevice : HRESULT
  hrQueryInterface : HRESULT
  /-- Result of `CD3DDeviceLevel1::Create`. -/
  hrDeviceCreate : HRESULT
  /-- The device wrapper that `CD3DDeviceLevel1::Create` makes when it succeeds. -/
  pNewDeviceLevel1 : Nat
  /-- Result of `m_rgDeviceList.ReserveSpace(1)`. -/
  hrReserveSpace : HRESULT
  /-- Result of `m_pDisplaySet->EnsureSwRastIsRegistered()`. -/
  hrEnsureSwRastIsRegistered : HRESULT
  /-- Content of the array element that `SetCount(iNewLast+1)` adds. -/
  uninitialised : D3DDeviceInformation
  /-- Value of `DangerousHasDisplayStateChanged()` at `Cleanup` of `GetD3DDevice`. -/
  fChangedAtExit : Bool

def CD3DDeviceManager.InitializeD3DReferences (m : CD3DDeviceManager) (env : DeviceEnv)
    (pGivenDisplaySet : Nat) : CD3DDeviceManager × HRESULT :=
  if FAILED env.hrLatestDisplaySet then (m, env.hrLatestDisplaySet)
  else if pGivenDisplaySet ≠ 0 ∧ pGivenDisplaySet ≠ env.pLatestDisplaySet then
    (m, WGXERR_DISPLAYSTATEINVALID)
  else
    ({ m with
        m_fD3DLoaded := true
        m_pDisplaySet := env.pLatestDisplaySet
        m_pNextDisplaySet := 0 }, env.hrLatestDisplaySet)

/-- The code of `GetAvailableDevice`: the result code and `*ppDeviceLevel1`
(`none` when it is not written). -/
def CD3DDeviceManager.GetAvailableDevice (m : CD3DDeviceManager) :
    Except Fault (HRESULT × Option Nat) :=
  if m.m_rgDeviceList.length = 0 then .ok (E_FAIL, none)
  else
    match DynArray.at m.m_rgDeviceList 0 with
    | .error e => .error e
    | .ok info => .ok (S_OK, some info.pDeviceLevel1)

/-- The code of `CreateNewDevice`: the manager, the result code and
`*ppDeviceLevel1` (`none` when it is not written).  When the device cannot be
tracked it is released and deleted; the `UnusedNotification` that the release
sends does not find the device and is left out. -/
def CD3DDeviceManager.CreateNewDevice (m : CD3DDeviceManager) (env : DeviceEnv) :
    Except Fault (CD3DDeviceManager × HRESULT × Option Nat) :=
  if env.fChangedBeforeCreate then .ok (m, WGXERR_DISPLAYSTATEINVALID, none)
  else if FAILED env.hrD3D11CreateDevice then .ok (m, env.hrD3D11CreateDevice, none)
  else if FAILED env.hrQueryInterface then .ok (m, env.hrQueryInterface, none)
  else if FAILED env.hrDeviceCreate then .ok (m, env.hrDeviceCreate, none)
  else if FAILED env.hrReserveSpace then
    .ok ({ m with deleted := m.deleted ++ [env.pNewDeviceLevel1] }, env.hrReserveSpace, none)
  else
    let iNewLast := m.m_rgDeviceList.length % UINT_MOD
    let rg := DynArray.SetCount m.m_rgDeviceList ((iNewLast + 1) % UINT_MOD) env.uninitialised
    let moved : Except Fault (List D3DDeviceInformation) :=
      if m.m_iFirstUnusable < iNewLast then DynArray.copy rg iNewLast m.m_iFirstUnusable
      else .ok rg
    match moved with
    | .error e => .error e
    | .ok rg1 =>
      match DynArray.at rg1 m.m_iFirstUnusable with
      | .error e => .error e
      | .ok info =>
        .ok ({ m with
                m_rgDeviceList := rg1.set m.m_iFirstUnusable
                  { info with pDeviceLevel1 := env.pNewDeviceLevel1, fIsDeviceLost := false }
                m_iFirstUnusable := (m.m_iFirstUnusable + 1) % UINT_MOD
                m_cCallers := (m.m_cCallers + 1) % UINT_MOD },
              env.hrReserveSpace, some env.pNewDeviceLevel1)

/-- The code of `GetD3DDevice`; `pGivenDisplaySet` is
`pDisplay ? pDisplay->DisplaySet() : NULL`.  Returns the manager, the result
code and `*ppDeviceLevel1` (`none` for `NULL`).  The `Release` of the device on
the path where the display state has changed is not modelled. -/
def CD3DDeviceManager.GetD3DDevice (m : CD3DDeviceManager) (env : DeviceEnv)
    (pGivenDisplaySet : Nat) : Except Fault (CD3DDeviceManager × HRESULT × Option Nat) :=
  let atCleanup : Except Fault (CD3DDeviceManager × HRESULT × Option Nat) :=
    match m.InitializeD3DReferences env pGivenDisplaySet with
    | (m1, hr1) =>
      if FAILED hr1 then .ok (m1, hr1, none)
      else
        match m1.GetAvailableDevice with
        | .error e => .error e
        | .ok (hr2, pp) =>
          if FAILED hr2 then m1.CreateNewDevice env
          else .ok (m1, hr2, pp)
  match atCleanup with
  | .error e => .error e
  | .ok (m2, hr, pp) =>
    if m2.m_pDisplaySet ≠ 0 ∧ env.fChangedAtExit = true then
      .ok (m2, WGXERR_DISPLAYSTATEINVALID, none)
    else .ok (m2, hr, pp)

/-- The code of `GetSWDevice`: the manager, the result code, `*ppDevice` (`none`
for `NULL`) and whether `D3D11CreateDevice` was called. -/
def CD3DDeviceManager.GetSWDevice (m : CD3DDeviceManager) (env : DeviceEnv) :
    CD3DDeviceManager × HRESULT × Option Nat × Bool :=
  let atCleanup : CD3DDeviceManager × HRESULT × Option Nat × Bool :=
    match (if m.m_pID3D = 0 then m.InitializeD3DReferences env 0 else (m, S_OK)) with
    | (m1, hr1) =>
      if FAILED hr1 then (m1, hr1, none, false)
      else if FAILED env.hrEnsureSwRastIsRegistered then
        (m1, env.hrEnsureSwRastIsRegistered, none, false)
      else if m1.m_pSWDevice = 0 then
        if FAILED env.hrD3D11CreateDevice then (m1, env.hrD3D11CreateDevice, none, true)
        else if FAILED env.hrQueryInterface then (m1, env.hrQueryInterface, none, true)
        else if FAILED env.hrDeviceCreate then (m1, env.hrDeviceCreate, none, true)
        else
          ({ m1 with
              m_cCallers := (m1.m_cCallers + 1) % UINT_MOD
              m_pSWDevice := env.pNewDeviceLevel1 },
            env.hrDeviceCreate, some env.pNewDeviceLevel1, true)
      else (m1, env.hrEnsureSwRastIsRegistered, some m1.m_pSWDevice, false)
  match atCleanup with
  | (m2, hr, pp, fCreated) =>
    (m2, if hr = D3DERR_DEVICELOST then WGXERR_DISPLAYSTATEINVALID else hr, pp, fCreated)

/-- The manager and the device objects, by address. -/
structure World where
  manager : CD3DDeviceManager
  device : Nat → CD3DDeviceLevel1

/-- The code of `CD3DDeviceLevel1::MarkUnusable` called on the device at
`pDevice`: the body of the function is empty. -/
def CD3DDeviceLevel1.MarkUnusable (w : World) (_pDevice : Nat)
    (_fMayBeMultithreadedCall : Bool) : World :=
  w

/-- The loop `while (m_iFirstUnusable > 0)` of `HandleDisplayChange`; `none`
when the loop has not ended after `fuel` iterations. -/
def HandleDisplayChange_loop : Nat → World → Option (Except Fault World)
  | 0, _ => none
  | fuel + 1, w =>
    if w.manager.m_iFirstUnusable > 0 then
      match DynArray.at w.manager.m_rgDeviceList
              ((w.manager.m_iFirstUnusable + UINT_MOD - 1) % UINT_MOD) with
      | .error e => some (.error e)
      | .ok info =>
        HandleDisplayChange_loop fuel (CD3DDeviceLevel1.MarkUnusable w info.pDeviceLevel1 false)
    else some (.ok w)

/-- The code of `HandleDisplayChange` (reached through `NotifyDisplayChange`);
`none` when its loop has not ended after `fuel` iterations. -/
def HandleDisplayChange (fuel : Nat) (w : World) (pOldDisplaySet pNewDisplaySet : Nat) :
    Option (Except Fault World) :=
  if pOldDisplaySet = w.manager.m_pDisplaySet then
    match HandleDisplayChange_loop fuel w with
    | none => none
    | some (.error e) => some (.error e)
    | some (.ok w1) =>
      let w2 :=
        if w1.manager.m_pSWDevice ≠ 0 then
          CD3DDeviceLevel1.MarkUnusable w1 w1.manager.m_pSWDevice true
        else w1
      let m3 :=
        if w2.manager.m_fD3DLoaded ∧ w2.manager.m_pID3D ≠ 0 then
          { w2.manager with m_pID3D := 0 }
        else w2.manager
      some (.ok { w2 with
        manager := { m3 with m_pDisplaySet := 0, m_pNextDisplaySet := pNewDisplaySet } })
  else some (.ok w)

/-- A manager tracking one usable device (address 1, adapter 0) for the display
set 900, with one registered listener (address 50). -/
def examplePool : CD3DDeviceManager :=
  { CD3DDeviceManager.ctor with
    m_cCallers := 2
    m_pID3D := 800
    m_fD3DLoaded := true
    m_pDisplaySet := 900
    m_rgDeviceList := [⟨1, ⟨0, 0⟩, false⟩]
    m_iFirstUnusable := 1
    m_rgAdapterStatusListeners := [50] }

def exampleWorld : World :=
  { manager := examplePool, device := fun _ => CD3DDeviceLevel1.ctor 7 }

/-- Native answers with which `GetD3DDevice` succeeds on every path: the display
set is still 900 and device creation, if attempted, yields the wrapper 2. -/
def exampleDeviceEnv : DeviceEnv where
  hrLatestDisplaySet := S_OK
  pLatestDisplaySet := 900
  fChangedBeforeCreate := false
  hrD3D11CreateDevice := S_OK
  hrQueryInterface := S_OK
  hrDeviceCreate := S_OK
  pNewDeviceLevel1 := 2
  hrReserveSpace := S_OK
  hrEnsureSwRastIsRegistered := S_OK
  uninitialised := ⟨0, ⟨0, 0⟩, false⟩
  fChangedAtExit := false

/-- The pool `examplePool` after `UnusableNotification` for its device: the
device is still tracked (it is still referenced) but in the Unusable partition. -/
def examplePoolLost : CD3DDeviceManager :=
  { examplePool with
    m_rgDeviceList := [⟨1, ⟨0, 0⟩, true⟩]
    m_iFirstUnusable := 0
    trace := [Event.UnusableNotification 1, Event.NotifyAdapterStatus 50 0 false] }

/-- Whether an event is a `NotifyAdapterStatus` call of the listener `pListener`. -/
def Event.isCallTo (pListener : Nat) : Event → Bool
  | Event.NotifyAdapterStatus p _ _ => decide (p = pListener)
  | Event.UnusableNotification _ => false

/-- A manager tracking the usable devices 11, 12, 13 and the unusable device 14,
with one registered listener (address 50). -/
def examplePool4 : CD3DDeviceManager :=
  { CD3DDeviceManager.ctor with
    m_cCallers := 5
    m_pID3D := 800
    m_fD3DLoaded := true
    m_pDisplaySet := 900
    m_rgDeviceList :=
      [⟨11, ⟨0, 0⟩, false⟩, ⟨12, ⟨0, 0⟩, false⟩, ⟨13, ⟨0, 0⟩, false⟩, ⟨14, ⟨0, 0⟩, true⟩]
    m_iFirstUnusable := 3
    m_rgAdapterStatusListeners := [50] }

/-! ## Runs of marker calls, and the calls they make -/

/-- One call of the marker interface of the device. -/
inductive MarkerOp where
  | insert (ullMarkerId : Nat) (env : InsertEnv)
  | consume (GetData : Nat → Nat → HRESULT) (fForceFlush : Bool)

/-- The calls `ops` made in order on the device `d`: the device after the last
call and the result codes returned, oldest first. -/
def CD3DDeviceLevel1.runMarkerOps :
    CD3DDeviceLevel1 → List MarkerOp → Except Fault (CD3DDeviceLevel1 × List HRESULT)
  | d, [] => .ok (d, [])
  | d, MarkerOp.insert ullMarkerId env :: rest =>
    match CD3DDeviceLevel1.runMarkerOps (d.InsertGPUMarker ullMarkerId env).1 rest with
    | .error e => .error e
    | .ok (d1, hrs) => .ok (d1, (d.InsertGPUMarker ullMarkerId env).2 :: hrs)
  | d, MarkerOp.consume GetData fForceFlush :: rest =>
    match d.ConsumePresentMarkers GetData fForceFlush with
    | .error e => .error e
    | .ok (d0, hr) =>
      match CD3DDeviceLevel1.runMarkerOps d0 rest with
      | .error e => .error e
      | .ok (d1, hrs) => .ok (d1, hr :: hrs)

/-- The native `GetData(pQuery, dwFlags)` calls that `CGPUMarker::CheckStatus`
makes. -/
def CGPUMarker.CheckStatus_queries (m : CGPUMarker) (fFlush : Bool) : List (Nat × Nat) :=
  if m.m_fIssued then
    if !m.m_fConsumed then
      [(m.m_pQuery, if fFlush then 0 else D3D11_ASYNC_GETDATA_DONOTFLUSH)]
    else []
  else []

/-- The status checks that the loop of `ConsumePresentMarkers` makes, first check
first: the index and the flag `fFlushMarkers` passed to `IsConsumedGPUMarker`.
The arguments are those of `ConsumePresentMarkers_loop`. -/
def CD3DDeviceLevel1.ConsumePresentMarkers_loop_checks (GetData : Nat → Nat → HRESULT) :
    Nat → CD3DDeviceLevel1 → Bool → List (Nat × Bool)
  | 0, _, _ => []
  | i + 1, d, fForceFlush =>
    (i, fForceFlush) ::
      match d.IsConsumedGPUMarker GetData i fForceFlush with
      | .error _ => []
      | .ok (d1, hr1, fMarkerConsumed) =>
        if FAILED hr1 then []
        else if fMarkerConsumed then []
        else if fForceFlush then
          CD3DDeviceLevel1.ConsumePresentMarkers_loop_checks GetData i
            { d1 with m_uNumSuccessfulPresentsSinceMarkerFlush := 0 } false
        else
          CD3DDeviceLevel1.ConsumePresentMarkers_loop_checks GetData i d1 fForceFlush

/-- The status checks that one `ConsumePresentMarkers` call makes. -/
def CD3DDeviceLevel1.ConsumePresentMarkers_checks (d : CD3DDeviceLevel1)
    (GetData : Nat → Nat → HRESULT) (fForceFlush : Bool) : List (Nat × Bool) :=
  let c := d.m_rgpMarkerActive.length % UINT_MOD
  let n := if c < 2 ^ 31 then c else 0
  CD3DDeviceLevel1.ConsumePresentMarkers_loop_checks GetData n d fForceFlush

/-- Native answers of an `InsertGPUMarker` call in which the creation of the
query fails with `E_FAIL`. -/
def envCreateFails : InsertEnv := ⟨S_OK, E_FAIL, 0, 0⟩

/-- Native answers of an `InsertGPUMarker` call in which the first-use probe
fails with `E_FAIL`. -/
def envProbeFails : InsertEnv := ⟨E_FAIL, E_FAIL, 0, 0⟩

/-- A GPU that has completed every query. -/
def allDone : Nat → Nat → HRESULT := fun _ _ => S_OK

/-- The world of `exampleWorld` in which every device object is `exampleDevice`,
a device with three outstanding markers. -/
def exampleWorldMarkers : World :=
  { manager := examplePool, device := fun _ => exampleDevice }

/-- Marker tracking has been tested and is off, and both marker arrays are
empty: the state that `DisableGPUMarkers` and a failed probe leave. -/
def CD3DDeviceLevel1.markersOff (d : CD3DDeviceLevel1) : Prop :=
  d.AreGPUMarkersEnabled = false ∧ d.AreGPUMarkersTested = true ∧
    d.m_rgpMarkerActive = [] ∧ d.m_rgpMarkerFree = []

/-- A new device after 35 `InsertGPUMarker` calls (ids 1 to 35) on which every
native call succeeded. -/
def exampleDevice35 : CD3DDeviceLevel1 :=
  (CD3DDeviceLevel1.ctor 7).insertMarkers (insertCalls (fun n => envSuccess (n + 1)) 35)

/-! ## Device operations of `CD3DDeviceLevel1` (d3ddevice.cpp) -/

/-- The code `0x8876017C`. -/
def D3DERR_OUTOFVIDEOMEMORY : HRESULT := -2005532292
/-- The code `0x88760874`. -/
def D3DERR_DEVICEHUNG : HRESULT := -2005530508
/-- The code `0x88760870`. -/
def D3DERR_DEVICEREMOVED : HRESULT := -2005530512
/-- The code `0x80070057`. -/
def E_INVALIDARG : HRESULT := -2147024809
/-- The code `HRESULT_FROM_WIN32(ERROR_INVALID_WINDOW_HANDLE)`, `0x80070578`. -/
def HRESULT_FROM_WIN32_ERROR_INVALID_WINDOW_HANDLE : HRESULT := -2147023496

/-- A call that a device operation makes on the native layer or on the device
itself, as recorded by the properties below. -/
inductive DeviceCall where
  | MarkUnusable (fMayBeMultithreadedCall : Bool)
  | CollectGarbage
  | EndScene
  | PresentWithD3D
  | BeginScene
  | ClearState
  | ReleaseUseOfDepthStencilTexture
deriving DecidableEq, Repr

/-- The loop between `BEGIN_DEVICE_ALLOCATION` and `END_DEVICE_ALLOCATION`,
`do { hr = native call } while (m_resourceManager.FreeSomeVideoMemory(hr))`.
`native k` is the result of attempt `k` (from 0) of the native call and
`FreeSomeVideoMemory k hr` the answer of the call made after it.  Returns the
value of `hr` after the loop and the number of attempts made; `none` when the
loop has not ended after `fuel` attempts.  The second argument is the number
of attempts already made. -/
def deviceAllocation (native : Nat → HRESULT) (FreeSomeVideoMemory : Nat → HRESULT → Bool) :
    Nat → Nat → Option (HRESULT × Nat)
  | 0, _ => none
  | fuel + 1, k =>
    if FreeSomeVideoMemory k (native k) then
      deviceAllocation native FreeSomeVideoMemory fuel (k + 1)
    else some (native k, k + 1)

/-- The code of `CreateVertexBuffer`; `CreateBuffer k` is the result of attempt
`k` of `m_pD3DDevice->CreateBuffer`.  Returns the device, the result code and
the number of `CreateBuffer` calls made; `none` when the allocation loop has not
ended after `fuel` attempts. -/
def CD3DDeviceLevel1.CreateVertexBuffer (d : CD3DDeviceLevel1) (CreateBuffer : Nat → HRESULT)
    (FreeSomeVideoMemory : Nat → HRESULT → Bool) (fuel : Nat) :
    Option (CD3DDeviceLevel1 × HRESULT × Nat) :=
  match deviceAllocation CreateBuffer FreeSomeVideoMemory fuel 0 with
  | none => none
  | some (hr, cAttempts) => some ((d.HandleDIE hr).1, (d.HandleDIE hr).2, cAttempts)

/-- What the rest of the device answers during one `Present` call. -/
structure PresentEnv where
  m_fInScene : Bool
  hrEndScene : HRESULT
  /-- Result of `PresentWithD3D`, which makes the native present call. -/
  hrPresentWithD3D : HRESULT
  hrBeginScene : HRESULT
  /-- The macro `MIL_THR_SECONDARY(expr)`: the value of `hr` after it, from the
  value of `hr` before it and the value of `expr`. -/
  MIL_THR_SECONDARY : HRESULT → HRESULT → HRESULT

/-- The code of `Present`: the result code and the calls made, in order.  The
update of the metrics is left out. -/
def CD3DDeviceLevel1.Present (d : CD3DDeviceLevel1) (env : PresentEnv) :
    HRESULT × List DeviceCall :=
  if FAILED d.m_hrDisplayInvalid then
    (d.m_hrDisplayInvalid, [DeviceCall.MarkUnusable false])
  else if env.m_fInScene then
    if FAILED env.hrEndScene then
      (env.hrEndScene, [DeviceCall.CollectGarbage, DeviceCall.EndScene])
    else if FAILED env.hrPresentWithD3D then
      (env.hrPresentWithD3D,
        [DeviceCall.CollectGarbage, DeviceCall.EndScene, DeviceCall.PresentWithD3D])
    else
      (env.MIL_THR_SECONDARY env.hrPresentWithD3D env.hrBeginScene,
        [DeviceCall.CollectGarbage, DeviceCall.EndScene, DeviceCall.PresentWithD3D,
          DeviceCall.BeginScene])
  else
    (env.hrPresentWithD3D, [DeviceCall.CollectGarbage, DeviceCall.PresentWithD3D])

/-- What `HandlePresentFailure` reads besides its argument `hr`. -/
structure PresentFailureEnv where
  /-- Whether `m_pCurrentRenderTargetNoRef` is set. -/
  fCurrentRenderTarget : Bool
  /-- The answer of `IsWindow(pMILDC->GetHWND())`. -/
  fIsWindow : Bool
  /-- The constant of this name. -/
  WGXERR_NEED_RECREATE_AND_PRESENT : HRESULT

/-- The code of `HandlePresentFailure`: the result code and the calls made. -/
def CD3DDeviceLevel1.HandlePresentFailure (env : PresentFailureEnv) (hr : HRESULT) :
    HRESULT × List DeviceCall :=
  let calls : List DeviceCall :=
    if env.fCurrentRenderTarget then
      [DeviceCall.ClearState, DeviceCall.ReleaseUseOfDepthStencilTexture]
    else []
  let hr1 : HRESULT :=
    if !env.fIsWindow then HRESULT_FROM_WIN32_ERROR_INVALID_WINDOW_HANDLE
    else if hr = E_FAIL ∨ hr = D3DERR_DRIVERINTERNALERROR then D3DERR_DEVICELOST
    else if hr = E_INVALIDARG then env.WGXERR_NEED_RECREATE_AND_PRESENT
    else hr
  if hr1 = D3DERR_DEVICELOST ∨ hr1 = D3DERR_DEVICEHUNG ∨ hr1 = D3DERR_DEVICEREMOVED then
    (WGXERR_DISPLAYSTATEINVALID, calls ++ [DeviceCall.MarkUnusable false])
  else (hr1, calls)

/-! ### Entry protection -/

/-- The fields of `CD3DDeviceLevel1` that `Enter` and `Leave` write. -/
structure DeviceEntry where
  m_cEntry : Nat
  m_dwThreadId : Nat
deriving DecidableEq, Repr

/-- The two fields as the constructor leaves them. -/
def DeviceEntry.ctor : DeviceEntry := ⟨0, 0⟩

/-- The code of `Enter` run on the thread `dwCurrentThreadId`.  The critical
section and the debug entry check, which do not touch the two fields, are left
out, here and in `Leave`. -/
def CD3DDeviceLevel1.Enter (e : DeviceEntry) (dwCurrentThreadId : Nat) : DeviceEntry :=
  { m_cEntry := (e.m_cEntry + 1) % UINT_MOD, m_dwThreadId := dwCurrentThreadId }

/-- The code of `Leave`; `--m_cEntry` on a `UINT` wraps from 0 to `2 ^ 32 - 1`. -/
def CD3DDeviceLevel1.Leave (e : DeviceEntry) : DeviceEntry :=
  let cEntry := if e.m_cEntry = 0 then UINT_MOD - 1 else e.m_cEntry - 1
  if cEntry = 0 then { m_cEntry := cEntry, m_dwThreadId := 0 }
  else { e with m_cEntry := cEntry }

def CD3DDeviceLevel1.IsEntered (e : DeviceEntry) : Bool := decide (e.m_cEntry > 0)

inductive EntryCall where
  | Enter
  | Leave
deriving DecidableEq, Repr

/-- The calls `calls` made in order by the thread `dwCurrentThreadId`. -/
def runEntryCalls (dwCurrentThreadId : Nat) : DeviceEntry → List EntryCall → DeviceEntry
  | e, [] => e
  | e, EntryCall.Enter :: rest =>
    runEntryCalls dwCurrentThreadId (CD3DDeviceLevel1.Enter e dwCurrentThreadId) rest
  | e, EntryCall.Leave :: rest =>
    runEntryCalls dwCurrentThreadId (CD3DDeviceLevel1.Leave e) rest

/-! ### Frame advance -/

/-- The three operations of `m_resourceManager` that `AdvanceFrame` calls, on a
resource manager of type `ρ`. -/
structure ResourceManagerOps (ρ : Type) where
  EndFrame : ρ → ρ
  DestroyReleasedResourcesFromLastFrame : ρ → ρ
  /-- The call `DestroyResources(WithDelay)` for `true`, `DestroyResources(WithoutDelay)`
  for `false`. -/
  DestroyResources : Bool → ρ → ρ

/-- The fields of `CD3DDeviceLevel1` that `AdvanceFrame` reads or writes. -/
structure DeviceFrame (ρ : Type) where
  m_uFrameNumber : Nat
  m_resourceManager : ρ

/-- The two fields of a new device whose resource manager is `rm`. -/
def DeviceFrame.ctor {ρ : Type} (rm : ρ) : DeviceFrame ρ := ⟨0, rm⟩

def CD3DDeviceLevel1.AdvanceFrame {ρ : Type} (ops : ResourceManagerOps ρ) (s : DeviceFrame ρ)
    (uFrameNumber : Nat) : DeviceFrame ρ :=
  if s.m_uFrameNumber ≠ uFrameNumber then
    { m_uFrameNumber := uFrameNumber
      m_resourceManager :=
        ops.DestroyResources true
          (ops.DestroyReleasedResourcesFromLastFrame (ops.EndFrame s.m_resourceManager)) }
  else s

/-- A call of the resource manager. -/
inductive ResourceManagerCall where
  | EndFrame
  | DestroyReleasedResourcesFromLastFrame
  | DestroyResources (fWithDelay : Bool)
deriving DecidableEq, Repr

/-- A resource manager that only records the calls it receives, oldest first. -/
def recordingOps : ResourceManagerOps (List ResourceManagerCall) where
  EndFrame := fun calls => calls ++ [ResourceManagerCall.EndFrame]
  DestroyReleasedResourcesFromLastFrame :=
    fun calls => calls ++ [ResourceManagerCall.DestroyReleasedResourcesFromLastFrame]
  DestroyResources := fun fWithDelay calls =>
    calls ++ [ResourceManagerCall.DestroyResources fWithDelay]

/-- An environment of `HandlePresentFailure` for the examples.  The value given
for `WGXERR_NEED_RECREATE_AND_PRESENT` is a stand-in: the constant is read only
for an `E_INVALIDARG` result. -/
def examplePresentFailureEnv (fCurrentRenderTarget fIsWindow : Bool) : PresentFailureEnv :=
  ⟨fCurrentRenderTarget, fIsWindow, E_FAIL⟩

/-! ### `FlushBufferFan` -/

/-- The number of values of a `WORD`. -/
def WORD_MOD : Nat := 2 ^ 16

/-- The arguments of one `DrawIndexedTriangleListUP` call that the properties
below look at. -/
structure DrawIndexedTriangleListUP where
  cVertices : Nat
  cTriangles : Nat
  indexArray : List Nat
deriving DecidableEq, Repr

/-- The loop of `FlushBufferFan` with `n` iterations left, at the loop variable
`idx` and the write position `indexCur`; each value is stored as a `WORD`. -/
def FlushBufferFan_fill : Nat → Nat → Nat → List Nat → Except Fault (List Nat)
  | 0, _, _, indexArray => .ok indexArray
  | n + 1, idx, indexCur, indexArray =>
    match DynArray.put indexArray indexCur 0 with
    | .error e => .error e
    | .ok a1 =>
      match DynArray.put a1 (indexCur + 1) ((idx + 1) % WORD_MOD) with
      | .error e => .error e
      | .ok a2 =>
        match DynArray.put a2 (indexCur + 2) ((idx + 2) % WORD_MOD) with
        | .error e => .error e
        | .ok a3 => FlushBufferFan_fill n (idx + 1) (indexCur + 3) a3

/-- The code of `FlushBufferFan` for a buffer of `cVertices` vertices; `hrDraw`
is the result of `DrawIndexedTriangleListUP`.  Returns the device, the result
code and the draw call made, if any.  The loop counter `idx` is an `int`: the
embedding is that of the source for `cVertices - 2 < 2 ^ 31`. -/
def CD3DDeviceLevel1.FlushBufferFan (d : CD3DDeviceLevel1) (cVertices : Nat)
    (hrDraw : HRESULT) :
    Except Fault (CD3DDeviceLevel1 × HRESULT × Option DrawIndexedTriangleListUP) :=
  if cVertices > 2 then
    let cTriangles := cVertices - 2
    -- indexArray.resize(cTriangles * 3), the product being a UINT
    match FlushBufferFan_fill cTriangles 0 0
            (List.replicate ((cTriangles * 3) % UINT_MOD) 0) with
    | .error e => .error e
    | .ok indexArray =>
      .ok ((d.HandleDIE hrDraw).1, (d.HandleDIE hrDraw).2,
        some ⟨cVertices, cTriangles, indexArray⟩)
  else .ok ((d.HandleDIE S_OK).1, (d.HandleDIE S_OK).2, none)

/-- The index list of a triangle fan of `n` triangles, the first one using the
vertices `0, idx + 1, idx + 2`, each index kept modulo `2 ^ 16`. -/
def fanIndices : Nat → Nat → List Nat
  | 0, _ => []
  | n + 1, idx => 0 :: ((idx + 1) % WORD_MOD) :: ((idx + 2) % WORD_MOD) :: fanIndices n (idx + 1)

/-! ## The state-object caches of `CD3DRenderState` (d3drenderstate.cpp) -/

/-- What the native layer answers to one `Create...State` call: the result code
and the object it yields.  A failed call leaves the output pointer as the caller
initialised it, `nullptr`. -/
structure CreateStateEnv where
  hr : HRESULT
  pState : Nat

/-- A native call of a state setter, as recorded by the properties below. -/
inductive StateCall where
  | CreateRasterizerState
  | CreateDepthStencilState
  | CreateSamplerState
  | CreateBlendState
  | RSSetState (pState : Nat)
  | OMSetDepthStencilState (pState : Nat)
  | PSSetSamplers (samplerIdx : Nat) (pState : Nat)
  | OMSetBlendState (pState : Nat) (dwBlendFactor : Nat)
deriving DecidableEq, Repr

/-- The four maps of `CD3DRenderState` from a descriptor to the compiled state
object, for descriptor types `R`, `D`, `S`, `B` compared by value; `calls` is
not a field of the source and records the native calls made, oldest first. -/
structure CD3DRenderState (R D S B : Type) where
  m_compiledRasterizerStates : R → Option Nat
  m_compiledDepthStencilStates : D → Option Nat
  m_compiledSamplerStates : S → Option Nat
  m_compiledBlendStates : B → Option Nat
  calls : List StateCall

/-- The value that a state setter stores in its map on a miss: the local
pointer after the `Create...State` call. -/
def CreateStateEnv.stored (env : CreateStateEnv) : Nat :=
  if FAILED env.hr then 0 else env.pState

section
variable {R D S B : Type} [DecidableEq R] [DecidableEq D] [DecidableEq S] [DecidableEq B]

def CD3DRenderState.SetRasterizerState (s : CD3DRenderState R D S B) (rasterizerDesc : R)
    (env : CreateStateEnv) : CD3DRenderState R D S B × HRESULT :=
  match s.m_compiledRasterizerStates rasterizerDesc with
  | none =>
    ({ s with
        m_compiledRasterizerStates :=
          Function.update s.m_compiledRasterizerStates rasterizerDesc (some env.stored)
        calls := s.calls ++ [StateCall.CreateRasterizerState, StateCall.RSSetState env.stored] },
      env.hr)
  | some pState => ({ s with calls := s.calls ++ [StateCall.RSSetState pState] }, S_OK)

def CD3DRenderState.SetDepthStencilState (s : CD3DRenderState R D S B) (depthStencilDesc : D)
    (env : CreateStateEnv) : CD3DRenderState R D S B × HRESULT :=
  match s.m_compiledDepthStencilStates depthStencilDesc with
  | none =>
    ({ s with
        m_compiledDepthStencilStates :=
          Function.update s.m_compiledDepthStencilStates depthStencilDesc (some env.stored)
        calls := s.calls ++
          [StateCall.CreateDepthStencilState, StateCall.OMSetDepthStencilState env.stored] },
      env.hr)
  | some pState =>
    ({ s with calls := s.calls ++ [StateCall.OMSetDepthStencilState pState] }, S_OK)

def CD3DRenderState.SetSamplerState (s : CD3DRenderState R D S B) (samplerIdx : Nat)
    (samplerDesc : S) (env : CreateStateEnv) : CD3DRenderState R D S B × HRESULT :=
  match s.m_compiledSamplerStates samplerDesc with
  | none =>
    ({ s with
        m_compiledSamplerStates :=
          Function.update s.m_compiledSamplerStates samplerDesc (some env.stored)
        calls := s.calls ++
          [StateCall.CreateSamplerState, StateCall.PSSetSamplers samplerIdx env.stored] },
      env.hr)
  | some pState =>
    ({ s with calls := s.calls ++ [StateCall.PSSetSamplers samplerIdx pState] }, S_OK)

def CD3DRenderState.SetBlendState (s : CD3DRenderState R D S B) (blendDesc : B)
    (dwBlendFactor : Nat) (env : CreateStateEnv) : CD3DRenderState R D S B × HRESULT :=
  match s.m_compiledBlendStates blendDesc with
  | none =>
    ({ s with
        m_compiledBlendStates :=
          Function.update s.m_compiledBlendStates blendDesc (some env.stored)
        calls := s.calls ++
          [StateCall.CreateBlendState, StateCall.OMSetBlendState env.stored dwBlendFactor] },
      env.hr)
  | some pState =>
    ({ s with calls := s.calls ++ [StateCall.OMSetBlendState pState dwBlendFactor] }, S_OK)

end

/-- One call of a state setter. -/
inductive StateOp (R D S B : Type) where
  | rasterizer (rasterizerDesc : R) (env : CreateStateEnv)
  | depthStencil (depthStencilDesc : D) (env : CreateStateEnv)
  | sampler (samplerIdx : Nat) (samplerDesc : S) (env : CreateStateEnv)
  | blend (blendDesc : B) (dwBlendFactor : Nat) (env : CreateStateEnv)

section
variable {R D S B : Type} [DecidableEq R] [DecidableEq D] [DecidableEq S] [DecidableEq B]

/-- The setter calls `ops` made in order. -/
def CD3DRenderState.runStateOps :
    CD3DRenderState R D S B → List (StateOp R D S B) → CD3DRenderState R D S B
  | s, [] => s
  | s, StateOp.rasterizer desc env :: rest =>
    CD3DRenderState.runStateOps (s.SetRasterizerState desc env).1 rest
  | s, StateOp.depthStencil desc env :: rest =>
    CD3DRenderState.runStateOps (s.SetDepthStencilState desc env).1 rest
  | s, StateOp.sampler samplerIdx desc env :: rest =>
    CD3DRenderState.runStateOps (s.SetSamplerState samplerIdx desc env).1 rest
  | s, StateOp.blend desc dwBlendFactor env :: rest =>
    CD3DRenderState.runStateOps (s.SetBlendState desc dwBlendFactor env).1 rest

end

/-- A render state with empty caches, the descriptors being numbers. -/
def exampleRenderState : CD3DRenderState Nat Nat Nat Nat :=
  ⟨fun _ => none, fun _ => none, fun _ => none, fun _ => none, []⟩

/-! ## The resource manager and the delayed release -/

/-- A resource queued for release in the resource manager. -/
structure ReleasedResource where
  pResource : Nat
  fRequiresDelayedRelease : Bool
  /-- The number of frame boundaries passed since the release. -/
  cFramesSinceRelease : Nat
deriving DecidableEq, Repr

/-- Modelled from the spec: `CD3DResourceManager`, whose code is not among the
sources.  The spec says that a released resource is queued and physically
released "either immediately (no delay) or after the two most recent frame
boundaries have passed (delayed), whichever the resource's flag demands".
`released` is the queue; `finalized` lists the resources physically released,
oldest first. -/
structure CD3DResourceManager where
  released : List ReleasedResource
  finalized : List Nat
deriving DecidableEq, Repr

/-- Modelled from the spec: the release of the last reference of a resource,
which queues it ("marked invalid and queued for release when the owning entity
releases its last reference"). -/
def CD3DResourceManager.Release (rm : CD3DResourceManager) (pResource : Nat)
    (fRequiresDelayedRelease : Bool) : CD3DResourceManager :=
  { rm with released := rm.released ++ [⟨pResource, fRequiresDelayedRelease, 0⟩] }

/-- Modelled from the spec: `CD3DResourceManager::EndFrame`, not among the
sources; it marks the frame boundary that the two-frame delay counts. -/
def CD3DResourceManager.EndFrame (rm : CD3DResourceManager) : CD3DResourceManager :=
  { rm with
    released := rm.released.map
      (fun x => { x with cFramesSinceRelease := x.cFramesSinceRelease + 1 }) }

/-- Modelled from the spec: `DestroyReleasedResourcesFromLastFrame`, not among
the sources: it "immediately finalizes resources that were released and did not
require delayed destruction". -/
def CD3DResourceManager.DestroyReleasedResourcesFromLastFrame (rm : CD3DResourceManager) :
    CD3DResourceManager :=
  { released := rm.released.filter (fun x => x.fRequiresDelayedRelease)
    finalized := rm.finalized ++
      (rm.released.filter (fun x => !x.fRequiresDelayedRelease)).map (fun x => x.pResource) }

/-- Modelled from the spec: `DestroyResources`, not among the sources: it
"finalizes resources whose two-frame delay has elapsed (WithDelay) or all pending
released resources unconditionally (WithoutDelay)". -/
def CD3DResourceManager.DestroyResources (fWithDelay : Bool) (rm : CD3DResourceManager) :
    CD3DResourceManager :=
  if fWithDelay then
    { released := rm.released.filter (fun x => decide (x.cFramesSinceRelease < 2))
      finalized := rm.finalized ++
        (rm.released.filter (fun x => !decide (x.cFramesSinceRelease < 2))).map
          (fun x => x.pResource) }
  else
    { released := []
      finalized := rm.finalized ++ rm.released.map (fun x => x.pResource) }

/-- The three operations that `AdvanceFrame` calls, on the resource manager
modelled from the spec. -/
def resourceManagerOps : ResourceManagerOps CD3DResourceManager where
  EndFrame := CD3DResourceManager.EndFrame
  DestroyReleasedResourcesFromLastFrame :=
    CD3DResourceManager.DestroyReleasedResourcesFromLastFrame
  DestroyResources := CD3DResourceManager.DestroyResources

/-- The code of `CD3DTexture::RequiresDelayedRelease` (d3dtexture.h). -/
def CD3DTexture.RequiresDelayedRelease : Bool := true

/-- The `AdvanceFrame` calls with the frame numbers `frames`, in order. -/
def advanceFrames {ρ : Type} (ops : ResourceManagerOps ρ) :
    DeviceFrame ρ → List Nat → DeviceFrame ρ
  | s, [] => s
  | s, uFrameNumber :: rest =>
    advanceFrames ops (CD3DDeviceLevel1.AdvanceFrame ops s uFrameNumber) rest

/-- The number of calls, in a run of `AdvanceFrame` calls on a device whose
recorded frame number is `uCurrent`, that are given a new frame number. -/
def newFrames : Nat → List Nat → Nat
  | _, [] => 0
  | uCurrent, uFrameNumber :: rest =>
    (if uCurrent ≠ uFrameNumber then 1 else 0) + newFrames uFrameNumber rest

/-- A device in frame 7 with an empty resource manager. -/
def exampleDeviceFrame : DeviceFrame CD3DResourceManager := ⟨7, ⟨[], []⟩⟩

/-! ## Lemmas on the array loops -/

theorem DynArray.at_of_lt {α : Type} (rg : List α) (i : Nat) (h : i < rg.length) :
    DynArray.at rg i = .ok rg[i] := by
  unfold DynArray.at
  rw [List.get?_eq_get h]
  rfl

theorem DynArray.at_of_le {α : Type} (rg : List α) (i : Nat) (h : rg.length ≤ i) :
    DynArray.at rg i = .error Fault.outOfBounds := by
  unfold DynArray.at
  rw [List.get?_eq_none.mpr h]

theorem moveToFree_spec (n : Nat) : ∀ (ui : Nat) (active free : List Nat),
    ui + n ≤ active.length →
    ∃ active1, FreeMarkerAndItsPredecessors_moveToFree n ui active free
        = .ok (active1, free ++ (active.drop ui).take n) ∧
      active1.length = active.length ∧
      ∀ j, ui + n ≤ j → active1[j]? = active[j]? := by
  induction n with
  | zero =>
    intro ui active free _
    exact ⟨active, by simp [FreeMarkerAndItsPredecessors_moveToFree], rfl, fun _ _ => rfl⟩
  | succ n ih =>
    intro ui active free h
    have hlt : ui < active.length := by omega
    obtain ⟨a1, h1, h2, h3⟩ := ih (ui + 1) (active.set ui 0) (free ++ [active[ui]])
      (by simp; omega)
    refine ⟨a1, ?_, by simpa using h2, ?_⟩
    · unfold FreeMarkerAndItsPredecessors_moveToFree
      rw [DynArray.at_of_lt active ui hlt]
      simp only [DynArray.put, hlt, if_true]
      rw [h1, List.drop_set_of_lt _ _ (by omega : ui < ui + 1),
        List.drop_eq_getElem_cons hlt, List.take_succ_cons]
      simp
    · intro j hj
      rw [h3 j (by omega)]
      exact List.getElem?_set_ne (by omega)

theorem shift_spec (c : Nat) (hc : 0 < c) (n : Nat) : ∀ (ui : Nat) (active : List Nat),
    c + ui + n ≤ active.length →
    ∃ active1, FreeMarkerAndItsPredecessors_shift c n ui active = .ok active1 ∧
      active1.length = active.length ∧
      (∀ j, j < ui → active1[j]? = active[j]?) ∧
      (∀ j, ui ≤ j → j < ui + n → active1[j]? = active[c + j]?) := by
  induction n with
  | zero =>
    intro ui active _
    exact ⟨active, by simp [FreeMarkerAndItsPredecessors_shift], rfl, fun _ _ => rfl,
      fun j h1 h2 => by omega⟩
  | succ n ih =>
    intro ui active h
    have hlt : c + ui < active.length := by omega
    have hlt2 : ui < active.length := by omega
    obtain ⟨a1, h1, h2, h3, h4⟩ := ih (ui + 1) (active.set ui active[c + ui])
      (by simp; omega)
    refine ⟨a1, ?_, by simpa using h2, ?_, ?_⟩
    · unfold FreeMarkerAndItsPredecessors_shift
      rw [DynArray.at_of_lt active (c + ui) hlt]
      simp only [DynArray.put, hlt2, if_true]
      exact h1
    · intro j hj
      rw [h3 j (by omega)]
      exact List.getElem?_set_ne (by omega)
    · intro j hj1 hj2
      by_cases hju : j = ui
      · subst hju
        rw [h3 j (by omega)]
        simp [hlt2, List.getElem?_eq_getElem hlt]
      · rw [h4 j (by omega) (by omega)]
        exact List.getElem?_set_ne (by omega)

theorem FreeMarkerAndItsPredecessors_spec (d : CD3DDeviceLevel1) (i : Nat)
    (hi : i < d.m_rgpMarkerActive.length) (hn : d.m_rgpMarkerActive.length < UINT_MOD) :
    d.FreeMarkerAndItsPredecessors i = .ok
      ({ d with
          m_ullLastConsumedMarkerId := (d.heap d.m_rgpMarkerActive[i]).m_ullMarkerId
          m_rgpMarkerFree := d.m_rgpMarkerFree ++ d.m_rgpMarkerActive.take (i + 1)
          m_rgpMarkerActive := d.m_rgpMarkerActive.drop (i + 1) }, S_OK) := by
  have hU : UINT_MOD = 4294967296 := by decide
  rw [hU] at hn
  have hc : (i + 1) % UINT_MOD = i + 1 := by rw [hU]; omega
  have hnew : (d.m_rgpMarkerActive.length + UINT_MOD - (i + 1)) % UINT_MOD
      = d.m_rgpMarkerActive.length - (i + 1) := by rw [hU]; omega
  obtain ⟨a1, h1, h2, h3⟩ := moveToFree_spec (i + 1) 0 d.m_rgpMarkerActive d.m_rgpMarkerFree
    (by omega)
  obtain ⟨a2, k1, k2, _, k4⟩ := shift_spec (i + 1) (by omega)
    (d.m_rgpMarkerActive.length - (i + 1)) 0 a1 (by omega)
  unfold CD3DDeviceLevel1.FreeMarkerAndItsPredecessors
  simp only [hc, hnew, DynArray.at_of_lt _ i hi, h1, k1]
  have hfin : DynArray.SetCount a2 (d.m_rgpMarkerActive.length - (i + 1)) 0
      = d.m_rgpMarkerActive.drop (i + 1) := by
    unfold DynArray.SetCount
    rw [if_pos (by omega)]
    apply List.ext_getElem?
    intro j
    by_cases hj : j < d.m_rgpMarkerActive.length - (i + 1)
    · rw [List.getElem?_take_of_lt hj, k4 j (by omega) (by omega), h3 _ (by omega)]
      simp
    · rw [List.getElem?_eq_none (by simp; omega), List.getElem?_eq_none (by simp; omega)]
  rw [hfin]
  simp

theorem CheckStatus_id (m : CGPUMarker) (GetData : Nat → Nat → HRESULT) (f : Bool) :
    (m.CheckStatus GetData f).1.m_ullMarkerId = m.m_ullMarkerId := by
  unfold CGPUMarker.CheckStatus
  split
  · split <;> rfl
  · rfl

theorem CheckStatus_not_consumed (m : CGPUMarker) (GetData : Nat → Nat → HRESULT) (f : Bool)
    (h : (m.CheckStatus GetData f).2.2 = false) : (m.CheckStatus GetData f).1 = m := by
  unfold CGPUMarker.CheckStatus at h ⊢
  by_cases h1 : m.m_fIssued = true
  · by_cases h2 : m.m_fConsumed = true
    · simp [h1, h2]
    · simp only [Bool.not_eq_true] at h2
      simp only [h1, h2, if_true, Bool.not_false] at h ⊢
      cases m
      simp_all
  · simp [h1]

/-- A status check that succeeds and reports "not consumed" leaves the device as it is. -/
theorem IsConsumedGPUMarker_not_consumed (d : CD3DDeviceLevel1)
    (GetData : Nat → Nat → HRESULT) (j : Nat) (f : Bool)
    (hj : j < d.m_rgpMarkerActive.length)
    (h0 : 0 ≤ (d.statusAt GetData f j).1) (h1 : (d.statusAt GetData f j).2 = false) :
    d.IsConsumedGPUMarker GetData j f = .ok (d, (d.statusAt GetData f j).1, false) := by
  unfold CD3DDeviceLevel1.statusAt at h0 h1 ⊢
  have hget : d.m_rgpMarkerActive.getD j 0 = d.m_rgpMarkerActive[j] := by
    simp [List.getD_eq_getElem?_getD, List.getElem?_eq_getElem hj]
  rw [hget] at h0 h1 ⊢
  unfold CD3DDeviceLevel1.IsConsumedGPUMarker
  rw [DynArray.at_of_lt _ j hj]
  have hm := CheckStatus_not_consumed _ GetData f h1
  rcases hr : (d.heap d.m_rgpMarkerActive[j]).CheckStatus GetData f with ⟨m, hr0, c⟩
  rw [hr] at h0 h1 hm
  simp only at h0 h1 hm
  subst h1 hm
  have hne : hr0 ≠ D3DERR_DEVICELOST := by
    intro h; rw [h] at h0; revert h0; decide
  have hF : FAILED hr0 = false := by simp [FAILED, h0]
  simp [hr, hne, hF]

theorem statusAt_congr (d d0 : CD3DDeviceLevel1) (GetData : Nat → Nat → HRESULT)
    (ha : d0.m_rgpMarkerActive = d.m_rgpMarkerActive) (hh : d0.heap = d.heap)
    (f : Bool) (j : Nat) : d0.statusAt GetData f j = d.statusAt GetData f j := by
  unfold CD3DDeviceLevel1.statusAt
  rw [ha, hh]

/-- A status check that reports "consumed" (or fails with device lost) keeps both
arrays and the marker ids. -/
theorem IsConsumedGPUMarker_found (d : CD3DDeviceLevel1)
    (GetData : Nat → Nat → HRESULT) (i : Nat) (f : Bool)
    (hi : i < d.m_rgpMarkerActive.length)
    (h : (0 ≤ (d.statusAt GetData f i).1 ∧ (d.statusAt GetData f i).2 = true) ∨
      (d.statusAt GetData f i).1 = D3DERR_DEVICELOST) :
    ∃ d1 hr1, d.IsConsumedGPUMarker GetData i f = .ok (d1, hr1, true) ∧ 0 ≤ hr1 ∧
      d1.m_rgpMarkerActive = d.m_rgpMarkerActive ∧
      d1.m_rgpMarkerFree = d.m_rgpMarkerFree ∧
      ∀ p, (d1.heap p).m_ullMarkerId = (d.heap p).m_ullMarkerId := by
  unfold CD3DDeviceLevel1.statusAt at h
  have hget : d.m_rgpMarkerActive.getD i 0 = d.m_rgpMarkerActive[i] := by
    simp [List.getD_eq_getElem?_getD, List.getElem?_eq_getElem hi]
  rw [hget] at h
  unfold CD3DDeviceLevel1.IsConsumedGPUMarker
  rw [DynArray.at_of_lt _ i hi]
  have hid := CheckStatus_id (d.heap d.m_rgpMarkerActive[i]) GetData f
  rcases hr : (d.heap d.m_rgpMarkerActive[i]).CheckStatus GetData f with ⟨m, hr0, c⟩
  rw [hr] at h hid
  simp only at h hid
  have hheap : ∀ p, (Function.update d.heap d.m_rgpMarkerActive[i] m p).m_ullMarkerId
      = (d.heap p).m_ullMarkerId := by
    intro p
    by_cases hp : p = d.m_rgpMarkerActive[i]
    · subst hp; simpa using hid
    · simp [Function.update_noteq hp]
  rcases h with ⟨h0, hc⟩ | hlost
  · subst hc
    have hne : hr0 ≠ D3DERR_DEVICELOST := by
      intro h; rw [h] at h0; revert h0; decide
    have hF : FAILED hr0 = false := by simp [FAILED, h0]
    have hS : SUCCEEDED hr0 = true := by simp [SUCCEEDED, h0]
    refine ⟨CD3DDeviceLevel1.SetGPUMarkersAsConsumed
      { d with heap := Function.update d.heap d.m_rgpMarkerActive[i] m }, hr0, ?_, h0,
      rfl, rfl, hheap⟩
    simp [hr, hne, hF, hS]
  · subst hlost
    refine ⟨CD3DDeviceLevel1.SetGPUMarkersAsConsumed
      { d with heap := Function.update d.heap d.m_rgpMarkerActive[i] m }, S_OK, ?_,
      by decide, rfl, rfl, hheap⟩
    have hF : FAILED S_OK = false := by decide
    have hS : SUCCEEDED S_OK = true := by decide
    simp [hr, hF, hS]

/-- A status check that fails with an unexpected error code resets both arrays. -/
theorem IsConsumedGPUMarker_failed (d : CD3DDeviceLevel1)
    (GetData : Nat → Nat → HRESULT) (i : Nat) (f : Bool)
    (hi : i < d.m_rgpMarkerActive.length)
    (h0 : (d.statusAt GetData f i).1 < 0)
    (h1 : (d.statusAt GetData f i).1 ≠ D3DERR_DEVICELOST) :
    ∃ d1, d.IsConsumedGPUMarker GetData i f = .ok (d1, S_OK, true) ∧
      d1.m_rgpMarkerActive = [] ∧ d1.m_rgpMarkerFree = [] ∧
      d1.AreGPUMarkersEnabled = false := by
  unfold CD3DDeviceLevel1.statusAt at h0 h1
  have hget : d.m_rgpMarkerActive.getD i 0 = d.m_rgpMarkerActive[i] := by
    simp [List.getD_eq_getElem?_getD, List.getElem?_eq_getElem hi]
  rw [hget] at h0 h1
  unfold CD3DDeviceLevel1.IsConsumedGPUMarker
  rw [DynArray.at_of_lt _ i hi]
  rcases hr : (d.heap d.m_rgpMarkerActive[i]).CheckStatus GetData f with ⟨m, hr0, c⟩
  rw [hr] at h0 h1
  simp only at h0 h1
  have hF : FAILED hr0 = true := by simp [FAILED, h0]
  have hS : SUCCEEDED hr0 = false := by simp [SUCCEEDED, h0]
  refine ⟨CD3DDeviceLevel1.DisableGPUMarkers
    { d with heap := Function.update d.heap d.m_rgpMarkerActive[i] m }, ?_, rfl, rfl, ?_⟩
  · simp [hr, h1, hF, hS]
  · simp only [CD3DDeviceLevel1.AreGPUMarkersEnabled, CD3DDeviceLevel1.DisableGPUMarkers,
      CD3DDeviceLevel1.ResetMarkers, GPUMARKER_FLAGS_MARKERS_ENABLED]
    rw [Nat.and_assoc]
    have : ((1 ^^^ (UINT_MOD - 1)) &&& 1) = 0 := by decide
    rw [this]
    simp

theorem ConsumePresentMarkers_loop_step (GetData : Nat → Nat → HRESULT)
    (d0 : CD3DDeviceLevel1) (j : Nat) (f : Bool) (hr : HRESULT)
    (hj : j < d0.m_rgpMarkerActive.length)
    (h0 : 0 ≤ (d0.statusAt GetData f j).1) (h1 : (d0.statusAt GetData f j).2 = false) :
    CD3DDeviceLevel1.ConsumePresentMarkers_loop GetData (j + 1) d0 f hr
      = CD3DDeviceLevel1.ConsumePresentMarkers_loop GetData j
          (if f then { d0 with m_uNumSuccessfulPresentsSinceMarkerFlush := 0 } else d0)
          false (d0.statusAt GetData f j).1 := by
  rw [CD3DDeviceLevel1.ConsumePresentMarkers_loop,
    IsConsumedGPUMarker_not_consumed d0 GetData j f hj h0 h1]
  have hF : FAILED (d0.statusAt GetData f j).1 = false := by simp [FAILED, h0]
  cases f <;> simp [hF]

theorem flushAt_eq_false (f : Bool) (n j : Nat) (h : j + 1 ≠ n) : flushAt f n j = false := by
  simp [flushAt, h]

/-- The scan from index `i + k` down to a marker at index `i` that is found consumed. -/
theorem ConsumePresentMarkers_loop_found (d : CD3DDeviceLevel1)
    (GetData : Nat → Nat → HRESULT) (f0 : Bool) (i : Nat)
    (hn : d.m_rgpMarkerActive.length < UINT_MOD)
    (hi : i < d.m_rgpMarkerActive.length)
    (hnewer : ∀ j, i < j → j < d.m_rgpMarkerActive.length →
      0 ≤ (d.statusAt GetData (flushAt f0 d.m_rgpMarkerActive.length j) j).1 ∧
      (d.statusAt GetData (flushAt f0 d.m_rgpMarkerActive.length j) j).2 = false)
    (hfound :
      (0 ≤ (d.statusAt GetData (flushAt f0 d.m_rgpMarkerActive.length i) i).1 ∧
        (d.statusAt GetData (flushAt f0 d.m_rgpMarkerActive.length i) i).2 = true) ∨
      (d.statusAt GetData (flushAt f0 d.m_rgpMarkerActive.length i) i).1 = D3DERR_DEVICELOST)
    (k : Nat) : i + 1 + k ≤ d.m_rgpMarkerActive.length →
    ∀ (d0 : CD3DDeviceLevel1) (hr0 : HRESULT),
      d0.m_rgpMarkerActive = d.m_rgpMarkerActive → d0.m_rgpMarkerFree = d.m_rgpMarkerFree →
      d0.heap = d.heap →
      ∃ d1 hr1, CD3DDeviceLevel1.ConsumePresentMarkers_loop GetData (i + k + 1) d0
          (flushAt f0 d.m_rgpMarkerActive.length (i + k)) hr0 = .ok (d1, hr1) ∧
        0 ≤ hr1 ∧
        d1.m_rgpMarkerFree = d.m_rgpMarkerFree ++ d.m_rgpMarkerActive.take (i + 1) ∧
        d1.m_rgpMarkerActive = d.m_rgpMarkerActive.drop (i + 1) ∧
        d1.m_ullLastConsumedMarkerId = (d.heap d.m_rgpMarkerActive[i]).m_ullMarkerId := by
  induction k with
  | zero =>
    intro _ d0 hr0 ha hf hh
    rw [← statusAt_congr d d0 GetData ha hh] at hfound
    have hi0 : i < d0.m_rgpMarkerActive.length := by rw [ha]; exact hi
    obtain ⟨d1, hr1, e1, _, e3, e4, e5⟩ := IsConsumedGPUMarker_found d0 GetData i _ hi0 hfound
    have hi1 : i < d1.m_rgpMarkerActive.length := by rw [e3]; exact hi0
    have hF : FAILED hr1 = false := by simp [FAILED]; assumption
    have hspec := FreeMarkerAndItsPredecessors_spec d1 i hi1 (by rw [e3, ha]; exact hn)
    have hloop : CD3DDeviceLevel1.ConsumePresentMarkers_loop GetData (i + 0 + 1) d0
        (flushAt f0 d.m_rgpMarkerActive.length (i + 0)) hr0
        = d1.FreeMarkerAndItsPredecessors i := by
      simp only [Nat.add_zero]
      rw [CD3DDeviceLevel1.ConsumePresentMarkers_loop, e1]
      simp [hF]
    rw [hloop, hspec]
    refine ⟨_, _, rfl, by decide, ?_, ?_, ?_⟩
    · simp only [e3, e4, ha, hf]
    · simp only [e3, ha]
    · simp only [e3, ha, e5, hh]
  | succ k ih =>
    intro hk d0 hr0 ha hf hh
    have hj : i + k + 1 < d.m_rgpMarkerActive.length := by omega
    obtain ⟨s0, s1⟩ := hnewer (i + k + 1) (by omega) hj
    rw [← statusAt_congr d d0 GetData ha hh] at s0 s1
    have e : i + (k + 1) + 1 = (i + k + 1) + 1 := by omega
    have e2 : i + (k + 1) = i + k + 1 := by omega
    rw [e, e2, ConsumePresentMarkers_loop_step GetData d0 (i + k + 1) _ _
      (by rw [ha]; exact hj) s0 s1]
    have hfl : flushAt f0 d.m_rgpMarkerActive.length (i + k) = false :=
      flushAt_eq_false _ _ _ (by omega)
    have := ih (by omega)
      (if flushAt f0 d.m_rgpMarkerActive.length (i + k + 1) = true then
        { d0 with m_uNumSuccessfulPresentsSinceMarkerFlush := 0 } else d0)
      (d0.statusAt GetData (flushAt f0 d.m_rgpMarkerActive.length (i + k + 1)) (i + k + 1)).1
      (by split <;> exact ha) (by split <;> exact hf) (by split <;> exact hh)
    rw [hfl] at this
    exact this

/-- The scan over the `k` oldest markers when none of them is found consumed. -/
theorem ConsumePresentMarkers_loop_none (d : CD3DDeviceLevel1)
    (GetData : Nat → Nat → HRESULT) (f0 : Bool)
    (hnone : ∀ j, j < d.m_rgpMarkerActive.length →
      0 ≤ (d.statusAt GetData (flushAt f0 d.m_rgpMarkerActive.length j) j).1 ∧
      (d.statusAt GetData (flushAt f0 d.m_rgpMarkerActive.length j) j).2 = false)
    (k : Nat) : k ≤ d.m_rgpMarkerActive.length →
    ∀ (d0 : CD3DDeviceLevel1) (hr0 : HRESULT) (f : Bool), 0 ≤ hr0 →
      (0 < k → f = flushAt f0 d.m_rgpMarkerActive.length (k - 1)) →
      d0.m_rgpMarkerActive = d.m_rgpMarkerActive → d0.m_rgpMarkerFree = d.m_rgpMarkerFree →
      d0.heap = d.heap →
      ∃ d1 hr1, CD3DDeviceLevel1.ConsumePresentMarkers_loop GetData k d0 f hr0
          = .ok (d1, hr1) ∧ 0 ≤ hr1 ∧
        d1.m_rgpMarkerFree = d.m_rgpMarkerFree ∧
        d1.m_rgpMarkerActive = d.m_rgpMarkerActive := by
  induction k with
  | zero =>
    intro _ d0 hr0 f h0 _ ha hf _
    exact ⟨d0, hr0, by rw [CD3DDeviceLevel1.ConsumePresentMarkers_loop], h0, hf, ha⟩
  | succ k ih =>
    intro hk d0 hr0 f _ hfl ha hf hh
    have hj : k < d.m_rgpMarkerActive.length := by omega
    obtain ⟨s0, s1⟩ := hnone k hj
    rw [← statusAt_congr d d0 GetData ha hh] at s0 s1
    have hfl1 : f = flushAt f0 d.m_rgpMarkerActive.length k := by
      simpa using hfl (by omega)
    subst hfl1
    rw [ConsumePresentMarkers_loop_step GetData d0 k _ _ (by rw [ha]; exact hj) s0 s1]
    refine ih (by omega) _ _ false s0 ?_ (by split <;> exact ha) (by split <;> exact hf)
      (by split <;> exact hh)
    intro hk0
    exact (flushAt_eq_false _ _ _ (by omega)).symm

theorem drop_mem_of_later {l : List Nat} (hnd : l.Nodup) (k a b p q : Nat) (hab : a < b)
    (ha : l[a]? = some p) (hb : l[b]? = some q) (hp : p ∈ l.drop k) : q ∈ l.drop k := by
  obtain ⟨m, hm⟩ := List.mem_iff_getElem?.mp hp
  rw [List.getElem?_drop] at hm
  have hak : a = k + m := by
    by_contra hne
    have hlen1 : a < l.length := by
      rcases Nat.lt_or_ge a l.length with h | h
      · exact h
      · rw [List.getElem?_eq_none h] at ha; cases ha
    have hlen2 : k + m < l.length := by
      rcases Nat.lt_or_ge (k + m) l.length with h | h
      · exact h
      · rw [List.getElem?_eq_none h] at hm; cases hm
    rcases Nat.lt_or_gt_of_ne hne with h | h
    · exact (List.nodup_iff_getElem?_ne_getElem?.mp hnd a (k + m) h hlen2) (by rw [ha, hm])
    · exact (List.nodup_iff_getElem?_ne_getElem?.mp hnd (k + m) a h hlen1) (by rw [ha, hm])
  apply List.getElem?_mem (n := b - k)
  rw [List.getElem?_drop, ← hb]
  congr 1
  omega

/-- C1: `ConsumePresentMarkers` scans the active array from the newest entry to
the oldest.  If the first marker whose status check reports it consumed sits at
index `i`, then on return the free array is the old free array followed by the
old active entries `0..i` in order, the active array is the old one without its
first `i + 1` entries, and the last-consumed id is the id of the marker at index
`i`; hence a marker inserted after one that stays active stays active as well.
If no marker is found consumed, both arrays are unchanged. -/
theorem C1_ConsumePresentMarkers_frees_oldest (d : CD3DDeviceLevel1)
    (GetData : Nat → Nat → HRESULT) (fForceFlush : Bool)
    (hcount : d.m_rgpMarkerActive.length < 2147483647) :
    (∀ (i : Nat) (hi : i < d.m_rgpMarkerActive.length),
      (∀ j, i < j → j < d.m_rgpMarkerActive.length →
        0 ≤ (d.statusAt GetData (flushAt fForceFlush d.m_rgpMarkerActive.length j) j).1 ∧
        (d.statusAt GetData (flushAt fForceFlush d.m_rgpMarkerActive.length j) j).2 = false) →
      ((0 ≤ (d.statusAt GetData (flushAt fForceFlush d.m_rgpMarkerActive.length i) i).1 ∧
          (d.statusAt GetData (flushAt fForceFlush d.m_rgpMarkerActive.length i) i).2 = true) ∨
        (d.statusAt GetData (flushAt fForceFlush d.m_rgpMarkerActive.length i) i).1
          = D3DERR_DEVICELOST) →
      ∃ d1 hr, d.ConsumePresentMarkers GetData fForceFlush = .ok (d1, hr) ∧
        SUCCEEDED hr = true ∧
        d1.m_rgpMarkerFree = d.m_rgpMarkerFree ++ d.m_rgpMarkerActive.take (i + 1) ∧
        d1.m_rgpMarkerActive = d.m_rgpMarkerActive.drop (i + 1) ∧
        d1.m_ullLastConsumedMarkerId = (d.heap d.m_rgpMarkerActive[i]).m_ullMarkerId ∧
        (d.m_rgpMarkerActive.Nodup → ∀ a b p q : Nat, a < b →
          d.m_rgpMarkerActive[a]? = some p → d.m_rgpMarkerActive[b]? = some q →
          p ∈ d1.m_rgpMarkerActive → q ∈ d1.m_rgpMarkerActive)) ∧
    ((∀ j, j < d.m_rgpMarkerActive.length →
        0 ≤ (d.statusAt GetData (flushAt fForceFlush d.m_rgpMarkerActive.length j) j).1 ∧
        (d.statusAt GetData (flushAt fForceFlush d.m_rgpMarkerActive.length j) j).2 = false) →
      ∃ d1 hr, d.ConsumePresentMarkers GetData fForceFlush = .ok (d1, hr) ∧
        SUCCEEDED hr = true ∧
        d1.m_rgpMarkerFree = d.m_rgpMarkerFree ∧
        d1.m_rgpMarkerActive = d.m_rgpMarkerActive) := by
  have hU : UINT_MOD = 4294967296 := by decide
  have hn : (if d.m_rgpMarkerActive.length % UINT_MOD < 2 ^ 31
      then d.m_rgpMarkerActive.length % UINT_MOD else 0) = d.m_rgpMarkerActive.length := by
    rw [hU]
    have : d.m_rgpMarkerActive.length % 4294967296 = d.m_rgpMarkerActive.length := by omega
    rw [this, if_pos (by omega)]
  constructor
  · intro i hi hnewer hfound
    obtain ⟨d1, hr1, e1, e2, e3, e4, e5⟩ :=
      ConsumePresentMarkers_loop_found d GetData fForceFlush i (by rw [hU]; omega) hi hnewer
        hfound (d.m_rgpMarkerActive.length - (i + 1)) (by omega) d S_OK rfl rfl rfl
    have e : i + (d.m_rgpMarkerActive.length - (i + 1)) + 1 = d.m_rgpMarkerActive.length := by
      omega
    have e0 : i + (d.m_rgpMarkerActive.length - (i + 1)) = d.m_rgpMarkerActive.length - 1 := by
      omega
    rw [e, e0] at e1
    have hfl : flushAt fForceFlush d.m_rgpMarkerActive.length
        (d.m_rgpMarkerActive.length - 1) = fForceFlush := by
      simp only [flushAt]
      have : d.m_rgpMarkerActive.length - 1 + 1 = d.m_rgpMarkerActive.length := by omega
      simp [this]
    rw [hfl] at e1
    refine ⟨d1, hr1, ?_, by simp [SUCCEEDED, e2], e3, e4, e5, ?_⟩
    · simp only [CD3DDeviceLevel1.ConsumePresentMarkers, hn]
      exact e1
    · intro hnd a b p q hab ha hb hp
      rw [e4] at hp ⊢
      exact drop_mem_of_later hnd (i + 1) a b p q hab ha hb hp
  · intro hnone
    obtain ⟨d1, hr1, e1, e2, e3, e4⟩ :=
      ConsumePresentMarkers_loop_none d GetData fForceFlush hnone d.m_rgpMarkerActive.length
        (le_refl _) d S_OK fForceFlush (by decide)
        (by
          intro hpos
          simp only [flushAt]
          have : d.m_rgpMarkerActive.length - 1 + 1 = d.m_rgpMarkerActive.length := by omega
          simp [this])
        rfl rfl rfl
    refine ⟨d1, hr1, ?_, by simp [SUCCEEDED, e2], e3, e4⟩
    simp only [CD3DDeviceLevel1.ConsumePresentMarkers, hn]
    exact e1

/-- C1 at `exampleDevice` with a GPU that has completed the two oldest queries:
the scan skips index 2, finds index 1 consumed and frees markers 1 and 2. -/
theorem C1_ConsumePresentMarkers_frees_oldest_witness :
    ∃ d1 hr, exampleDevice.ConsumePresentMarkers exampleGetData true = .ok (d1, hr) ∧
      SUCCEEDED hr = true ∧
      d1.m_rgpMarkerFree = [4, 1, 2] ∧
      d1.m_rgpMarkerActive = [3] ∧
      d1.m_ullLastConsumedMarkerId = 20 := by
  obtain ⟨d1, hr, h1, h2, h3, h4, h5, _⟩ :=
    (C1_ConsumePresentMarkers_frees_oldest exampleDevice exampleGetData true (by decide)).1 1
      (by decide)
      (by
        intro j h1 h2
        have hj : j = 2 := by
          have : j < 3 := h2
          omega
        subst hj
        decide)
      (by decide)
  exact ⟨d1, hr, h1, h2, h3, h4, h5⟩


/-! ## Lemmas on the marker flags -/

theorem enabled_DisableGPUMarkers (d : CD3DDeviceLevel1) :
    d.DisableGPUMarkers.AreGPUMarkersEnabled = false := by
  simp only [CD3DDeviceLevel1.AreGPUMarkersEnabled, CD3DDeviceLevel1.DisableGPUMarkers,
    CD3DDeviceLevel1.ResetMarkers, GPUMARKER_FLAGS_MARKERS_ENABLED]
  rw [Nat.and_assoc]
  have : ((1 ^^^ (UINT_MOD - 1)) &&& 1) = 0 := by decide
  rw [this]
  simp

theorem tested_DisableGPUMarkers (d : CD3DDeviceLevel1) :
    d.DisableGPUMarkers.AreGPUMarkersTested = d.AreGPUMarkersTested := by
  simp only [CD3DDeviceLevel1.AreGPUMarkersTested, CD3DDeviceLevel1.DisableGPUMarkers,
    CD3DDeviceLevel1.ResetMarkers, GPUMARKER_FLAGS_MARKERS_ENABLED,
    GPUMARKER_FLAGS_MARKERS_TESTED]
  rw [Nat.and_assoc]
  have : ((1 ^^^ (UINT_MOD - 1)) &&& 16) = 16 := by decide
  rw [this]

theorem or_testBit_ne_zero (x y i : Nat) (h : y.testBit i = true) : x ||| y ≠ 0 := by
  intro h0
  have := Nat.testBit_or x y i
  rw [h0, h] at this
  simp at this

theorem enabled_SetGPUMarkersAsEnabled (d : CD3DDeviceLevel1) :
    d.SetGPUMarkersAsEnabled.AreGPUMarkersEnabled = true := by
  simp only [CD3DDeviceLevel1.AreGPUMarkersEnabled, CD3DDeviceLevel1.SetGPUMarkersAsEnabled,
    GPUMARKER_FLAGS_MARKERS_ENABLED]
  rw [Nat.and_distrib_right]
  rw [bne_iff_ne]
  exact or_testBit_ne_zero (d.m_dwGPUMarkerFlags &&& 1) (1 &&& 1) 0 (by decide)

theorem enabled_SetGPUMarkersAsTested (d : CD3DDeviceLevel1) :
    d.SetGPUMarkersAsTested.AreGPUMarkersEnabled = d.AreGPUMarkersEnabled := by
  simp only [CD3DDeviceLevel1.AreGPUMarkersEnabled, CD3DDeviceLevel1.SetGPUMarkersAsTested,
    GPUMARKER_FLAGS_MARKERS_ENABLED, GPUMARKER_FLAGS_MARKERS_TESTED]
  rw [Nat.and_distrib_right]
  have : (16 &&& 1) = 0 := by decide
  rw [this, Nat.or_zero]

theorem tested_SetGPUMarkersAsTested (d : CD3DDeviceLevel1) :
    d.SetGPUMarkersAsTested.AreGPUMarkersTested = true := by
  simp only [CD3DDeviceLevel1.AreGPUMarkersTested, CD3DDeviceLevel1.SetGPUMarkersAsTested,
    GPUMARKER_FLAGS_MARKERS_TESTED]
  rw [Nat.and_distrib_right]
  rw [bne_iff_ne]
  exact or_testBit_ne_zero (d.m_dwGPUMarkerFlags &&& 16) (16 &&& 16) 4 (by decide)

theorem DisableGPUMarkers_fields (d : CD3DDeviceLevel1) :
    d.DisableGPUMarkers.m_rgpMarkerActive = [] ∧ d.DisableGPUMarkers.m_rgpMarkerFree = [] ∧
    d.DisableGPUMarkers.m_pD3DDevice = d.m_pD3DDevice ∧
    d.DisableGPUMarkers.m_ullLastMarkerId = d.m_ullLastMarkerId :=
  ⟨rfl, rfl, rfl, rfl⟩

theorem DisableGPUMarkers_idem (d : CD3DDeviceLevel1) :
    d.DisableGPUMarkers.DisableGPUMarkers = d.DisableGPUMarkers := by
  simp [CD3DDeviceLevel1.DisableGPUMarkers, CD3DDeviceLevel1.ResetMarkers, Nat.and_assoc]

theorem HandleDIE_of_nonneg (d : CD3DDeviceLevel1) (hr : HRESULT) (h : 0 ≤ hr) :
    d.HandleDIE hr = (d, hr) := by
  unfold CD3DDeviceLevel1.HandleDIE
  have : hr ≠ D3DERR_DRIVERINTERNALERROR := by
    intro e; rw [e] at h; revert h; decide
  simp [this]

/-- The device that the code after `Cleanup` leaves. -/
theorem InsertGPUMarker_Cleanup_fst (d : CD3DDeviceLevel1) (hr : HRESULT) :
    (d.InsertGPUMarker_Cleanup hr).1 =
      if 35 < d.m_rgpMarkerActive.length ∨
          (hr < 0 ∧ hr ≠ D3DERR_DEVICELOST ∧ hr ≠ D3DERR_NOTAVAILABLE)
      then d.DisableGPUMarkers else d := by
  unfold CD3DDeviceLevel1.InsertGPUMarker_Cleanup
  simp only [GPU_MARKERS_MAX_ARRAY_SIZE, gt_iff_lt]
  by_cases h1 : hr = D3DERR_DEVICELOST ∨ hr = D3DERR_NOTAVAILABLE
  · have hneg : ¬ (hr < 0 ∧ hr ≠ D3DERR_DEVICELOST ∧ hr ≠ D3DERR_NOTAVAILABLE) := by
      rintro ⟨_, h2, h3⟩
      rcases h1 with h1 | h1
      · exact h2 h1
      · exact h3 h1
    have hF : FAILED S_OK = false := by decide
    simp only [h1, if_true, hF, Bool.false_eq_true, if_false, hneg, or_false]
    rw [HandleDIE_of_nonneg _ _ (by decide)]
  · have h2 : hr ≠ D3DERR_DEVICELOST ∧ hr ≠ D3DERR_NOTAVAILABLE := by
      constructor
      · intro e; exact h1 (Or.inl e)
      · intro e; exact h1 (Or.inr e)
    simp only [h1, if_false]
    by_cases h3 : hr < 0
    · have hF : FAILED hr = true := by simp [FAILED, h3]
      simp only [hF, if_true, h3, h2.1, h2.2, ne_eq, not_false_eq_true, and_self, or_true]
      rw [HandleDIE_of_nonneg _ _ (by decide)]
      split
      · exact DisableGPUMarkers_idem d
      · rfl
    · have hF : FAILED hr = false := by simp [FAILED, h3]
      simp only [hF, Bool.false_eq_true, if_false, h3, false_and, or_false]
      rw [HandleDIE_of_nonneg _ _ (not_lt.mp h3)]

theorem InsertGPUMarker_fst (d : CD3DDeviceLevel1) (ullMarkerId : Nat) (env : InsertEnv) :
    (d.InsertGPUMarker ullMarkerId env).1 =
      ((d.InsertGPUMarker_body ullMarkerId env).1.InsertGPUMarker_Cleanup
        (d.InsertGPUMarker_body ullMarkerId env).2).1 := rfl

theorem InsertGPUMarker_length_le (d : CD3DDeviceLevel1) (ullMarkerId : Nat) (env : InsertEnv) :
    (d.InsertGPUMarker ullMarkerId env).1.m_rgpMarkerActive.length ≤ 35 := by
  rw [InsertGPUMarker_fst, InsertGPUMarker_Cleanup_fst]
  split
  · simp [(DisableGPUMarkers_fields _).1]
  · rename_i h
    omega

theorem insertMarkers_length_le (calls : List (Nat × InsertEnv)) :
    ∀ d : CD3DDeviceLevel1, calls ≠ [] →
      (d.insertMarkers calls).m_rgpMarkerActive.length ≤ 35 := by
  induction calls with
  | nil => intro d h; exact absurd rfl h
  | cons c rest ih =>
    intro d _
    obtain ⟨ullMarkerId, env⟩ := c
    by_cases hrest : rest = []
    · subst hrest
      exact InsertGPUMarker_length_le d ullMarkerId env
    · exact ih _ hrest

theorem insertMarkers_append (a b : List (Nat × InsertEnv)) :
    ∀ d : CD3DDeviceLevel1, d.insertMarkers (a ++ b) = (d.insertMarkers a).insertMarkers b := by
  induction a with
  | nil => intro d; rfl
  | cons c rest ih =>
    intro d
    obtain ⟨ullMarkerId, env⟩ := c
    exact ih _

theorem insertCalls_succ (envs : Nat → InsertEnv) (k : Nat) :
    insertCalls envs (k + 1) = insertCalls envs k ++ [(k + 1, envs k)] := by
  simp [insertCalls, List.range_succ]

/-- While tracking is on (or not yet probed), nothing has been rejected and the
free array is empty, a call whose native calls succeed appends one marker. -/
theorem InsertGPUMarker_body_tracking (d : CD3DDeviceLevel1) (ullMarkerId : Nat)
    (env : InsertEnv) (henv : env.succeeds)
    (hdev : d.m_pD3DDevice ≠ 0) (hlast : d.m_ullLastMarkerId = 0)
    (hfree : d.m_rgpMarkerFree = [])
    (hflags : d.AreGPUMarkersTested = true → d.AreGPUMarkersEnabled = true) :
    (d.InsertGPUMarker_body ullMarkerId env).2 = S_OK ∧
      (d.InsertGPUMarker_body ullMarkerId env).1.m_rgpMarkerActive
        = d.m_rgpMarkerActive ++ [env.pNewMarker] ∧
      (d.InsertGPUMarker_body ullMarkerId env).1.m_rgpMarkerFree = [] ∧
      (d.InsertGPUMarker_body ullMarkerId env).1.m_pD3DDevice = d.m_pD3DDevice ∧
      (d.InsertGPUMarker_body ullMarkerId env).1.m_ullLastMarkerId = 0 ∧
      (d.InsertGPUMarker_body ullMarkerId env).1.AreGPUMarkersTested = true ∧
      (d.InsertGPUMarker_body ullMarkerId env).1.AreGPUMarkersEnabled = true := by
  obtain ⟨h1, h2, h3⟩ := henv
  have hF1 : FAILED env.hrCreateQuery = false := by simp [FAILED, h2]
  have hS : SUCCEEDED env.hrProbe = true := by simp [SUCCEEDED, h1]
  have hFE : FAILED E_FAIL = true := by decide
  have hFS : FAILED S_OK = false := by decide
  unfold CD3DDeviceLevel1.InsertGPUMarker_body
  by_cases ht : d.AreGPUMarkersTested = true
  · have he := hflags ht
    simp only [hlast, Nat.not_lt_zero, if_false, hdev, ht, Bool.not_true, Bool.false_eq_true,
      he, hfree, List.getLast?_nil, hF1, CGPUMarker.InsertIntoCommandStream,
      Function.update_same, CGPUMarker.ctor, CGPUMarker.Reset, h3, hFS]
    and_intros <;> trivial
  · have ht0 : d.AreGPUMarkersTested = false := by simpa using ht
    have he : d.SetGPUMarkersAsEnabled.SetGPUMarkersAsTested.AreGPUMarkersEnabled = true := by
      rw [enabled_SetGPUMarkersAsTested, enabled_SetGPUMarkersAsEnabled]
    have hfree1 : d.SetGPUMarkersAsEnabled.SetGPUMarkersAsTested.m_rgpMarkerFree = [] := hfree
    simp only [hlast, Nat.not_lt_zero, if_false, hdev, ht0, Bool.not_false, if_true, hS,
      he, Bool.not_true, Bool.false_eq_true, hfree1, List.getLast?_nil, hF1,
      CGPUMarker.InsertIntoCommandStream, Function.update_same, CGPUMarker.ctor,
      CGPUMarker.Reset, h3, hFS]
    and_intros <;> first | trivial | rfl | exact hfree | exact hlast | exact he |
      exact tested_SetGPUMarkersAsTested _

/-- Once tracking is off after the probe, a call leaves it off and both arrays empty. -/
theorem InsertGPUMarker_off (d : CD3DDeviceLevel1) (ullMarkerId : Nat) (env : InsertEnv)
    (he : d.AreGPUMarkersEnabled = false) (ht : d.AreGPUMarkersTested = true)
    (ha : d.m_rgpMarkerActive = []) (hf : d.m_rgpMarkerFree = []) :
    (d.InsertGPUMarker ullMarkerId env).1.AreGPUMarkersEnabled = false ∧
    (d.InsertGPUMarker ullMarkerId env).1.AreGPUMarkersTested = true ∧
    (d.InsertGPUMarker ullMarkerId env).1.m_rgpMarkerActive = [] ∧
    (d.InsertGPUMarker ullMarkerId env).1.m_rgpMarkerFree = [] := by
  have hbody : (d.InsertGPUMarker_body ullMarkerId env).2 = S_OK ∧
      (d.InsertGPUMarker_body ullMarkerId env).1.AreGPUMarkersEnabled = false ∧
      (d.InsertGPUMarker_body ullMarkerId env).1.AreGPUMarkersTested = true ∧
      (d.InsertGPUMarker_body ullMarkerId env).1.m_rgpMarkerActive = [] ∧
      (d.InsertGPUMarker_body ullMarkerId env).1.m_rgpMarkerFree = [] := by
    unfold CD3DDeviceLevel1.InsertGPUMarker_body
    by_cases h1 : ullMarkerId < d.m_ullLastMarkerId
    · simp only [h1, if_true]
      and_intros <;> trivial
    · by_cases h2 : d.m_pD3DDevice = 0
      · simp only [h1, h2, if_true, if_false]
        and_intros <;> trivial
      · simp only [h1, h2, ht, he, if_false, Bool.not_true, Bool.not_false, if_true,
          Bool.false_eq_true]
        and_intros <;> trivial
  obtain ⟨e1, e2, e3, e4, e5⟩ := hbody
  rw [InsertGPUMarker_fst, e1, InsertGPUMarker_Cleanup_fst]
  have hneg : ¬ (35 < (d.InsertGPUMarker_body ullMarkerId env).1.m_rgpMarkerActive.length ∨
      (S_OK < 0 ∧ S_OK ≠ D3DERR_DEVICELOST ∧ S_OK ≠ D3DERR_NOTAVAILABLE)) := by
    rw [e4]
    decide
  simp only [hneg, if_false]
  exact ⟨e2, e3, e4, e5⟩

/-- The state after inserting the ids `1..k` into a new device when every native
call succeeds: tracking stays on with `k` active markers up to `k = 35` and is
off with empty arrays from `k = 36` on. -/
theorem insertCalls_invariant (pDevice : Nat) (hdev : pDevice ≠ 0)
    (envs : Nat → InsertEnv) (henv : ∀ n, (envs n).succeeds) (k : Nat) :
    (k ≤ 35 →
      ((CD3DDeviceLevel1.ctor pDevice).insertMarkers (insertCalls envs k)).m_pD3DDevice ≠ 0 ∧
      ((CD3DDeviceLevel1.ctor pDevice).insertMarkers (insertCalls envs k)).m_ullLastMarkerId = 0 ∧
      ((CD3DDeviceLevel1.ctor pDevice).insertMarkers (insertCalls envs k)).m_rgpMarkerFree = [] ∧
      ((CD3DDeviceLevel1.ctor pDevice).insertMarkers
        (insertCalls envs k)).m_rgpMarkerActive.length = k ∧
      (((CD3DDeviceLevel1.ctor pDevice).insertMarkers
          (insertCalls envs k)).AreGPUMarkersTested = true →
        ((CD3DDeviceLevel1.ctor pDevice).insertMarkers
          (insertCalls envs k)).AreGPUMarkersEnabled = true) ∧
      (1 ≤ k → ((CD3DDeviceLevel1.ctor pDevice).insertMarkers
          (insertCalls envs k)).AreGPUMarkersEnabled = true)) ∧
    (36 ≤ k →
      ((CD3DDeviceLevel1.ctor pDevice).insertMarkers
        (insertCalls envs k)).AreGPUMarkersEnabled = false ∧
      ((CD3DDeviceLevel1.ctor pDevice).insertMarkers
        (insertCalls envs k)).AreGPUMarkersTested = true ∧
      ((CD3DDeviceLevel1.ctor pDevice).insertMarkers (insertCalls envs k)).m_rgpMarkerActive = [] ∧
      ((CD3DDeviceLevel1.ctor pDevice).insertMarkers (insertCalls envs k)).m_rgpMarkerFree = []) := by
  induction k with
  | zero =>
    refine ⟨fun _ => ⟨hdev, rfl, rfl, rfl, ?_, ?_⟩, ?_⟩
    · intro h
      have e : (CD3DDeviceLevel1.ctor pDevice).insertMarkers (insertCalls envs 0)
          = CD3DDeviceLevel1.ctor pDevice := rfl
      rw [e] at h
      simp [CD3DDeviceLevel1.AreGPUMarkersTested, CD3DDeviceLevel1.ctor] at h
    · intro h; omega
    · intro h; omega
  | succ k ih =>
    rw [insertCalls_succ, insertMarkers_append]
    generalize (CD3DDeviceLevel1.ctor pDevice).insertMarkers (insertCalls envs k) = dk at ih ⊢
    have hstep : dk.insertMarkers [(k + 1, envs k)]
        = (dk.InsertGPUMarker (k + 1) (envs k)).1 := rfl
    rw [hstep]
    obtain ⟨ih1, ih2⟩ := ih
    by_cases hk : k ≤ 35
    · obtain ⟨i1, i2, i3, i4, i5, _⟩ := ih1 hk
      obtain ⟨b1, b2, b3, b4, b5, b6, b7⟩ :=
        InsertGPUMarker_body_tracking dk (k + 1) (envs k) (henv k) i1 i2 i3 i5
      rw [InsertGPUMarker_fst, b1, InsertGPUMarker_Cleanup_fst]
      have hlen : (dk.InsertGPUMarker_body (k + 1) (envs k)).1.m_rgpMarkerActive.length
          = k + 1 := by rw [b2]; simp [i4]
      have hS : ¬ (S_OK < 0 ∧ S_OK ≠ D3DERR_DEVICELOST ∧ S_OK ≠ D3DERR_NOTAVAILABLE) := by
        decide
      rw [hlen]
      by_cases hk1 : k + 1 ≤ 35
      · have hc : ¬ (35 < k + 1 ∨
            (S_OK < 0 ∧ S_OK ≠ D3DERR_DEVICELOST ∧ S_OK ≠ D3DERR_NOTAVAILABLE)) := by
          rintro (h | h)
          · omega
          · exact hS h
        simp only [hc, if_false]
        refine ⟨fun _ => ⟨?_, b5, b3, hlen, fun _ => b7, fun _ => b7⟩, fun h => by omega⟩
        rw [b4]; exact i1
      · have hc : 35 < k + 1 ∨
            (S_OK < 0 ∧ S_OK ≠ D3DERR_DEVICELOST ∧ S_OK ≠ D3DERR_NOTAVAILABLE) :=
          Or.inl (by omega)
        simp only [hc, if_true]
        refine ⟨fun h => by omega, fun _ => ⟨enabled_DisableGPUMarkers _, ?_, rfl, rfl⟩⟩
        rw [tested_DisableGPUMarkers]; exact b6
    · obtain ⟨j1, j2, j3, j4⟩ := ih2 (by omega)
      exact ⟨fun h => by omega, fun _ => InsertGPUMarker_off dk (k + 1) (envs k) j1 j2 j3 j4⟩

/-- C3: after every `InsertGPUMarker` call of any run of calls the active array
holds at most 35 markers; an insertion that raises the active count above 35
turns marker tracking off and leaves the active and the free array empty; and
when the ids `1, 2, ..` are inserted into a new device with every native call
succeeding and nothing consumed, tracking is on with `k` active markers after
`k ≤ 35` insertions and off with an empty active array from the 36th on. -/
theorem C3_InsertGPUMarker_backlog_bound (pDevice : Nat) (hdev : pDevice ≠ 0)
    (envs : Nat → InsertEnv) (henv : ∀ n, (envs n).succeeds) :
    (∀ (d : CD3DDeviceLevel1) (calls : List (Nat × InsertEnv)), calls ≠ [] →
      (d.insertMarkers calls).m_rgpMarkerActive.length ≤ GPU_MARKERS_MAX_ARRAY_SIZE) ∧
    (∀ (d : CD3DDeviceLevel1) (ullMarkerId : Nat) (env : InsertEnv),
      GPU_MARKERS_MAX_ARRAY_SIZE
          < (d.InsertGPUMarker_body ullMarkerId env).1.m_rgpMarkerActive.length →
      (d.InsertGPUMarker ullMarkerId env).1.AreGPUMarkersEnabled = false ∧
      (d.InsertGPUMarker ullMarkerId env).1.m_rgpMarkerActive = [] ∧
      (d.InsertGPUMarker ullMarkerId env).1.m_rgpMarkerFree = []) ∧
    (∀ k : Nat,
      (1 ≤ k → k ≤ 35 →
        ((CD3DDeviceLevel1.ctor pDevice).insertMarkers
          (insertCalls envs k)).AreGPUMarkersEnabled = true ∧
        ((CD3DDeviceLevel1.ctor pDevice).insertMarkers
          (insertCalls envs k)).m_rgpMarkerActive.length = k) ∧
      (36 ≤ k →
        ((CD3DDeviceLevel1.ctor pDevice).insertMarkers
          (insertCalls envs k)).AreGPUMarkersEnabled = false ∧
        ((CD3DDeviceLevel1.ctor pDevice).insertMarkers
          (insertCalls envs k)).m_rgpMarkerActive = [] ∧
        ((CD3DDeviceLevel1.ctor pDevice).insertMarkers
          (insertCalls envs k)).m_rgpMarkerFree = [])) := by
  refine ⟨fun d calls h => insertMarkers_length_le calls d h, ?_, ?_⟩
  · intro d ullMarkerId env h
    rw [InsertGPUMarker_fst, InsertGPUMarker_Cleanup_fst]
    have hc : 35 < (d.InsertGPUMarker_body ullMarkerId env).1.m_rgpMarkerActive.length ∨
        ((d.InsertGPUMarker_body ullMarkerId env).2 < 0 ∧
          (d.InsertGPUMarker_body ullMarkerId env).2 ≠ D3DERR_DEVICELOST ∧
          (d.InsertGPUMarker_body ullMarkerId env).2 ≠ D3DERR_NOTAVAILABLE) := Or.inl h
    simp only [hc, if_true]
    exact ⟨enabled_DisableGPUMarkers _, rfl, rfl⟩
  · intro k
    obtain ⟨h1, h2⟩ := insertCalls_invariant pDevice hdev envs henv k
    refine ⟨fun hk1 hk => ?_, fun hk => ?_⟩
    · obtain ⟨_, _, _, i4, _, i6⟩ := h1 hk
      exact ⟨i6 hk1, i4⟩
    · obtain ⟨j1, _, j3, j4⟩ := h2 hk
      exact ⟨j1, j3, j4⟩

/-- C3 on a device whose native calls all succeed: after the ids `1..40` tracking
is off and both arrays are empty. -/
theorem C3_InsertGPUMarker_backlog_bound_witness :
    ((CD3DDeviceLevel1.ctor 7).insertMarkers
        (insertCalls (fun n => envSuccess (n + 1)) 40)).AreGPUMarkersEnabled = false ∧
      ((CD3DDeviceLevel1.ctor 7).insertMarkers
        (insertCalls (fun n => envSuccess (n + 1)) 40)).m_rgpMarkerActive = [] ∧
      ((CD3DDeviceLevel1.ctor 7).insertMarkers
        (insertCalls (fun n => envSuccess (n + 1)) 40)).m_rgpMarkerFree = [] :=
  ((C3_InsertGPUMarker_backlog_bound 7 (by decide) (fun n => envSuccess (n + 1))
    (fun n => ⟨le_refl (0 : Int), le_refl (0 : Int), by simp [envSuccess]⟩)).2.2 40).2 (by decide)

/-- C2 (code defect): on a new device with tracking on, id 10 is inserted and
accepted, then id 5 is inserted: `m_ullLastMarkerId` is still 0, the call is not
rejected, and the marker with id 5 is appended to the active array. -/
theorem C2_out_of_order_id_is_inserted :
    (((CD3DDeviceLevel1.ctor 7).InsertGPUMarker 10 (envSuccess 1)).1.AreGPUMarkersEnabled
        = true ∧
      ((CD3DDeviceLevel1.ctor 7).InsertGPUMarker 10 (envSuccess 1)).1.m_rgpMarkerActive = [1] ∧
      ((CD3DDeviceLevel1.ctor 7).InsertGPUMarker 10 (envSuccess 1)).1.m_ullLastMarkerId = 0) ∧
    ((((CD3DDeviceLevel1.ctor 7).InsertGPUMarker 10 (envSuccess 1)).1.InsertGPUMarker 5
        (envSuccess 2)).2 = S_OK ∧
      (((CD3DDeviceLevel1.ctor 7).InsertGPUMarker 10 (envSuccess 1)).1.InsertGPUMarker 5
        (envSuccess 2)).1.m_rgpMarkerActive = [1, 2] ∧
      CD3DDeviceLevel1.ids
        (((CD3DDeviceLevel1.ctor 7).InsertGPUMarker 10 (envSuccess 1)).1.InsertGPUMarker 5
          (envSuccess 2)).1 [1, 2] = [10, 5]) := by
  decide


/-- The scan from index `i + k` down to index `i` when the markers after `i` are
reported not consumed. -/
theorem ConsumePresentMarkers_loop_descend (d : CD3DDeviceLevel1)
    (GetData : Nat → Nat → HRESULT) (f0 : Bool) (i : Nat)
    (hnewer : ∀ j, i < j → j < d.m_rgpMarkerActive.length →
      0 ≤ (d.statusAt GetData (flushAt f0 d.m_rgpMarkerActive.length j) j).1 ∧
      (d.statusAt GetData (flushAt f0 d.m_rgpMarkerActive.length j) j).2 = false)
    (k : Nat) : i + 1 + k ≤ d.m_rgpMarkerActive.length →
    ∀ (d0 : CD3DDeviceLevel1) (hr0 : HRESULT),
      d0.m_rgpMarkerActive = d.m_rgpMarkerActive → d0.heap = d.heap →
      ∃ d1 hr1, d1.m_rgpMarkerActive = d.m_rgpMarkerActive ∧ d1.heap = d.heap ∧
        CD3DDeviceLevel1.ConsumePresentMarkers_loop GetData (i + k + 1) d0
          (flushAt f0 d.m_rgpMarkerActive.length (i + k)) hr0
        = CD3DDeviceLevel1.ConsumePresentMarkers_loop GetData (i + 1) d1
          (flushAt f0 d.m_rgpMarkerActive.length i) hr1 := by
  induction k with
  | zero =>
    intro _ d0 hr0 ha hh
    exact ⟨d0, hr0, ha, hh, rfl⟩
  | succ k ih =>
    intro hk d0 hr0 ha hh
    have hj : i + k + 1 < d.m_rgpMarkerActive.length := by omega
    obtain ⟨s0, s1⟩ := hnewer (i + k + 1) (by omega) hj
    rw [← statusAt_congr d d0 GetData ha hh] at s0 s1
    have e : i + (k + 1) + 1 = (i + k + 1) + 1 := by omega
    have e2 : i + (k + 1) = i + k + 1 := by omega
    rw [e, e2, ConsumePresentMarkers_loop_step GetData d0 (i + k + 1) _ _
      (by rw [ha]; exact hj) s0 s1]
    have hfl : flushAt f0 d.m_rgpMarkerActive.length (i + k) = false :=
      flushAt_eq_false _ _ _ (by omega)
    have := ih (by omega)
      (if flushAt f0 d.m_rgpMarkerActive.length (i + k + 1) = true then
        { d0 with m_uNumSuccessfulPresentsSinceMarkerFlush := 0 } else d0)
      (d0.statusAt GetData (flushAt f0 d.m_rgpMarkerActive.length (i + k + 1)) (i + k + 1)).1
      (by split <;> exact ha) (by split <;> exact hh)
    rw [hfl] at this
    exact this

/-- When the status check of the marker at index `i` fails with an unexpected
error code (the newer markers being reported not consumed), `ConsumePresentMarkers`
goes on to `FreeMarkerAndItsPredecessors(i)` on the array that the failure
handling has just emptied, and reads `m_rgpMarkerActive[i]` out of bounds. -/
theorem ConsumePresentMarkers_fault_of_failed_check (d : CD3DDeviceLevel1)
    (GetData : Nat → Nat → HRESULT) (fForceFlush : Bool) (i : Nat)
    (hcount : d.m_rgpMarkerActive.length < 2147483647)
    (hi : i < d.m_rgpMarkerActive.length)
    (hnewer : ∀ j, i < j → j < d.m_rgpMarkerActive.length →
      0 ≤ (d.statusAt GetData (flushAt fForceFlush d.m_rgpMarkerActive.length j) j).1 ∧
      (d.statusAt GetData (flushAt fForceFlush d.m_rgpMarkerActive.length j) j).2 = false)
    (hfail : (d.statusAt GetData (flushAt fForceFlush d.m_rgpMarkerActive.length i) i).1 < 0 ∧
      (d.statusAt GetData (flushAt fForceFlush d.m_rgpMarkerActive.length i) i).1
        ≠ D3DERR_DEVICELOST) :
    d.ConsumePresentMarkers GetData fForceFlush = .error Fault.outOfBounds := by
  have hU : UINT_MOD = 4294967296 := by decide
  have hn : (if d.m_rgpMarkerActive.length % UINT_MOD < 2 ^ 31
      then d.m_rgpMarkerActive.length % UINT_MOD else 0) = d.m_rgpMarkerActive.length := by
    rw [hU]
    have : d.m_rgpMarkerActive.length % 4294967296 = d.m_rgpMarkerActive.length := by omega
    rw [this, if_pos (by omega)]
  obtain ⟨d1, hr1, e1, e2, e3⟩ :=
    ConsumePresentMarkers_loop_descend d GetData fForceFlush i hnewer
      (d.m_rgpMarkerActive.length - (i + 1)) (by omega) d S_OK rfl rfl
  have e : i + (d.m_rgpMarkerActive.length - (i + 1)) + 1 = d.m_rgpMarkerActive.length := by
    omega
  have e0 : i + (d.m_rgpMarkerActive.length - (i + 1)) = d.m_rgpMarkerActive.length - 1 := by
    omega
  rw [e, e0] at e3
  have hfl : flushAt fForceFlush d.m_rgpMarkerActive.length
      (d.m_rgpMarkerActive.length - 1) = fForceFlush := by
    simp only [flushAt]
    have : d.m_rgpMarkerActive.length - 1 + 1 = d.m_rgpMarkerActive.length := by omega
    simp [this]
  rw [hfl] at e3
  simp only [CD3DDeviceLevel1.ConsumePresentMarkers, hn]
  rw [e3]
  rw [← statusAt_congr d d1 GetData e1 e2] at hfail
  obtain ⟨d2, k1, k2, _, _⟩ := IsConsumedGPUMarker_failed d1 GetData i _
    (by rw [e1]; exact hi) hfail.1 hfail.2
  rw [CD3DDeviceLevel1.ConsumePresentMarkers_loop, k1]
  have hF : FAILED S_OK = false := by decide
  simp only [hF, Bool.false_eq_true, if_false, if_true]
  unfold CD3DDeviceLevel1.FreeMarkerAndItsPredecessors
  rw [k2, DynArray.at_of_le [] i (Nat.zero_le _)]

/-- C4 (code defect): on `exampleDevice` the status check of the newest marker
(index 2) fails with `E_FAIL`.  `IsConsumedGPUMarker` turns tracking off, empties
both arrays and reports the marker consumed, and `ConsumePresentMarkers` then
indexes the emptied active array: the call does not complete. -/
theorem C4_failed_status_check_faults :
    exampleDevice.ConsumePresentMarkers (fun _ _ => E_FAIL) false
      = .error Fault.outOfBounds := by
  rfl

/-! ## The device pool -/

/-- C5 (code defect): device 1 is tracked and usable in `exampleWorld`, with one
registered listener.  `MarkUnusable` is called on it twice.  Its body being
empty, the world is unchanged: the manager has received no
`UnusableNotification`, no listener has been called, and the device is still
in the Usable partition, whereas `UnusableNotification` itself would make the
one broadcast. -/
theorem C5_MarkUnusable_notifies_nobody :
    (examplePool.m_rgDeviceList = [⟨1, ⟨0, 0⟩, false⟩] ∧ examplePool.m_iFirstUnusable = 1 ∧
      examplePool.m_rgAdapterStatusListeners = [50]) ∧
    (CD3DDeviceLevel1.MarkUnusable
        (CD3DDeviceLevel1.MarkUnusable exampleWorld 1 false) 1 false).manager = examplePool ∧
    (CD3DDeviceLevel1.MarkUnusable
        (CD3DDeviceLevel1.MarkUnusable exampleWorld 1 false) 1 false).manager.trace = [] ∧
    examplePool.UnusableNotification 1 = .ok examplePoolLost := by
  decide

theorem HandleDisplayChange_loop_diverges (w : World)
    (h0 : 0 < w.manager.m_iFirstUnusable) (h1 : w.manager.m_iFirstUnusable < UINT_MOD)
    (h2 : w.manager.m_iFirstUnusable ≤ w.manager.m_rgDeviceList.length) (fuel : Nat) :
    HandleDisplayChange_loop fuel w = none := by
  induction fuel with
  | zero => rfl
  | succ fuel ih =>
    have hU : UINT_MOD = 4294967296 := by decide
    rw [hU] at h1
    have hidx : (w.manager.m_iFirstUnusable + UINT_MOD - 1) % UINT_MOD
        < w.manager.m_rgDeviceList.length := by
      rw [hU]; omega
    rw [HandleDisplayChange_loop, if_pos h0, DynArray.at_of_lt _ _ hidx]
    exact ih

/-- When the old display set is not the one the manager holds, `HandleDisplayChange`
returns at once and changes nothing. -/
theorem HandleDisplayChange_of_other_display_set (fuel : Nat) (w : World)
    (pOldDisplaySet pNewDisplaySet : Nat) (h : pOldDisplaySet ≠ w.manager.m_pDisplaySet) :
    HandleDisplayChange fuel w pOldDisplaySet pNewDisplaySet = some (.ok w) := by
  unfold HandleDisplayChange
  rw [if_neg h]

/-- C6 (code defect): `examplePool` holds the display set 900 and tracks one
usable device.  `HandleDisplayChange(900, 901)` enters its loop
`while (m_iFirstUnusable > 0)`, whose body calls the empty `MarkUnusable`, so
`m_iFirstUnusable` stays 1: whatever the number of iterations allowed, the call
has not returned. -/
theorem C6_HandleDisplayChange_never_returns :
    ∀ fuel : Nat, HandleDisplayChange fuel exampleWorld 900 901 = none := by
  intro fuel
  have h := HandleDisplayChange_loop_diverges exampleWorld (by decide) (by decide) (by decide)
    fuel
  unfold HandleDisplayChange
  rw [if_pos (by decide), h]

/-- C7 (code defect): in `examplePoolLost` the only tracked device, 1, is in the
Unusable partition (`m_iFirstUnusable = 0`).  `GetD3DDevice` succeeds and hands
out device 1, taken from index 0 whatever the partition; no device is created
(the pool still has one entry) although the pool holds no usable device. -/
theorem C7_GetD3DDevice_hands_out_unusable_device :
    examplePool.UnusableNotification 1 = .ok examplePoolLost ∧
    examplePoolLost.m_iFirstUnusable = 0 ∧
    examplePoolLost.m_rgDeviceList = [⟨1, ⟨0, 0⟩, true⟩] ∧
    examplePoolLost.GetD3DDevice exampleDeviceEnv 900 = .ok (examplePoolLost, S_OK, some 1) := by
  decide


/-! ## Lemmas on moving array entries by index -/

theorem exists_decomp {α : Type} (l : List α) (k : Nat) (a : α) (h : l[k]? = some a) :
    ∃ T R, l = T ++ a :: R ∧ T.length = k := by
  have hk : k < l.length := by
    rcases Nat.lt_or_ge k l.length with h1 | h1
    · exact h1
    · rw [List.getElem?_eq_none h1] at h; cases h
  refine ⟨l.take k, l.drop (k + 1), ?_, by simp; omega⟩
  rw [List.getElem?_eq_getElem hk] at h
  have ha : l[k] = a := by injection h
  rw [← ha, ← List.drop_eq_getElem_cons hk, List.take_append_drop]

theorem set_perm_eraseIdx_append {α : Type} (a : α) (t : List α) :
    ∀ i, i < t.length → (t.set i a).Perm ((t ++ [a]).eraseIdx i) := by
  induction t with
  | nil => intro i h; simp at h
  | cons x t ih =>
    intro i h
    cases i with
    | zero =>
      simp only [List.set_cons_zero, List.cons_append, List.eraseIdx_cons_zero]
      exact (List.perm_append_singleton a t).symm
    | succ i =>
      simp only [List.set_cons_succ, List.cons_append, List.eraseIdx_cons_succ]
      exact (ih i (by simpa using h)).cons x

theorem eraseIdx_append_last {α : Type} (a : α) (t : List α) :
    (t ++ [a]).eraseIdx t.length = t := by
  induction t with
  | nil => rfl
  | cons x t ih => simp [ih]

theorem set_append_cons_perm {α : Type} (a x : α) (r : List α) (t : List α) :
    ∀ i, i < t.length → (t.set i a ++ x :: r).Perm (t.set i x ++ a :: r) := by
  induction t with
  | nil => intro i h; simp at h
  | cons y t ih =>
    intro i h
    cases i with
    | zero =>
      simp only [List.set_cons_zero, List.cons_append]
      calc (a :: (t ++ x :: r)).Perm (a :: x :: (t ++ r)) :=
            (List.perm_middle).cons a
        _ |>.Perm (x :: a :: (t ++ r)) := List.Perm.swap x a _
        _ |>.Perm (x :: (t ++ a :: r)) := (List.perm_middle).symm.cons x
    | succ i =>
      simp only [List.set_cons_succ, List.cons_append]
      exact (ih i (by simpa using h)).cons y

/-- Swapping the entry at `i0` with the entry at `k ≥ i0`. -/
theorem swap_spec {α : Type} (l : List α) (i0 k : Nat) (x a : α) (hik : i0 ≤ k)
    (hx : l[i0]? = some x) (ha : l[k]? = some a) :
    ((l.set i0 a).set k x).Perm l ∧
    (((l.set i0 a).set k x).take k).Perm ((l.take (k + 1)).eraseIdx i0) ∧
    ((l.set i0 a).set k x).drop k = x :: l.drop (k + 1) := by
  obtain ⟨T, R, hl, hT⟩ := exists_decomp l k a ha
  subst hl hT
  have htake : (T ++ a :: R).take (T.length + 1) = T ++ [a] := by
    rw [List.take_append_eq_append_take]
    simp
  have hdrop : (T ++ a :: R).drop (T.length + 1) = R := by
    rw [List.drop_append_eq_append_drop]
    simp
  rw [htake, hdrop]
  rcases Nat.lt_or_eq_of_le hik with hlt | heq
  · have hxT : T[i0]? = some x := by
      rw [List.getElem?_append_left hlt] at hx; exact hx
    have hset : ((T ++ a :: R).set i0 a).set T.length x = T.set i0 a ++ x :: R := by
      rw [List.set_append_left _ _ hlt, List.set_append_right _ _ (by simp)]
      simp
    rw [hset]
    refine ⟨?_, ?_, ?_⟩
    · have h1 := set_append_cons_perm a x R T i0 hlt
      have h2 : T.set i0 x = T := by
        apply List.ext_getElem?
        intro j
        by_cases hj : j = i0
        · subst hj; rw [List.getElem?_set_self hlt, hxT]
        · rw [List.getElem?_set_ne (Ne.symm hj)]
      rw [h2] at h1
      exact h1
    · rw [List.take_append_eq_append_take]
      simp only [List.length_set, Nat.sub_self, List.take_zero, List.append_nil]
      rw [List.take_of_length_le (by simp)]
      exact set_perm_eraseIdx_append a T i0 hlt
    · rw [List.drop_append_eq_append_drop]
      simp
  · subst heq
    have hxa : x = a := by
      rw [ha] at hx; injection hx with h; exact h.symm
    subst hxa
    have hset : ((T ++ x :: R).set T.length x).set T.length x = T ++ x :: R := by
      rw [List.set_set, List.set_append_right _ _ (le_refl _)]
      simp
    rw [hset]
    refine ⟨List.Perm.refl _, ?_, ?_⟩
    · rw [eraseIdx_append_last, List.take_append_eq_append_take]
      simp
    · rw [List.drop_append_eq_append_drop]
      simp

theorem eraseIdx_set_self {α : Type} (a : α) (l : List α) :
    ∀ i, (l.set i a).eraseIdx i = l.eraseIdx i := by
  induction l with
  | nil => intro i; rfl
  | cons x t ih =>
    intro i
    cases i with
    | zero => rfl
    | succ i => simp [ih i]

theorem set_of_getElem? {α : Type} (l : List α) (i : Nat) (a : α) (h : l[i]? = some a) :
    l.set i a = l := by
  apply List.ext_getElem?
  intro j
  by_cases hj : j = i
  · subst hj
    have hlt : j < l.length := by
      rcases Nat.lt_or_ge j l.length with h1 | h1
      · exact h1
      · rw [List.getElem?_eq_none h1] at h; cases h
    rw [List.getElem?_set_self hlt, h]
  · rw [List.getElem?_set_ne (Ne.symm hj)]

theorem lt_length_of_getElem? {α : Type} {l : List α} {i : Nat} {a : α}
    (h : l[i]? = some a) : i < l.length := by
  rcases Nat.lt_or_ge i l.length with h1 | h1
  · exact h1
  · rw [List.getElem?_eq_none h1] at h; cases h

theorem DynArray.at_of_getElem? {α : Type} (rg : List α) (i : Nat) (a : α)
    (h : rg[i]? = some a) : DynArray.at rg i = .ok a := by
  unfold DynArray.at
  rw [List.get?_eq_getElem?, h]

theorem DynArray.put_of_lt {α : Type} (rg : List α) (i : Nat) (a : α) (h : i < rg.length) :
    DynArray.put rg i a = .ok (rg.set i a) := by
  unfold DynArray.put
  rw [if_pos h]

theorem DynArray.copy_of_getElem? {α : Type} (rg : List α) (dst src : Nat) (a : α)
    (h : rg[src]? = some a) (hd : dst < rg.length) :
    DynArray.copy rg dst src = .ok (rg.set dst a) := by
  unfold DynArray.copy
  rw [DynArray.at_of_getElem? rg src a h]
  exact DynArray.put_of_lt rg dst a hd

theorem NotifyDeviceLost_fst (listeners : List Nat) (info : D3DDeviceInformation) :
    (NotifyDeviceLost listeners info).1 = { info with fIsDeviceLost := true } := by
  unfold NotifyDeviceLost
  by_cases h : info.fIsDeviceLost = true
  · simp only [h, Bool.not_true, Bool.false_eq_true, if_false]
    cases info
    simp_all
  · simp [h]

theorem NotifyDeviceLostAt_spec (m : CD3DDeviceManager) (i : Nat) (info : D3DDeviceInformation)
    (h : m.m_rgDeviceList[i]? = some info) :
    m.NotifyDeviceLostAt i = .ok
      { m with
        m_rgDeviceList := m.m_rgDeviceList.set i { info with fIsDeviceLost := true }
        trace := m.trace ++ (NotifyDeviceLost m.m_rgAdapterStatusListeners info).2 } := by
  unfold CD3DDeviceManager.NotifyDeviceLostAt
  rw [DynArray.at_of_getElem? _ i info h]
  simp only [NotifyDeviceLost_fst]

/-- The body of the `if` of `UnusableNotification` for a match at index `i` in
the Usable range: the entry, flagged lost, is swapped with the last usable one. -/
theorem UnusableNotification_found_spec (m : CD3DDeviceManager) (i : Nat)
    (info a : D3DDeviceInformation)
    (hi : m.m_rgDeviceList[i]? = some info) (hif : i < m.m_iFirstUnusable)
    (ha : (m.m_rgDeviceList.set i { info with fIsDeviceLost := true })[m.m_iFirstUnusable - 1]?
      = some a)
    (hf : m.m_iFirstUnusable < UINT_MOD) :
    m.UnusableNotification_found i = .ok
      { m with
        m_rgDeviceList :=
          ((m.m_rgDeviceList.set i { info with fIsDeviceLost := true }).set i a).set
            (m.m_iFirstUnusable - 1) { info with fIsDeviceLost := true }
        m_iFirstUnusable := m.m_iFirstUnusable - 1
        trace := m.trace ++ (NotifyDeviceLost m.m_rgAdapterStatusListeners info).2 } := by
  have hU : UINT_MOD = 4294967296 := by decide
  rw [hU] at hf
  have hidx : (m.m_iFirstUnusable + UINT_MOD - 1) % UINT_MOD = m.m_iFirstUnusable - 1 := by
    rw [hU]; omega
  have hilt : i < m.m_rgDeviceList.length := lt_length_of_getElem? hi
  have hklt := lt_length_of_getElem? ha
  unfold CD3DDeviceManager.UnusableNotification_found
  rw [NotifyDeviceLostAt_spec m i info hi]
  simp only [hidx]
  by_cases hne : i = m.m_iFirstUnusable - 1
  · rw [← hne] at ha ⊢
    simp only [ne_eq, not_true_eq_false, if_false]
    have hself : (m.m_rgDeviceList.set i { info with fIsDeviceLost := true })[i]?
        = some { info with fIsDeviceLost := true } := List.getElem?_set_self hilt
    have hae : a = { info with fIsDeviceLost := true } := by
      rw [hself] at ha; exact (Option.some.inj ha).symm
    rw [hae]
    simp only [List.set_set]
  · have hself : (m.m_rgDeviceList.set i { info with fIsDeviceLost := true })[i]?
        = some { info with fIsDeviceLost := true } := List.getElem?_set_self hilt
    have hput := DynArray.put_of_lt
      ((m.m_rgDeviceList.set i { info with fIsDeviceLost := true }).set i a)
      (m.m_iFirstUnusable - 1) { info with fIsDeviceLost := true } (by simpa using hklt)
    simp only [ne_eq, hne, not_false_eq_true, if_true,
      DynArray.at_of_getElem? _ i _ hself,
      DynArray.copy_of_getElem? _ i _ a ha (by simpa using hilt), hput]

/-- The loop of `UnusableNotification` over the indices `k .. N - 1`: it stops at
the first entry of the device and runs the body there, or finds none. -/
theorem UnusableNotification_scan_cases (p : Nat) (m : CD3DDeviceManager) (N : Nat)
    (hN : N ≤ m.m_rgDeviceList.length) :
    ∀ d k, k + d = N →
      (∃ i info, k ≤ i ∧ i < N ∧ m.m_rgDeviceList[i]? = some info ∧
        info.pDeviceLevel1 = p ∧
        CD3DDeviceManager.UnusableNotification_scan p d k m = m.UnusableNotification_found i) ∨
      ((∀ j x, k ≤ j → j < N → m.m_rgDeviceList[j]? = some x → x.pDeviceLevel1 ≠ p) ∧
        CD3DDeviceManager.UnusableNotification_scan p d k m = .ok m) := by
  intro d
  induction d with
  | zero =>
    intro k hk
    right
    exact ⟨fun j x h1 h2 => by omega, rfl⟩
  | succ d ih =>
    intro k hk
    have hklt : k < m.m_rgDeviceList.length := by omega
    have hget : m.m_rgDeviceList[k]? = some m.m_rgDeviceList[k] :=
      List.getElem?_eq_getElem hklt
    by_cases hp : m.m_rgDeviceList[k].pDeviceLevel1 = p
    · left
      refine ⟨k, m.m_rgDeviceList[k], le_refl _, by omega, hget, hp, ?_⟩
      rw [CD3DDeviceManager.UnusableNotification_scan, DynArray.at_of_getElem? _ k _ hget]
      simp only [hp, if_true]
    · have hstep : CD3DDeviceManager.UnusableNotification_scan p (d + 1) k m
          = CD3DDeviceManager.UnusableNotification_scan p d (k + 1) m := by
        rw [CD3DDeviceManager.UnusableNotification_scan, DynArray.at_of_getElem? _ k _ hget]
        simp only [hp, if_false]
      rcases ih (k + 1) (by omega) with ⟨i, info, h1, h2, h3, h4, h5⟩ | ⟨h1, h2⟩
      · left
        exact ⟨i, info, by omega, h2, h3, h4, by rw [hstep, h5]⟩
      · right
        refine ⟨?_, by rw [hstep, h2]⟩
        intro j x hj1 hj2 hx
        by_cases hjk : j = k
        · subst hjk
          rw [hget] at hx
          rw [← Option.some.inj hx]
          exact hp
        · exact h1 j x (by omega) hj2 hx

/-- C8: `UnusableNotification` for a device with an entry in the Usable range
(indices below `m_iFirstUnusable`) decrements `m_iFirstUnusable` by one and puts
that entry, now flagged lost, at the new `m_iFirstUnusable` index; the array is
a permutation of its previous entries (the moved one flagged lost), the other
usable entries are exactly the entries of the new Usable range and the Unusable
range after the moved entry is unchanged.  For a device with no entry in the
Usable range the array and `m_iFirstUnusable` are unchanged. -/
theorem C8_UnusableNotification_moves_entry (m : CD3DDeviceManager) (pUnusable : Nat)
    (hwf : m.m_iFirstUnusable ≤ m.m_rgDeviceList.length)
    (hcount : m.m_rgDeviceList.length < UINT_MOD) :
    ((∃ i info, i < m.m_iFirstUnusable ∧ m.m_rgDeviceList[i]? = some info ∧
        info.pDeviceLevel1 = pUnusable) →
      ∃ i info m1, i < m.m_iFirstUnusable ∧ m.m_rgDeviceList[i]? = some info ∧
        info.pDeviceLevel1 = pUnusable ∧
        m.UnusableNotification pUnusable = .ok m1 ∧
        m1.m_iFirstUnusable = m.m_iFirstUnusable - 1 ∧
        m1.m_rgDeviceList[m1.m_iFirstUnusable]? = some { info with fIsDeviceLost := true } ∧
        m1.m_rgDeviceList.Perm (m.m_rgDeviceList.set i { info with fIsDeviceLost := true }) ∧
        (m1.m_rgDeviceList.map (fun e => e.pDeviceLevel1)).Perm
          (m.m_rgDeviceList.map (fun e => e.pDeviceLevel1)) ∧
        (m1.m_rgDeviceList.take m1.m_iFirstUnusable).Perm
          ((m.m_rgDeviceList.take m.m_iFirstUnusable).eraseIdx i) ∧
        m1.m_rgDeviceList.drop (m1.m_iFirstUnusable + 1)
          = m.m_rgDeviceList.drop m.m_iFirstUnusable) ∧
    ((∀ i info, i < m.m_iFirstUnusable → m.m_rgDeviceList[i]? = some info →
        info.pDeviceLevel1 ≠ pUnusable) →
      ∃ m1, m.UnusableNotification pUnusable = .ok m1 ∧
        m1.m_rgDeviceList = m.m_rgDeviceList ∧
        m1.m_iFirstUnusable = m.m_iFirstUnusable) := by
  have hcases := UnusableNotification_scan_cases pUnusable
    { m with trace := m.trace ++ [Event.UnusableNotification pUnusable] }
    m.m_iFirstUnusable hwf m.m_iFirstUnusable 0 (by omega)
  rcases hcases with ⟨i, info, _, h2, h3, h4, h5⟩ | ⟨h1, h2⟩
  · constructor
    · intro _
      have h3m : m.m_rgDeviceList[i]? = some info := h3
      have hilt : i < m.m_rgDeviceList.length := lt_length_of_getElem? h3m
      have hklt : m.m_iFirstUnusable - 1
          < (m.m_rgDeviceList.set i { info with fIsDeviceLost := true }).length := by
        simp; omega
      have ha := List.getElem?_eq_getElem hklt
      have hfound : ∃ m1,
          CD3DDeviceManager.UnusableNotification_found
            { m with trace := m.trace ++ [Event.UnusableNotification pUnusable] } i = .ok m1 ∧
          m1.m_rgDeviceList =
            ((m.m_rgDeviceList.set i { info with fIsDeviceLost := true }).set i
              (m.m_rgDeviceList.set i
                { info with fIsDeviceLost := true })[m.m_iFirstUnusable - 1]).set
              (m.m_iFirstUnusable - 1) { info with fIsDeviceLost := true } ∧
          m1.m_iFirstUnusable = m.m_iFirstUnusable - 1 :=
        ⟨_, UnusableNotification_found_spec
          { m with trace := m.trace ++ [Event.UnusableNotification pUnusable] } i info _
          h3 h2 ha (show m.m_iFirstUnusable < UINT_MOD from lt_of_le_of_lt hwf hcount),
          rfl, rfl⟩
      obtain ⟨m1, e1, e2, e3⟩ := hfound
      have hx : (m.m_rgDeviceList.set i { info with fIsDeviceLost := true })[i]?
          = some { info with fIsDeviceLost := true } := List.getElem?_set_self hilt
      obtain ⟨s1, s2, s3⟩ := swap_spec
        (m.m_rgDeviceList.set i { info with fIsDeviceLost := true }) i
        (m.m_iFirstUnusable - 1) _ _ (by omega) hx ha
      have hk1 : m.m_iFirstUnusable - 1 + 1 = m.m_iFirstUnusable := by omega
      rw [hk1] at s2 s3
      rw [← e2] at s1 s2 s3
      refine ⟨i, info, m1, h2, h3m, h4, ?_, e3, ?_, s1, ?_, ?_, ?_⟩
      · unfold CD3DDeviceManager.UnusableNotification
        rw [h5, e1]
      · rw [e3, e2]
        exact List.getElem?_set_self (by simpa using hklt)
      · refine (s1.map _).trans ?_
        rw [List.map_set]
        have : (m.m_rgDeviceList.map (fun e => e.pDeviceLevel1))[i]?
            = some info.pDeviceLevel1 := by
          rw [List.getElem?_map, h3m]; rfl
        rw [set_of_getElem? _ i _ this]
      · rw [e3]
        refine s2.trans ?_
        rw [List.set_take, eraseIdx_set_self]
      · rw [e3, ← List.tail_drop, s3, List.tail_cons, List.drop_set_of_lt _ _ h2]
    · intro hnone
      exact absurd h4 (hnone i info h2 h3)
  · constructor
    · rintro ⟨i, info, hi, hinfo, hp⟩
      exact absurd hp (h1 i info (Nat.zero_le _) hi hinfo)
    · intro _
      exact ⟨_, h2, rfl, rfl⟩

/-- C8 on `examplePool4` for device 11 (index 0 of the Usable range `0..2`): the
entry is swapped with the one of device 13 and ends at index 2, the new
`m_iFirstUnusable`. -/
theorem C8_UnusableNotification_moves_entry_witness :
    (examplePool4.UnusableNotification 11).map
        (fun m1 => (m1.m_rgDeviceList, m1.m_iFirstUnusable))
      = .ok ([⟨13, ⟨0, 0⟩, false⟩, ⟨12, ⟨0, 0⟩, false⟩, ⟨11, ⟨0, 0⟩, true⟩,
              ⟨14, ⟨0, 0⟩, true⟩], 2) ∧
    ∃ i info m1, i < examplePool4.m_iFirstUnusable ∧
      examplePool4.m_rgDeviceList[i]? = some info ∧ info.pDeviceLevel1 = 11 ∧
      examplePool4.UnusableNotification 11 = .ok m1 ∧
      m1.m_iFirstUnusable = examplePool4.m_iFirstUnusable - 1 ∧
      m1.m_rgDeviceList[m1.m_iFirstUnusable]? = some { info with fIsDeviceLost := true } ∧
      m1.m_rgDeviceList.Perm
        (examplePool4.m_rgDeviceList.set i { info with fIsDeviceLost := true }) ∧
      (m1.m_rgDeviceList.map (fun e => e.pDeviceLevel1)).Perm
        (examplePool4.m_rgDeviceList.map (fun e => e.pDeviceLevel1)) ∧
      (m1.m_rgDeviceList.take m1.m_iFirstUnusable).Perm
        ((examplePool4.m_rgDeviceList.take examplePool4.m_iFirstUnusable).eraseIdx i) ∧
      m1.m_rgDeviceList.drop (m1.m_iFirstUnusable + 1)
        = examplePool4.m_rgDeviceList.drop examplePool4.m_iFirstUnusable :=
  ⟨by decide,
    (C8_UnusableNotification_moves_entry examplePool4 11 (by decide) (by decide)).1
      ⟨0, ⟨11, ⟨0, 0⟩, false⟩, by decide, rfl, rfl⟩⟩


/-! ## Lemmas on removing an array entry by index -/

theorem take_set_of_le' {α : Type} (a : α) (l : List α) (n m : Nat) (h : n ≤ m) :
    (l.set m a).take n = l.take n := by
  rw [List.set_take]
  exact List.set_eq_of_length_le (by simp; omega)

/-- Removing the usable entry at `i0`: the last usable entry (index `k`) is
copied to `i0`, the last entry to `k`, and the count drops by one. -/
theorem removeUsable_spec {α : Type} (l : List α) (i0 k : Nat) (a y : α) (hik : i0 ≤ k)
    (ha : l[k]? = some a) (hy : (l.set i0 a)[l.length - 1]? = some y) :
    ((((l.set i0 a).set k y).take (l.length - 1)).take k).Perm
        ((l.take (k + 1)).eraseIdx i0) ∧
    ((((l.set i0 a).set k y).take (l.length - 1)).drop k).Perm (l.drop (k + 1)) ∧
    (((l.set i0 a).set k y).take (l.length - 1)).length = l.length - 1 := by
  obtain ⟨T, R, hl, hT⟩ := exists_decomp l k a ha
  subst hl hT
  have htake : (T ++ a :: R).take (T.length + 1) = T ++ [a] := by
    rw [List.take_append_eq_append_take]
    simp
  have hdrop : (T ++ a :: R).drop (T.length + 1) = R := by
    rw [List.drop_append_eq_append_drop]
    simp
  have hlen : (T ++ a :: R).length - 1 = T.length + R.length := by
    simp
  rw [htake, hdrop, hlen]
  rw [hlen] at hy
  -- the array after the first copy
  have hfirst : ∃ T1 : List α, (T ++ a :: R).set i0 a = T1 ++ a :: R ∧ T1.length = T.length ∧
      T1.Perm ((T ++ [a]).eraseIdx i0) := by
    rcases Nat.lt_or_eq_of_le hik with hlt | heq
    · exact ⟨T.set i0 a, List.set_append_left _ _ hlt, by simp,
        set_perm_eraseIdx_append a T i0 hlt⟩
    · subst heq
      refine ⟨T, ?_, rfl, ?_⟩
      · rw [List.set_append_right _ _ (le_refl _)]
        simp
      · rw [eraseIdx_append_last]
  obtain ⟨T1, h1, h2, h3⟩ := hfirst
  rw [h1] at hy ⊢
  have hset : (T1 ++ a :: R).set T.length y = T1 ++ y :: R := by
    rw [List.set_append_right _ _ (by omega)]
    simp [h2]
  rw [hset]
  have htk : (T1 ++ y :: R).take (T.length + R.length) = T1 ++ (y :: R).take R.length := by
    rw [List.take_append_eq_append_take, List.take_of_length_le (by omega)]
    congr 2
    omega
  rw [htk]
  refine ⟨?_, ?_, ?_⟩
  · rw [List.take_append_eq_append_take, List.take_of_length_le (by omega)]
    have : T.length - T1.length = 0 := by omega
    rw [this]
    simpa using h3
  · rw [List.drop_append_eq_append_drop, List.drop_of_length_le (by omega)]
    have : T.length - T1.length = 0 := by omega
    rw [this]
    simp only [List.nil_append, List.drop_zero]
    rcases List.eq_nil_or_concat R with hR | ⟨R1, b, hR⟩
    · subst hR
      simp
    · rw [List.concat_eq_append] at hR
      subst hR
      have hyb : y = b := by
        have hidx : T.length + (R1 ++ [b]).length = T1.length + (1 + R1.length) := by
          simp; omega
        rw [hidx, List.getElem?_append_right (by omega)] at hy
        have : T1.length + (1 + R1.length) - T1.length = R1.length + 1 := by omega
        rw [this] at hy
        simp at hy
        exact hy.symm
      subst hyb
      have : (y :: (R1 ++ [y])).take (R1 ++ [y]).length = y :: R1 := by
        simp
      rw [this]
      exact (List.perm_append_singleton y R1).symm
  · simp
    omega

/-- Removing the unusable entry at `i0`: the last entry is copied to `i0` and the
count drops by one. -/
theorem removeUnusable_spec {α : Type} (l : List α) (i0 f : Nat) (y : α) (hfi : f ≤ i0)
    (hi : i0 < l.length) (hy : l[l.length - 1]? = some y) :
    (((l.set i0 y).take (l.length - 1)).take f) = l.take f ∧
    (((l.set i0 y).take (l.length - 1)).drop f).Perm ((l.drop f).eraseIdx (i0 - f)) ∧
    ((l.set i0 y).take (l.length - 1)).length = l.length - 1 := by
  obtain ⟨W, R, hl, hW⟩ := exists_decomp l (l.length - 1) y hy
  subst hl
  have hR : R = [] := by
    have : (W ++ y :: R).length = W.length + 1 + R.length := by simp; omega
    have hR0 : R.length = 0 := by omega
    exact List.length_eq_zero.mp hR0
  subst hR
  have hlen : (W ++ [y]).length - 1 = W.length := by simp
  rw [hlen]
  have hiW : i0 ≤ W.length := by
    have : (W ++ [y]).length = W.length + 1 := by simp
    omega
  have hL : ((W ++ [y]).set i0 y).take W.length = if i0 < W.length then W.set i0 y else W := by
    split
    · rename_i hlt
      rw [List.set_append_left _ _ hlt, List.take_append_eq_append_take]
      simp
    · rename_i hge
      rw [List.set_append_right _ _ (by omega), List.take_append_eq_append_take]
      simp
  rw [hL]
  have hdropW : (W ++ [y]).drop f = W.drop f ++ [y] := by
    rw [List.drop_append_eq_append_drop]
    have : f - W.length = 0 := by omega
    rw [this]
    rfl
  have htakeW : (W ++ [y]).take f = W.take f := by
    rw [List.take_append_eq_append_take]
    have : f - W.length = 0 := by omega
    rw [this]
    simp
  rw [hdropW, htakeW]
  by_cases hlt : i0 < W.length
  · rw [if_pos hlt]
    refine ⟨take_set_of_le' y W f i0 hfi, ?_, by simp⟩
    rw [List.drop_set, if_neg (by omega)]
    exact set_perm_eraseIdx_append y (W.drop f) (i0 - f) (by simp; omega)
  · rw [if_neg hlt]
    refine ⟨rfl, ?_, rfl⟩
    have : i0 - f = (W.drop f).length := by simp; omega
    rw [this, eraseIdx_append_last]

theorem DecCallers_pool (m : CD3DDeviceManager) :
    m.DecCallers.m_rgDeviceList = m.m_rgDeviceList ∧
    m.DecCallers.m_iFirstUnusable = m.m_iFirstUnusable := by
  rw [CD3DDeviceManager.DecCallers]
  generalize (m.m_cCallers + UINT_MOD - 1) % UINT_MOD = c
  split
  · split
    · split <;> exact ⟨rfl, rfl⟩
    · exact ⟨rfl, rfl⟩
  · exact ⟨rfl, rfl⟩

/-- The removal of a matching entry at index `i` of the Usable range. -/
theorem UnusedNotification_remove_usable (m : CD3DDeviceManager) (i : Nat)
    (info a y : D3DDeviceInformation)
    (hi : m.m_rgDeviceList[i]? = some info) (hif : i < m.m_iFirstUnusable)
    (hwf : m.m_iFirstUnusable ≤ m.m_rgDeviceList.length)
    (hcount : m.m_rgDeviceList.length < UINT_MOD)
    (ha : (m.m_rgDeviceList.set i { info with fIsDeviceLost := true })[m.m_iFirstUnusable - 1]?
      = some a)
    (hy : ((m.m_rgDeviceList.set i { info with fIsDeviceLost := true }).set i
      a)[m.m_rgDeviceList.length - 1]? = some y) :
    ∃ m1, m.UnusedNotification_remove m.m_rgDeviceList.length i = .ok m1 ∧
      m1.m_rgDeviceList =
        ((((m.m_rgDeviceList.set i { info with fIsDeviceLost := true }).set i a).set
          (m.m_iFirstUnusable - 1) y).take (m.m_rgDeviceList.length - 1)) ∧
      m1.m_iFirstUnusable = m.m_iFirstUnusable - 1 := by
  have hU : UINT_MOD = 4294967296 := by decide
  rw [hU] at hcount
  have hidx : (m.m_iFirstUnusable + UINT_MOD - 1) % UINT_MOD = m.m_iFirstUnusable - 1 := by
    rw [hU]; omega
  have hlast : (m.m_rgDeviceList.length + UINT_MOD - 1) % UINT_MOD
      = m.m_rgDeviceList.length - 1 := by
    rw [hU]; omega
  have hilt : i < m.m_rgDeviceList.length := lt_length_of_getElem? hi
  have hc1 := DynArray.copy_of_getElem?
    (m.m_rgDeviceList.set i { info with fIsDeviceLost := true }) i (m.m_iFirstUnusable - 1) a ha
    (by simpa using hilt)
  have hc2 := DynArray.copy_of_getElem?
    ((m.m_rgDeviceList.set i { info with fIsDeviceLost := true }).set i a)
    (m.m_iFirstUnusable - 1) (m.m_rgDeviceList.length - 1) y hy (by simp; omega)
  have hset : DynArray.SetCount
      (((m.m_rgDeviceList.set i { info with fIsDeviceLost := true }).set i a).set
        (m.m_iFirstUnusable - 1) y) (m.m_rgDeviceList.length - 1) info
      = ((((m.m_rgDeviceList.set i { info with fIsDeviceLost := true }).set i a).set
          (m.m_iFirstUnusable - 1) y).take (m.m_rgDeviceList.length - 1)) := by
    unfold DynArray.SetCount
    rw [if_pos (by simp)]
  have hcall : m.UnusedNotification_remove m.m_rgDeviceList.length i = .ok
      (CD3DDeviceManager.DecCallers
        { m with
          m_rgDeviceList :=
            ((((m.m_rgDeviceList.set i { info with fIsDeviceLost := true }).set i a).set
              (m.m_iFirstUnusable - 1) y).take (m.m_rgDeviceList.length - 1))
          m_iFirstUnusable := m.m_iFirstUnusable - 1
          trace := m.trace ++ (NotifyDeviceLost m.m_rgAdapterStatusListeners info).2
          deleted := m.deleted ++ [info.pDeviceLevel1] }) := by
    unfold CD3DDeviceManager.UnusedNotification_remove
    rw [DynArray.at_of_getElem? _ i info hi, NotifyDeviceLostAt_spec m i info hi]
    simp only [hidx, hlast, hif, if_true, hc1, hc2, hset]
  exact ⟨_, hcall, (DecCallers_pool _).1, (DecCallers_pool _).2⟩

/-- The removal of a matching entry at index `i` of the Unusable range. -/
theorem UnusedNotification_remove_unusable (m : CD3DDeviceManager) (i : Nat)
    (info y : D3DDeviceInformation)
    (hi : m.m_rgDeviceList[i]? = some info) (hfi : m.m_iFirstUnusable ≤ i)
    (hcount : m.m_rgDeviceList.length < UINT_MOD)
    (hy : (m.m_rgDeviceList.set i { info with fIsDeviceLost := true })[m.m_rgDeviceList.length
      - 1]? = some y) :
    ∃ m1, m.UnusedNotification_remove m.m_rgDeviceList.length i = .ok m1 ∧
      m1.m_rgDeviceList =
        (((m.m_rgDeviceList.set i { info with fIsDeviceLost := true }).set i y).take
          (m.m_rgDeviceList.length - 1)) ∧
      m1.m_iFirstUnusable = m.m_iFirstUnusable := by
  have hU : UINT_MOD = 4294967296 := by decide
  rw [hU] at hcount
  have hilt : i < m.m_rgDeviceList.length := lt_length_of_getElem? hi
  have hlast : (m.m_rgDeviceList.length + UINT_MOD - 1) % UINT_MOD
      = m.m_rgDeviceList.length - 1 := by
    rw [hU]; omega
  have hc1 := DynArray.copy_of_getElem?
    (m.m_rgDeviceList.set i { info with fIsDeviceLost := true }) i
    (m.m_rgDeviceList.length - 1) y hy (by simpa using hilt)
  have hnot : ¬ i < m.m_iFirstUnusable := by omega
  have hset : DynArray.SetCount
      ((m.m_rgDeviceList.set i { info with fIsDeviceLost := true }).set i y)
      (m.m_rgDeviceList.length - 1) info
      = (((m.m_rgDeviceList.set i { info with fIsDeviceLost := true }).set i y).take
          (m.m_rgDeviceList.length - 1)) := by
    unfold DynArray.SetCount
    rw [if_pos (by simp)]
  have hcall : m.UnusedNotification_remove m.m_rgDeviceList.length i = .ok
      (CD3DDeviceManager.DecCallers
        { m with
          m_rgDeviceList :=
            (((m.m_rgDeviceList.set i { info with fIsDeviceLost := true }).set i y).take
              (m.m_rgDeviceList.length - 1))
          m_iFirstUnusable := m.m_iFirstUnusable
          trace := m.trace ++ (NotifyDeviceLost m.m_rgAdapterStatusListeners info).2
          deleted := m.deleted ++ [info.pDeviceLevel1] }) := by
    unfold CD3DDeviceManager.UnusedNotification_remove
    rw [DynArray.at_of_getElem? _ i info hi, NotifyDeviceLostAt_spec m i info hi]
    simp only [hlast, hnot, if_false, hc1, hset]
  exact ⟨_, hcall, (DecCallers_pool _).1, (DecCallers_pool _).2⟩

/-- The loop of `UnusedNotification` over the indices `k .. N - 1`: it stops at
the first entry of the device, or finds none. -/
theorem UnusedNotification_scan_cases (G : Nat → Nat) (p uCount : Nat)
    (m : CD3DDeviceManager) (N : Nat) (hN : N ≤ m.m_rgDeviceList.length) :
    ∀ d k, k + d = N →
      (∃ i info, k ≤ i ∧ i < N ∧ m.m_rgDeviceList[i]? = some info ∧
        info.pDeviceLevel1 = p ∧
        CD3DDeviceManager.UnusedNotification_scan G p uCount d k m
          = if G p ≠ 0 then .ok m else m.UnusedNotification_remove uCount i) ∨
      ((∀ j x, k ≤ j → j < N → m.m_rgDeviceList[j]? = some x → x.pDeviceLevel1 ≠ p) ∧
        CD3DDeviceManager.UnusedNotification_scan G p uCount d k m = .ok m) := by
  intro d
  induction d with
  | zero =>
    intro k hk
    right
    exact ⟨fun j x h1 h2 => by omega, rfl⟩
  | succ d ih =>
    intro k hk
    have hklt : k < m.m_rgDeviceList.length := by omega
    have hget : m.m_rgDeviceList[k]? = some m.m_rgDeviceList[k] :=
      List.getElem?_eq_getElem hklt
    by_cases hp : m.m_rgDeviceList[k].pDeviceLevel1 = p
    · left
      refine ⟨k, m.m_rgDeviceList[k], le_refl _, by omega, hget, hp, ?_⟩
      rw [CD3DDeviceManager.UnusedNotification_scan, DynArray.at_of_getElem? _ k _ hget]
      simp only [hp, if_true]
    · have hstep : CD3DDeviceManager.UnusedNotification_scan G p uCount (d + 1) k m
          = CD3DDeviceManager.UnusedNotification_scan G p uCount d (k + 1) m := by
        rw [CD3DDeviceManager.UnusedNotification_scan, DynArray.at_of_getElem? _ k _ hget]
        simp only [hp, if_false]
      rcases ih (k + 1) (by omega) with ⟨i, info, h1, h2, h3, h4, h5⟩ | ⟨h1, h2⟩
      · left
        exact ⟨i, info, by omega, h2, h3, h4, by rw [hstep, h5]⟩
      · right
        refine ⟨?_, by rw [hstep, h2]⟩
        intro j x hj1 hj2 hx
        by_cases hjk : j = k
        · subst hjk
          rw [hget] at hx
          rw [← Option.some.inj hx]
          exact hp
        · exact h1 j x (by omega) hj2 hx

/-- C9: `UnusedNotification` for a device that has an entry in the pool, is not
the software device and has reference count zero (the manager having D3D loaded,
as it has whenever it tracks a device) removes exactly that entry: the count
drops by one, `m_iFirstUnusable` drops by one if the entry was in the Usable
range and is unchanged otherwise, it stays at most the count, and the other
entries of each partition are exactly the entries of the new partition.  If the
reference count is not zero, or the device has no entry, the array and
`m_iFirstUnusable` are unchanged. -/
theorem C9_UnusedNotification_removes_entry (m : CD3DDeviceManager)
    (GetRefCount : Nat → Nat) (pUnused : Nat)
    (hwf : m.m_iFirstUnusable ≤ m.m_rgDeviceList.length)
    (hcount : m.m_rgDeviceList.length < UINT_MOD) :
    ((∃ (i : Nat) (info : D3DDeviceInformation), m.m_rgDeviceList[i]? = some info ∧
        info.pDeviceLevel1 = pUnused) →
      GetRefCount pUnused = 0 → m.m_fD3DLoaded = true → m.m_pSWDevice ≠ pUnused →
      ∃ (i : Nat) (info : D3DDeviceInformation) (m1 : CD3DDeviceManager),
        m.m_rgDeviceList[i]? = some info ∧ info.pDeviceLevel1 = pUnused ∧
        m.UnusedNotification GetRefCount pUnused = .ok m1 ∧
        m1.m_rgDeviceList.length = m.m_rgDeviceList.length - 1 ∧
        m1.m_iFirstUnusable
          = (if i < m.m_iFirstUnusable then m.m_iFirstUnusable - 1 else m.m_iFirstUnusable) ∧
        m1.m_iFirstUnusable ≤ m1.m_rgDeviceList.length ∧
        m1.m_rgDeviceList.Perm (m.m_rgDeviceList.eraseIdx i) ∧
        (m1.m_rgDeviceList.take m1.m_iFirstUnusable).Perm
          (if i < m.m_iFirstUnusable then (m.m_rgDeviceList.take m.m_iFirstUnusable).eraseIdx i
            else m.m_rgDeviceList.take m.m_iFirstUnusable) ∧
        (m1.m_rgDeviceList.drop m1.m_iFirstUnusable).Perm
          (if i < m.m_iFirstUnusable then m.m_rgDeviceList.drop m.m_iFirstUnusable
            else (m.m_rgDeviceList.drop m.m_iFirstUnusable).eraseIdx
              (i - m.m_iFirstUnusable))) ∧
    ((GetRefCount pUnused ≠ 0 ∨
        ∀ (i : Nat) (info : D3DDeviceInformation), m.m_rgDeviceList[i]? = some info →
          info.pDeviceLevel1 ≠ pUnused) →
      ∃ m1, m.UnusedNotification GetRefCount pUnused = .ok m1 ∧
        m1.m_rgDeviceList = m.m_rgDeviceList ∧
        m1.m_iFirstUnusable = m.m_iFirstUnusable) := by
  have hU : UINT_MOD = 4294967296 := by decide
  have hmod : m.m_rgDeviceList.length % UINT_MOD = m.m_rgDeviceList.length := by
    rw [hU] at hcount ⊢; omega
  have hcases := UnusedNotification_scan_cases GetRefCount pUnused m.m_rgDeviceList.length m
    m.m_rgDeviceList.length (le_refl _) m.m_rgDeviceList.length 0 (by omega)
  constructor
  · rintro ⟨i', info', hi', hp'⟩ hG hloaded hsw
    have hnsw : ¬ (m.m_pSWDevice = pUnused ∧ GetRefCount pUnused = 0) := fun h => hsw h.1
    have hcall : m.UnusedNotification GetRefCount pUnused
        = CD3DDeviceManager.UnusedNotification_scan GetRefCount pUnused
            m.m_rgDeviceList.length m.m_rgDeviceList.length 0 m := by
      unfold CD3DDeviceManager.UnusedNotification
      simp only [hloaded, if_true, hnsw, if_false, hmod]
    rcases hcases with ⟨i, info, _, h2, h3, h4, h5⟩ | ⟨h1, _⟩
    · rw [if_neg (by simp [hG])] at h5
      have hl1len : (m.m_rgDeviceList.set i { info with fIsDeviceLost := true }).length
          = m.m_rgDeviceList.length := by simp
      by_cases hif : i < m.m_iFirstUnusable
      · have hklt : m.m_iFirstUnusable - 1
            < (m.m_rgDeviceList.set i { info with fIsDeviceLost := true }).length := by
          simp; omega
        have ha := List.getElem?_eq_getElem hklt
        have hylt : m.m_rgDeviceList.length - 1 <
            ((m.m_rgDeviceList.set i { info with fIsDeviceLost := true }).set i
              (m.m_rgDeviceList.set i
                { info with fIsDeviceLost := true })[m.m_iFirstUnusable - 1]).length := by
          simp; omega
        have hy := List.getElem?_eq_getElem hylt
        obtain ⟨m1, e1, e2, e3⟩ :=
          UnusedNotification_remove_usable m i info _ _ h3 hif hwf hcount ha hy
        have hlen1 : (m.m_rgDeviceList.set i { info with fIsDeviceLost := true }).length - 1
            = m.m_rgDeviceList.length - 1 := by rw [hl1len]
        obtain ⟨s1, s2, s3⟩ := removeUsable_spec
          (m.m_rgDeviceList.set i { info with fIsDeviceLost := true }) i
          (m.m_iFirstUnusable - 1) _ _ (by omega) ha (by rw [hlen1]; exact hy)
        have hk1 : m.m_iFirstUnusable - 1 + 1 = m.m_iFirstUnusable := by omega
        rw [hk1, hl1len, ← e2] at s1 s2
        rw [hl1len, ← e2] at s3
        rw [List.set_take, eraseIdx_set_self] at s1
        rw [List.drop_set_of_lt _ _ hif] at s2
        refine ⟨i, info, m1, h3, h4, by rw [hcall, h5, e1], by rw [s3], ?_, ?_, ?_, ?_, ?_⟩
        · rw [e3, if_pos hif]
        · rw [e3, s3]; omega
        · rw [← List.take_append_drop (m.m_iFirstUnusable - 1) m1.m_rgDeviceList]
          refine (s1.append s2).trans ?_
          rw [← List.eraseIdx_append_of_lt_length (by simp; omega), List.take_append_drop]
        · rw [e3, if_pos hif]; exact s1
        · rw [e3, if_pos hif]; exact s2
      · have hilt : i < m.m_rgDeviceList.length := h2
        have hylt : m.m_rgDeviceList.length - 1
            < (m.m_rgDeviceList.set i { info with fIsDeviceLost := true }).length := by
          simp; omega
        have hy := List.getElem?_eq_getElem hylt
        obtain ⟨m1, e1, e2, e3⟩ :=
          UnusedNotification_remove_unusable m i info _ h3 (by omega) hcount hy
        have hlen1 : (m.m_rgDeviceList.set i { info with fIsDeviceLost := true }).length - 1
            = m.m_rgDeviceList.length - 1 := by rw [hl1len]
        obtain ⟨s1, s2, s3⟩ := removeUnusable_spec
          (m.m_rgDeviceList.set i { info with fIsDeviceLost := true }) i
          m.m_iFirstUnusable _ (by omega) (by simpa using hilt) (by rw [hlen1]; exact hy)
        rw [hl1len, ← e2] at s1 s2 s3
        rw [take_set_of_le' _ _ _ _ (by omega)] at s1
        rw [List.drop_set, if_neg hif, eraseIdx_set_self] at s2
        refine ⟨i, info, m1, h3, h4, by rw [hcall, h5, e1], by rw [s3], ?_, ?_, ?_, ?_, ?_⟩
        · rw [e3, if_neg hif]
        · rw [e3, s3]; omega
        · rw [← List.take_append_drop m.m_iFirstUnusable m1.m_rgDeviceList, s1]
          refine (s2.append_left _).trans ?_
          have hlen : (m.m_rgDeviceList.take m.m_iFirstUnusable).length ≤ i := by
            simp; omega
          have := List.eraseIdx_append_of_length_le hlen
            (m.m_rgDeviceList.drop m.m_iFirstUnusable)
          rw [List.take_append_drop] at this
          rw [this]
          have hl : (m.m_rgDeviceList.take m.m_iFirstUnusable).length
              = m.m_iFirstUnusable := by simp; omega
          rw [hl]
        · rw [e3, if_neg hif, s1]
        · rw [e3, if_neg hif]; exact s2
    · exact absurd hp' (h1 i' info' (Nat.zero_le _) (lt_length_of_getElem? hi') hi')
  · intro hor
    unfold CD3DDeviceManager.UnusedNotification
    by_cases hloaded : m.m_fD3DLoaded = true
    · simp only [hloaded, if_true]
      by_cases hsw : m.m_pSWDevice = pUnused ∧ GetRefCount pUnused = 0
      · rw [if_pos hsw]
        exact ⟨_, rfl, (DecCallers_pool _).1, (DecCallers_pool _).2⟩
      · rw [if_neg hsw, hmod]
        rcases hcases with ⟨i, info, _, h2, h3, h4, h5⟩ | ⟨_, h2⟩
        · rcases hor with hG | hnone
          · rw [if_pos hG] at h5
            exact ⟨m, h5, rfl, rfl⟩
          · exact absurd h4 (hnone i info h3)
        · exact ⟨m, h2, rfl, rfl⟩
    · simp only [hloaded, Bool.false_eq_true, if_false]
      exact ⟨m, rfl, rfl, rfl⟩

/-- C9 on `examplePool4` for the unreferenced device 12 (index 1 of the Usable
range): its entry is replaced by the last usable one (13), the last entry (14)
moves to index 2 and the count drops to 3. -/
theorem C9_UnusedNotification_removes_entry_witness :
    (examplePool4.UnusedNotification (fun _ => 0) 12).map
        (fun m1 => (m1.m_rgDeviceList, m1.m_iFirstUnusable))
      = .ok ([⟨11, ⟨0, 0⟩, false⟩, ⟨13, ⟨0, 0⟩, false⟩, ⟨14, ⟨0, 0⟩, true⟩], 2) ∧
    ∃ (i : Nat) (info : D3DDeviceInformation) (m1 : CD3DDeviceManager),
      examplePool4.m_rgDeviceList[i]? = some info ∧ info.pDeviceLevel1 = 12 ∧
      examplePool4.UnusedNotification (fun _ => 0) 12 = .ok m1 ∧
      m1.m_rgDeviceList.length = examplePool4.m_rgDeviceList.length - 1 ∧
      m1.m_iFirstUnusable
        = (if i < examplePool4.m_iFirstUnusable then examplePool4.m_iFirstUnusable - 1
            else examplePool4.m_iFirstUnusable) ∧
      m1.m_iFirstUnusable ≤ m1.m_rgDeviceList.length ∧
      m1.m_rgDeviceList.Perm (examplePool4.m_rgDeviceList.eraseIdx i) ∧
      (m1.m_rgDeviceList.take m1.m_iFirstUnusable).Perm
        (if i < examplePool4.m_iFirstUnusable
          then (examplePool4.m_rgDeviceList.take examplePool4.m_iFirstUnusable).eraseIdx i
          else examplePool4.m_rgDeviceList.take examplePool4.m_iFirstUnusable) ∧
      (m1.m_rgDeviceList.drop m1.m_iFirstUnusable).Perm
        (if i < examplePool4.m_iFirstUnusable
          then examplePool4.m_rgDeviceList.drop examplePool4.m_iFirstUnusable
          else (examplePool4.m_rgDeviceList.drop examplePool4.m_iFirstUnusable).eraseIdx
            (i - examplePool4.m_iFirstUnusable)) :=
  ⟨by decide,
    (C9_UnusedNotification_removes_entry examplePool4 (fun _ => 0) 12 (by decide)
      (by decide)).1 ⟨1, ⟨12, ⟨0, 0⟩, false⟩, rfl, rfl⟩ rfl rfl (by decide)⟩


theorem NotifyDeviceLost_times_of_lost (listeners : List Nat) (n : Nat) :
    ∀ info : D3DDeviceInformation, info.fIsDeviceLost = true →
      NotifyDeviceLost_times listeners n info = (info, []) := by
  induction n with
  | zero => intro info _; rfl
  | succ n ih =>
    intro info h
    have h1 : NotifyDeviceLost listeners info = (info, []) := by
      simp [NotifyDeviceLost, h]
    simp only [NotifyDeviceLost_times, h1, ih info h, List.append_nil]

theorem countP_isCallTo_map (listeners : List Nat) (uAdapter p : Nat) :
    (listeners.map (fun q => Event.NotifyAdapterStatus q uAdapter false)).countP
      (Event.isCallTo p) = listeners.count p := by
  induction listeners with
  | nil => rfl
  | cons q rest ih =>
    rw [List.map_cons, List.countP_cons, ih, List.count_cons]
    by_cases hq : q = p
    · simp [Event.isCallTo, hq]
    · simp [Event.isCallTo, hq]

/-- C10: for one pool entry (not yet reported lost) and any list of registered
listeners, `n + 1` calls of `NotifyDeviceLost` on the entry make, in total,
exactly one `NotifyAdapterStatus(adapter, false)` call per registration, in
registration order, all of them in the first call; the entry ends with
`fIsDeviceLost` set, and every call after the first calls no listener. -/
theorem C10_NotifyDeviceLost_notifies_once (listeners : List Nat)
    (info : D3DDeviceInformation) (hnew : info.fIsDeviceLost = false) (n : Nat) :
    (NotifyDeviceLost_times listeners (n + 1) info).2
        = listeners.map (fun p =>
            Event.NotifyAdapterStatus p info.CreateParams.AdapterOrdinal false) ∧
      (NotifyDeviceLost_times listeners (n + 1) info).1.fIsDeviceLost = true ∧
      (∀ p, (NotifyDeviceLost_times listeners (n + 1) info).2.countP (Event.isCallTo p)
        = listeners.count p) ∧
      (∀ p, listeners.Nodup → p ∈ listeners →
        (NotifyDeviceLost_times listeners (n + 1) info).2.countP (Event.isCallTo p) = 1) ∧
      (NotifyDeviceLost listeners info).2
        = (NotifyDeviceLost_times listeners (n + 1) info).2 ∧
      (∀ k, (NotifyDeviceLost listeners
        (NotifyDeviceLost_times listeners (k + 1) info).1).2 = []) := by
  have h1 : NotifyDeviceLost listeners info
      = ({ info with fIsDeviceLost := true },
         listeners.map (fun p =>
           Event.NotifyAdapterStatus p info.CreateParams.AdapterOrdinal false)) := by
    simp [NotifyDeviceLost, hnew]
  have h2 : ∀ k, NotifyDeviceLost_times listeners (k + 1) info
      = ({ info with fIsDeviceLost := true },
         listeners.map (fun p =>
           Event.NotifyAdapterStatus p info.CreateParams.AdapterOrdinal false)) := by
    intro k
    simp only [NotifyDeviceLost_times, h1,
      NotifyDeviceLost_times_of_lost listeners k { info with fIsDeviceLost := true } rfl,
      List.append_nil]
  rw [h2 n]
  refine ⟨rfl, rfl, fun p => countP_isCallTo_map listeners _ p, ?_, ?_, ?_⟩
  · intro p hnd hp
    rw [countP_isCallTo_map]
    exact List.count_eq_one_of_mem hnd hp
  · rw [h1]
  · intro k
    rw [h2 k]
    simp [NotifyDeviceLost]

/-- C10 for the entry of `examplePool` and two listeners, three calls. -/
theorem C10_NotifyDeviceLost_notifies_once_witness :
    (NotifyDeviceLost_times [50, 51] 3 ⟨1, ⟨0, 0⟩, false⟩).2
      = [Event.NotifyAdapterStatus 50 0 false, Event.NotifyAdapterStatus 51 0 false] ∧
    (NotifyDeviceLost_times [50, 51] 3 ⟨1, ⟨0, 0⟩, false⟩).1.fIsDeviceLost = true :=
  ⟨(C10_NotifyDeviceLost_notifies_once [50, 51] ⟨1, ⟨0, 0⟩, false⟩ rfl 2).1,
    (C10_NotifyDeviceLost_notifies_once [50, 51] ⟨1, ⟨0, 0⟩, false⟩ rfl 2).2.1⟩

/-! ## The sticky display-invalid code (`HandleDIE`) -/

/-- C27: `HandleDIE` given `D3DERR_DRIVERINTERNALERROR` returns
`WGXERR_DISPLAYSTATEINVALID` and records `D3DERR_DRIVERINTERNALERROR` as the
sticky display-invalid code, changing nothing else; given any other result code
it returns the code and the device unchanged; hence a sticky code that is a
failure is still a failure after any `HandleDIE` call. -/
theorem C27_HandleDIE_records_driver_internal_error (d : CD3DDeviceLevel1) :
    d.HandleDIE D3DERR_DRIVERINTERNALERROR
        = ({ d with m_hrDisplayInvalid := D3DERR_DRIVERINTERNALERROR },
            WGXERR_DISPLAYSTATEINVALID) ∧
    (∀ hr : HRESULT, hr ≠ D3DERR_DRIVERINTERNALERROR → d.HandleDIE hr = (d, hr)) ∧
    (∀ hr : HRESULT, FAILED d.m_hrDisplayInvalid = true →
      FAILED (d.HandleDIE hr).1.m_hrDisplayInvalid = true) := by
  refine ⟨?_, ?_, ?_⟩
  · simp [CD3DDeviceLevel1.HandleDIE]
  · intro hr h
    simp [CD3DDeviceLevel1.HandleDIE, h]
  · intro hr h
    unfold CD3DDeviceLevel1.HandleDIE
    split
    · show FAILED D3DERR_DRIVERINTERNALERROR = true
      decide
    · exact h

theorem C27_HandleDIE_records_driver_internal_error_witness :
    (CD3DDeviceLevel1.ctor 7).HandleDIE E_FAIL = (CD3DDeviceLevel1.ctor 7, E_FAIL) ∧
    FAILED (((CD3DDeviceLevel1.ctor 7).HandleDIE D3DERR_DRIVERINTERNALERROR).1.HandleDIE
      S_OK).1.m_hrDisplayInvalid = true :=
  ⟨(C27_HandleDIE_records_driver_internal_error (CD3DDeviceLevel1.ctor 7)).2.1 E_FAIL
      (by decide),
   (C27_HandleDIE_records_driver_internal_error
      ((CD3DDeviceLevel1.ctor 7).HandleDIE D3DERR_DRIVERINTERNALERROR).1).2.2 S_OK (by decide)⟩

/-! ## `CGPUMarker::CheckStatus` and `CGPUMarker::Reset` -/

/-- C29: the status check of a marker that has not been issued reports
success and not-consumed and makes no `GetData` call; for an issued,
not yet consumed marker it makes one `GetData` call, and an answer `S_FALSE`
is returned as `S_OK` with consumed = false and the marker unchanged, while an
answer `S_OK` marks the marker consumed and reports consumed; a consumed
(issued) marker is reported consumed with no `GetData` call and stays as it
is; `Reset` clears the issued and the consumed flag, sets the new id and keeps
the query. -/
theorem C29_CheckStatus_and_Reset (m : CGPUMarker) (GetData : Nat → Nat → HRESULT)
    (fFlush : Bool) :
    (m.m_fIssued = false →
      m.CheckStatus GetData fFlush = (m, S_OK, false) ∧ m.CheckStatus_queries fFlush = []) ∧
    (m.m_fIssued = true → m.m_fConsumed = false →
      m.CheckStatus_queries fFlush
        = [(m.m_pQuery, if fFlush then 0 else D3D11_ASYNC_GETDATA_DONOTFLUSH)] ∧
      (GetData m.m_pQuery (if fFlush then 0 else D3D11_ASYNC_GETDATA_DONOTFLUSH) = S_FALSE →
        m.CheckStatus GetData fFlush = (m, S_OK, false)) ∧
      (GetData m.m_pQuery (if fFlush then 0 else D3D11_ASYNC_GETDATA_DONOTFLUSH) = S_OK →
        m.CheckStatus GetData fFlush = ({ m with m_fConsumed := true }, S_OK, true))) ∧
    (m.m_fIssued = true → m.m_fConsumed = true →
      m.CheckStatus GetData fFlush = (m, S_OK, true) ∧ m.CheckStatus_queries fFlush = []) ∧
    (∀ ullMarkerId : Nat, m.Reset ullMarkerId = ⟨m.m_pQuery, false, false, ullMarkerId⟩) := by
  refine ⟨?_, ?_, ?_, fun _ => rfl⟩
  · intro h
    simp [CGPUMarker.CheckStatus, CGPUMarker.CheckStatus_queries, h]
  · intro h1 h2
    refine ⟨?_, ?_, ?_⟩
    · simp [CGPUMarker.CheckStatus_queries, h1, h2]
    · intro hg
      have hne : S_FALSE ≠ S_OK := by decide
      cases m
      simp only at h1 h2
      subst h1 h2
      simp [CGPUMarker.CheckStatus, hg, hne]
    · intro hg
      have hne : S_OK ≠ S_FALSE := by decide
      simp [CGPUMarker.CheckStatus, h1, h2, hg, hne]
  · intro h1 h2
    simp [CGPUMarker.CheckStatus, CGPUMarker.CheckStatus_queries, h1, h2]

theorem C29_CheckStatus_and_Reset_witness :
    (CGPUMarker.ctor 101 10).CheckStatus allDone true = (CGPUMarker.ctor 101 10, S_OK, false) ∧
    (CGPUMarker.ctor 101 10).CheckStatus_queries true = [] ∧
    (CGPUMarker.mk 101 true false 10).CheckStatus allDone false
      = (CGPUMarker.mk 101 true true 10, S_OK, true) ∧
    (CGPUMarker.mk 101 true true 10).CheckStatus (fun _ _ => E_FAIL) true
      = (CGPUMarker.mk 101 true true 10, S_OK, true) ∧
    (CGPUMarker.mk 101 true true 10).CheckStatus_queries true = [] :=
  ⟨((C29_CheckStatus_and_Reset (CGPUMarker.ctor 101 10) allDone true).1 rfl).1,
   ((C29_CheckStatus_and_Reset (CGPUMarker.ctor 101 10) allDone true).1 rfl).2,
   ((C29_CheckStatus_and_Reset (CGPUMarker.mk 101 true false 10) allDone false).2.1
      rfl rfl).2.2 rfl,
   ((C29_CheckStatus_and_Reset (CGPUMarker.mk 101 true true 10) (fun _ _ => E_FAIL)
      true).2.2.1 rfl rfl).1,
   ((C29_CheckStatus_and_Reset (CGPUMarker.mk 101 true true 10) (fun _ _ => E_FAIL)
      true).2.2.1 rfl rfl).2⟩

/-! ## Flushing during `ConsumePresentMarkers` -/

theorem ConsumePresentMarkers_loop_checks_no_flush (GetData : Nat → Nat → HRESULT) :
    ∀ (n : Nat) (d : CD3DDeviceLevel1),
      ∀ c ∈ CD3DDeviceLevel1.ConsumePresentMarkers_loop_checks GetData n d false,
        c.2 = false := by
  intro n
  induction n with
  | zero =>
    intro d c hc
    simp [CD3DDeviceLevel1.ConsumePresentMarkers_loop_checks] at hc
  | succ i ih =>
    intro d c hc
    rw [CD3DDeviceLevel1.ConsumePresentMarkers_loop_checks] at hc
    rcases List.mem_cons.mp hc with h | h
    · rw [h]
    · cases hr : d.IsConsumedGPUMarker GetData i false with
      | error e => rw [hr] at h; simp at h
      | ok r =>
        obtain ⟨d1, hr1, fMarkerConsumed⟩ := r
        rw [hr] at h
        simp only at h
        split at h
        · simp at h
        · split at h
          · simp at h
          · simp only [Bool.false_eq_true, if_false] at h
            exact ih d1 c h

/-- C18: in one `ConsumePresentMarkers(true)` call at most one status check
is made with flushing requested, and it is the first one: every check after the
first is made with `fFlushMarkers = false`.  In a `ConsumePresentMarkers(false)`
call every status check is made with `fFlushMarkers = false`. -/
theorem C18_ConsumePresentMarkers_flushes_at_most_once (d : CD3DDeviceLevel1)
    (GetData : Nat → Nat → HRESULT) :
    ((d.ConsumePresentMarkers_checks GetData true).filter (fun c => c.2)).length ≤ 1 ∧
    (∀ c ∈ (d.ConsumePresentMarkers_checks GetData true).tail, c.2 = false) ∧
    (∀ c ∈ d.ConsumePresentMarkers_checks GetData false, c.2 = false) := by
  have htail : ∀ (n : Nat) (d0 : CD3DDeviceLevel1),
      ∀ c ∈ (CD3DDeviceLevel1.ConsumePresentMarkers_loop_checks GetData n d0 true).tail,
        c.2 = false := by
    intro n d0 c hc
    cases n with
    | zero => simp [CD3DDeviceLevel1.ConsumePresentMarkers_loop_checks] at hc
    | succ i =>
      rw [CD3DDeviceLevel1.ConsumePresentMarkers_loop_checks, List.tail_cons] at hc
      cases hr : d0.IsConsumedGPUMarker GetData i true with
      | error e => rw [hr] at hc; simp at hc
      | ok r =>
        obtain ⟨d1, hr1, fMarkerConsumed⟩ := r
        rw [hr] at hc
        simp only at hc
        split at hc
        · simp at hc
        · split at hc
          · simp at hc
          · simp only [if_true] at hc
            exact ConsumePresentMarkers_loop_checks_no_flush GetData i _ c hc
  have hone : ∀ (n : Nat),
      ((CD3DDeviceLevel1.ConsumePresentMarkers_loop_checks GetData n d true).filter
        (fun c => c.2)).length ≤ 1 := by
    intro n
    have ht := htail n d
    cases hl : CD3DDeviceLevel1.ConsumePresentMarkers_loop_checks GetData n d true with
    | nil => simp
    | cons a rest =>
      rw [hl, List.tail_cons] at ht
      have hrest : rest.filter (fun c => c.2) = [] := by
        rw [List.filter_eq_nil_iff]
        intro c hc
        simp [ht c hc]
      rw [List.filter_cons]
      split
      · simp [hrest]
      · simp [hrest]
  refine ⟨?_, ?_, ?_⟩
  · exact hone _
  · intro c hc
    exact htail _ d c hc
  · intro c hc
    exact ConsumePresentMarkers_loop_checks_no_flush GetData _ d c hc

/-! ## The last consumed marker id -/

/-- C19 (code defect): on a new device with every native call succeeding,
`InsertGPUMarker(10)` followed by a `ConsumePresentMarkers` call that finds the
marker consumed leaves the last consumed id at 10.  After `InsertGPUMarker(20)`
(which reuses the freed marker) and an `InsertGPUMarker(30)` whose query
creation fails, tracking is off and the last consumed id is 0: it has
decreased, because `ResetMarkers` copies `m_ullLastMarkerId`, which the enabled
path of `InsertGPUMarker` never writes.  Every call returned `S_OK`. -/
theorem C19_last_consumed_id_decreases :
    (∃ d1 hrs, (CD3DDeviceLevel1.ctor 7).runMarkerOps
        [MarkerOp.insert 10 (envSuccess 1), MarkerOp.consume allDone false] = .ok (d1, hrs) ∧
      d1.m_ullLastConsumedMarkerId = 10) ∧
    (∃ d2 hrs, (CD3DDeviceLevel1.ctor 7).runMarkerOps
        [MarkerOp.insert 10 (envSuccess 1), MarkerOp.consume allDone false,
         MarkerOp.insert 20 (envSuccess 2), MarkerOp.insert 30 envCreateFails]
        = .ok (d2, hrs) ∧
      hrs = [S_OK, S_OK, S_OK, S_OK] ∧
      d2.m_ullLastMarkerId = 0 ∧
      d2.AreGPUMarkersEnabled = false ∧
      d2.m_ullLastConsumedMarkerId = 0) :=
  ⟨⟨_, _, rfl, rfl⟩, ⟨_, _, rfl, rfl, rfl, rfl, rfl⟩⟩

/-! ## `MarkUnusable` and the outstanding markers -/

/-- C20 (code defect): device 1 of `exampleWorldMarkers` is in the Usable
partition of the pool and has three outstanding markers.  After
`MarkUnusable` its active list still holds the three markers and the pool is
unchanged (the device is still in the Usable partition), since the body of
`MarkUnusable` is empty; `ResetMarkers`, which empties the list, is not called. -/
theorem C20_MarkUnusable_keeps_markers :
    ((CD3DDeviceLevel1.MarkUnusable exampleWorldMarkers 1 false).device 1).m_rgpMarkerActive
        = [1, 2, 3] ∧
    (CD3DDeviceLevel1.MarkUnusable exampleWorldMarkers 1 false).manager.m_rgDeviceList
        = [⟨1, ⟨0, 0⟩, false⟩] ∧
    (CD3DDeviceLevel1.MarkUnusable exampleWorldMarkers 1 false).manager.m_iFirstUnusable = 1 ∧
    exampleDevice.ResetMarkers.m_rgpMarkerActive = [] := by
  decide

/-! ## The result of `InsertGPUMarker` -/

/-- The result code that the code after `Cleanup` returns. -/
theorem InsertGPUMarker_Cleanup_snd (d : CD3DDeviceLevel1) (hr : HRESULT) :
    (d.InsertGPUMarker_Cleanup hr).2 = if hr < 0 then S_OK else hr := by
  unfold CD3DDeviceLevel1.InsertGPUMarker_Cleanup
  by_cases h1 : hr = D3DERR_DEVICELOST ∨ hr = D3DERR_NOTAVAILABLE
  · have hneg : hr < 0 := by
      rcases h1 with h1 | h1 <;> rw [h1] <;> decide
    have hF : FAILED S_OK = false := by decide
    simp only [h1, if_true, hF, Bool.false_eq_true, if_false, hneg]
    rw [HandleDIE_of_nonneg _ _ (by decide)]
  · simp only [h1, if_false]
    by_cases h3 : hr < 0
    · have hF : FAILED hr = true := by simp [FAILED, h3]
      simp only [hF, if_true, h3]
      rw [HandleDIE_of_nonneg _ _ (by decide)]
    · have hF : FAILED hr = false := by simp [FAILED, h3]
      simp only [hF, Bool.false_eq_true, if_false, h3]
      rw [HandleDIE_of_nonneg _ _ (not_lt.mp h3)]

theorem InsertGPUMarker_snd (d : CD3DDeviceLevel1) (ullMarkerId : Nat) (env : InsertEnv) :
    (d.InsertGPUMarker ullMarkerId env).2 =
      ((d.InsertGPUMarker_body ullMarkerId env).1.InsertGPUMarker_Cleanup
        (d.InsertGPUMarker_body ullMarkerId env).2).2 := rfl

theorem InsertGPUMarker_snd_nonneg (d : CD3DDeviceLevel1) (ullMarkerId : Nat)
    (env : InsertEnv) : 0 ≤ (d.InsertGPUMarker ullMarkerId env).2 := by
  rw [InsertGPUMarker_snd, InsertGPUMarker_Cleanup_snd]
  split
  · decide
  · rename_i h
    exact not_lt.mp h

/-- With tracking tested and off, the body of `InsertGPUMarker` reaches `Cleanup`
with `S_OK`, and has at most recorded the id. -/
theorem InsertGPUMarker_body_off (d : CD3DDeviceLevel1) (ullMarkerId : Nat) (env : InsertEnv)
    (he : d.AreGPUMarkersEnabled = false) (ht : d.AreGPUMarkersTested = true) :
    (d.InsertGPUMarker_body ullMarkerId env).2 = S_OK ∧
      (d.InsertGPUMarker_body ullMarkerId env).1.heap = d.heap ∧
      (d.InsertGPUMarker_body ullMarkerId env).1.m_rgpMarkerActive = d.m_rgpMarkerActive := by
  unfold CD3DDeviceLevel1.InsertGPUMarker_body
  by_cases h1 : ullMarkerId < d.m_ullLastMarkerId
  · simp only [h1, if_true]
    and_intros <;> trivial
  · by_cases h2 : d.m_pD3DDevice = 0
    · simp only [h1, h2, if_true, if_false]
      and_intros <;> trivial
    · simp only [h1, h2, ht, he, if_false, Bool.not_true, Bool.not_false, if_true,
        Bool.false_eq_true]
      and_intros <;> trivial

theorem InsertGPUMarker_off_result (d : CD3DDeviceLevel1) (ullMarkerId : Nat) (env : InsertEnv)
    (hoff : d.markersOff) :
    (d.InsertGPUMarker ullMarkerId env).2 = S_OK ∧
      (d.InsertGPUMarker ullMarkerId env).1.heap = d.heap ∧
      (d.InsertGPUMarker ullMarkerId env).1.markersOff := by
  obtain ⟨he, ht, ha, hf⟩ := hoff
  obtain ⟨e1, e2, e3⟩ := InsertGPUMarker_body_off d ullMarkerId env he ht
  refine ⟨?_, ?_, InsertGPUMarker_off d ullMarkerId env he ht ha hf⟩
  · rw [InsertGPUMarker_snd, InsertGPUMarker_Cleanup_snd, e1]
    decide
  · rw [InsertGPUMarker_fst, e1, InsertGPUMarker_Cleanup_fst]
    have hneg : ¬ (35 < (d.InsertGPUMarker_body ullMarkerId env).1.m_rgpMarkerActive.length ∨
        (S_OK < 0 ∧ S_OK ≠ D3DERR_DEVICELOST ∧ S_OK ≠ D3DERR_NOTAVAILABLE)) := by
      rw [e3, ha]
      decide
    simp only [hneg, if_false]
    exact e2

theorem ConsumePresentMarkers_of_empty (d : CD3DDeviceLevel1) (GetData : Nat → Nat → HRESULT)
    (fForceFlush : Bool) (ha : d.m_rgpMarkerActive = []) :
    d.ConsumePresentMarkers GetData fForceFlush = .ok (d, S_OK) := by
  rw [CD3DDeviceLevel1.ConsumePresentMarkers]
  simp only [ha, List.length_nil, Nat.zero_mod]
  rfl

/-- C15: `DisableGPUMarkers` on a device whose tracking has been tested
leaves tracking tested and off with both marker arrays empty; and from such a
state every run of `InsertGPUMarker` and `ConsumePresentMarkers` calls, whatever
the ids and the native answers, completes with every call returning `S_OK`,
leaves every marker object untouched (none is issued) and ends in such a state
again (tracking is not re-enabled, both arrays stay empty). -/
theorem C15_disabled_tracking_stays_disabled (d : CD3DDeviceLevel1) (hoff : d.markersOff) :
    (∀ d0 : CD3DDeviceLevel1, d0.AreGPUMarkersTested = true →
      d0.DisableGPUMarkers.markersOff) ∧
    (∀ ops : List MarkerOp, ∃ d1 hrs, d.runMarkerOps ops = .ok (d1, hrs) ∧
      hrs = List.replicate ops.length S_OK ∧ d1.heap = d.heap ∧ d1.markersOff) := by
  constructor
  · intro d0 ht
    refine ⟨enabled_DisableGPUMarkers d0, ?_, (DisableGPUMarkers_fields d0).1,
      (DisableGPUMarkers_fields d0).2.1⟩
    rw [tested_DisableGPUMarkers, ht]
  · intro ops
    induction ops generalizing d with
    | nil => exact ⟨d, [], rfl, rfl, rfl, hoff⟩
    | cons op rest ih =>
      cases op with
      | insert ullMarkerId env =>
        obtain ⟨e1, e2, e3⟩ := InsertGPUMarker_off_result d ullMarkerId env hoff
        obtain ⟨d1, hrs, h1, h2, h3, h4⟩ := ih (d.InsertGPUMarker ullMarkerId env).1 e3
        refine ⟨d1, S_OK :: hrs, ?_, ?_, ?_, h4⟩
        · rw [CD3DDeviceLevel1.runMarkerOps, h1, e1]
        · rw [h2]; rfl
        · rw [h3, e2]
      | consume GetData fForceFlush =>
        obtain ⟨d1, hrs, h1, h2, h3, h4⟩ := ih d hoff
        refine ⟨d1, S_OK :: hrs, ?_, ?_, h3, h4⟩
        · rw [CD3DDeviceLevel1.runMarkerOps,
            ConsumePresentMarkers_of_empty d GetData fForceFlush hoff.2.2.1]
          simp only [h1]
        · rw [h2]; rfl

theorem C15_disabled_tracking_stays_disabled_witness :
    ((CD3DDeviceLevel1.ctor 7).InsertGPUMarker 1 envProbeFails).1.markersOff ∧
    ∃ d1 hrs, ((CD3DDeviceLevel1.ctor 7).InsertGPUMarker 1 envProbeFails).1.runMarkerOps
        [MarkerOp.insert 5 (envSuccess 1), MarkerOp.consume allDone true,
          MarkerOp.insert 9 (envSuccess 2)] = .ok (d1, hrs) ∧
      hrs = List.replicate 3 S_OK ∧
      d1.heap = ((CD3DDeviceLevel1.ctor 7).InsertGPUMarker 1 envProbeFails).1.heap ∧
      d1.markersOff :=
  ⟨⟨by decide, by decide, by decide, by decide⟩,
   (C15_disabled_tracking_stays_disabled
      ((CD3DDeviceLevel1.ctor 7).InsertGPUMarker 1 envProbeFails).1
      ⟨by decide, by decide, by decide, by decide⟩).2
      [MarkerOp.insert 5 (envSuccess 1), MarkerOp.consume allDone true,
        MarkerOp.insert 9 (envSuccess 2)]⟩

theorem InsertGPUMarker_of_body_ok (d : CD3DDeviceLevel1) (ullMarkerId : Nat) (env : InsertEnv)
    (h2 : (d.InsertGPUMarker_body ullMarkerId env).2 = S_OK)
    (hlen : (d.InsertGPUMarker_body ullMarkerId env).1.m_rgpMarkerActive.length ≤ 35) :
    d.InsertGPUMarker ullMarkerId env = ((d.InsertGPUMarker_body ullMarkerId env).1, S_OK) := by
  apply Prod.ext
  · rw [InsertGPUMarker_fst, InsertGPUMarker_Cleanup_fst, h2]
    have hneg : ¬ (35 < (d.InsertGPUMarker_body ullMarkerId env).1.m_rgpMarkerActive.length ∨
        (S_OK < 0 ∧ S_OK ≠ D3DERR_DEVICELOST ∧ S_OK ≠ D3DERR_NOTAVAILABLE)) := by
      intro h
      rcases h with h | h
      · omega
      · exact absurd h.1 (by decide)
    simp only [hneg, if_false]
  · rw [InsertGPUMarker_snd, InsertGPUMarker_Cleanup_snd, h2]
    rfl

/-- The body of `InsertGPUMarker` when tracking is on and the id is accepted: the
result code on reaching `Cleanup`, for a marker taken from the free array and
for a marker to create. -/
theorem InsertGPUMarker_body_hr (d : CD3DDeviceLevel1) (ullMarkerId : Nat) (env : InsertEnv)
    (ht : d.AreGPUMarkersTested = true) (he : d.AreGPUMarkersEnabled = true)
    (hid : ¬ ullMarkerId < d.m_ullLastMarkerId) (hdev : d.m_pD3DDevice ≠ 0) :
    (∀ p : Nat, d.m_rgpMarkerFree.getLast? = some p →
      (d.InsertGPUMarker_body ullMarkerId env).2
        = if (d.heap p).m_pQuery = 0 then E_FAIL else S_OK) ∧
    (d.m_rgpMarkerFree = [] →
      (d.InsertGPUMarker_body ullMarkerId env).2
        = if env.hrCreateQuery < 0 then env.hrCreateQuery
          else if env.pQuery = 0 then E_FAIL else S_OK) := by
  have hFE : FAILED E_FAIL = true := by decide
  have hFS : FAILED S_OK = false := by decide
  constructor
  · intro p hp
    unfold CD3DDeviceLevel1.InsertGPUMarker_body
    simp only [hid, if_false, hdev, ht, Bool.not_true, Bool.false_eq_true, he, hp,
      CGPUMarker.InsertIntoCommandStream, Function.update_same, CGPUMarker.Reset]
    by_cases hq : (d.heap p).m_pQuery = 0
    · simp only [hq, if_true, hFE]
    · simp only [hq, if_false, hFS, Bool.false_eq_true]
  · intro hfree
    unfold CD3DDeviceLevel1.InsertGPUMarker_body
    simp only [hid, if_false, hdev, ht, Bool.not_true, Bool.false_eq_true, he, hfree,
      List.getLast?_nil]
    by_cases hc : env.hrCreateQuery < 0
    · have hF : FAILED env.hrCreateQuery = true := by simp [FAILED, hc]
      simp only [hF, if_true, hc]
    · have hF : FAILED env.hrCreateQuery = false := by simp [FAILED, hc]
      simp only [hF, Bool.false_eq_true, if_false, hc,
        CGPUMarker.InsertIntoCommandStream, Function.update_same, CGPUMarker.ctor,
        CGPUMarker.Reset]
      by_cases hq : env.pQuery = 0
      · simp only [hq, if_true, hFE]
      · simp only [hq, if_false, hFS, Bool.false_eq_true]

/-- C17: `InsertGPUMarker` returns a success code for every id, device state
and native outcome.  When its body reaches `Cleanup` with a failure code other
than `D3DERR_DEVICELOST` and `D3DERR_NOTAVAILABLE`, the call leaves tracking off
and both marker arrays empty; with tracking on and the id accepted that code is
the failure of `CreateQuery` (free array empty) or the `E_FAIL` of
`InsertIntoCommandStream` for a marker without a query. -/
theorem C17_InsertGPUMarker_never_fails (d : CD3DDeviceLevel1) (ullMarkerId : Nat)
    (env : InsertEnv) :
    SUCCEEDED (d.InsertGPUMarker ullMarkerId env).2 = true ∧
    ((d.InsertGPUMarker_body ullMarkerId env).2 < 0 →
      (d.InsertGPUMarker_body ullMarkerId env).2 ≠ D3DERR_DEVICELOST →
      (d.InsertGPUMarker_body ullMarkerId env).2 ≠ D3DERR_NOTAVAILABLE →
      (d.InsertGPUMarker ullMarkerId env).1.AreGPUMarkersEnabled = false ∧
      (d.InsertGPUMarker ullMarkerId env).1.m_rgpMarkerActive = [] ∧
      (d.InsertGPUMarker ullMarkerId env).1.m_rgpMarkerFree = []) ∧
    (d.AreGPUMarkersTested = true → d.AreGPUMarkersEnabled = true →
      ¬ ullMarkerId < d.m_ullLastMarkerId → d.m_pD3DDevice ≠ 0 →
      (∀ p : Nat, d.m_rgpMarkerFree.getLast? = some p →
        (d.InsertGPUMarker_body ullMarkerId env).2
          = if (d.heap p).m_pQuery = 0 then E_FAIL else S_OK) ∧
      (d.m_rgpMarkerFree = [] →
        (d.InsertGPUMarker_body ullMarkerId env).2
          = if env.hrCreateQuery < 0 then env.hrCreateQuery
            else if env.pQuery = 0 then E_FAIL else S_OK)) := by
  refine ⟨?_, ?_, ?_⟩
  · simp [SUCCEEDED, InsertGPUMarker_snd_nonneg]
  · intro h1 h2 h3
    rw [InsertGPUMarker_fst, InsertGPUMarker_Cleanup_fst]
    rw [if_pos (Or.inr ⟨h1, h2, h3⟩)]
    exact ⟨enabled_DisableGPUMarkers _, (DisableGPUMarkers_fields _).1,
      (DisableGPUMarkers_fields _).2.1⟩
  · intro ht he hid hdev
    exact InsertGPUMarker_body_hr d ullMarkerId env ht he hid hdev

theorem C17_InsertGPUMarker_never_fails_witness :
    (((CD3DDeviceLevel1.ctor 7).InsertGPUMarker 10 (envSuccess 1)).1.InsertGPUMarker 20
        envCreateFails).1.AreGPUMarkersEnabled = false ∧
    (((CD3DDeviceLevel1.ctor 7).InsertGPUMarker 10 (envSuccess 1)).1.InsertGPUMarker 20
        envCreateFails).1.m_rgpMarkerActive = [] ∧
    (((CD3DDeviceLevel1.ctor 7).InsertGPUMarker 10 (envSuccess 1)).1.InsertGPUMarker 20
        envCreateFails).1.m_rgpMarkerFree = [] :=
  (C17_InsertGPUMarker_never_fails
    ((CD3DDeviceLevel1.ctor 7).InsertGPUMarker 10 (envSuccess 1)).1 20 envCreateFails).2.1
    (by decide) (by decide) (by decide)

/-- The body of `InsertGPUMarker` when tracking is on, the id is accepted and the
marker is taken from the free array. -/
theorem InsertGPUMarker_body_reuse (d : CD3DDeviceLevel1) (ullMarkerId : Nat) (env : InsertEnv)
    (ht : d.AreGPUMarkersTested = true) (he : d.AreGPUMarkersEnabled = true)
    (hid : ¬ ullMarkerId < d.m_ullLastMarkerId) (hdev : d.m_pD3DDevice ≠ 0)
    (p : Nat) (hp : d.m_rgpMarkerFree.getLast? = some p) (hq : (d.heap p).m_pQuery ≠ 0) :
    d.InsertGPUMarker_body ullMarkerId env =
      ({ d with
          m_rgpMarkerFree := d.m_rgpMarkerFree.dropLast
          heap := Function.update d.heap p ⟨(d.heap p).m_pQuery, true, false, ullMarkerId⟩
          m_rgpMarkerActive := d.m_rgpMarkerActive ++ [p] }, S_OK) := by
  have hFS : FAILED S_OK = false := by decide
  unfold CD3DDeviceLevel1.InsertGPUMarker_body
  simp only [hid, if_false, hdev, ht, Bool.not_true, Bool.false_eq_true, he, hp,
    CGPUMarker.InsertIntoCommandStream, Function.update_same, CGPUMarker.Reset, hq, hFS,
    Function.update_idem]

/-- The body of `InsertGPUMarker` when tracking is on, the id is accepted, the
free array is empty and the query is created. -/
theorem InsertGPUMarker_body_create (d : CD3DDeviceLevel1) (ullMarkerId : Nat) (env : InsertEnv)
    (ht : d.AreGPUMarkersTested = true) (he : d.AreGPUMarkersEnabled = true)
    (hid : ¬ ullMarkerId < d.m_ullLastMarkerId) (hdev : d.m_pD3DDevice ≠ 0)
    (hfree : d.m_rgpMarkerFree = []) (hc : 0 ≤ env.hrCreateQuery) (hq : env.pQuery ≠ 0) :
    d.InsertGPUMarker_body ullMarkerId env =
      ({ d with
          heap := Function.update d.heap env.pNewMarker ⟨env.pQuery, true, false, ullMarkerId⟩
          m_rgpMarkerActive := d.m_rgpMarkerActive ++ [env.pNewMarker] }, S_OK) := by
  have hFS : FAILED S_OK = false := by decide
  have hF : FAILED env.hrCreateQuery = false := by simp [FAILED, hc]
  unfold CD3DDeviceLevel1.InsertGPUMarker_body
  simp only [hid, if_false, hdev, ht, Bool.not_true, Bool.false_eq_true, he, hfree,
    List.getLast?_nil, hF, CGPUMarker.InsertIntoCommandStream, Function.update_same,
    CGPUMarker.ctor, CGPUMarker.Reset, hq, hFS, Function.update_idem]

/-- C16 (amended): with tracking tested and on, the id accepted, a device
present and fewer than 35 active markers, an `InsertGPUMarker` call whose native
calls succeed returns `S_OK`, keeps tracking on and appends one marker to the
active array, which is otherwise unchanged; the marker carries the id, is issued
and not consumed, and no other marker object changes.  When the free array is
not empty the marker is its last entry, keeping its query, whatever the native
layer would answer, and the free array loses that entry; when the free array is
empty the marker is a new object holding the new query. -/
theorem C16_InsertGPUMarker_appends_one_marker (d : CD3DDeviceLevel1) (ullMarkerId : Nat)
    (env : InsertEnv)
    (ht : d.AreGPUMarkersTested = true) (he : d.AreGPUMarkersEnabled = true)
    (hid : ¬ ullMarkerId < d.m_ullLastMarkerId) (hdev : d.m_pD3DDevice ≠ 0)
    (hlen : d.m_rgpMarkerActive.length < GPU_MARKERS_MAX_ARRAY_SIZE) :
    (∀ p : Nat, d.m_rgpMarkerFree.getLast? = some p → (d.heap p).m_pQuery ≠ 0 →
      (d.InsertGPUMarker ullMarkerId env).2 = S_OK ∧
      (d.InsertGPUMarker ullMarkerId env).1.AreGPUMarkersEnabled = true ∧
      (d.InsertGPUMarker ullMarkerId env).1.m_rgpMarkerActive = d.m_rgpMarkerActive ++ [p] ∧
      (d.InsertGPUMarker ullMarkerId env).1.m_rgpMarkerFree = d.m_rgpMarkerFree.dropLast ∧
      (d.InsertGPUMarker ullMarkerId env).1.heap p
        = ⟨(d.heap p).m_pQuery, true, false, ullMarkerId⟩ ∧
      (∀ q : Nat, q ≠ p → (d.InsertGPUMarker ullMarkerId env).1.heap q = d.heap q) ∧
      (∀ env2 : InsertEnv,
        d.InsertGPUMarker ullMarkerId env2 = d.InsertGPUMarker ullMarkerId env)) ∧
    (d.m_rgpMarkerFree = [] → 0 ≤ env.hrCreateQuery → env.pQuery ≠ 0 →
      (d.InsertGPUMarker ullMarkerId env).2 = S_OK ∧
      (d.InsertGPUMarker ullMarkerId env).1.AreGPUMarkersEnabled = true ∧
      (d.InsertGPUMarker ullMarkerId env).1.m_rgpMarkerActive
        = d.m_rgpMarkerActive ++ [env.pNewMarker] ∧
      (d.InsertGPUMarker ullMarkerId env).1.m_rgpMarkerFree = [] ∧
      (d.InsertGPUMarker ullMarkerId env).1.heap env.pNewMarker
        = ⟨env.pQuery, true, false, ullMarkerId⟩ ∧
      (∀ q : Nat, q ≠ env.pNewMarker →
        (d.InsertGPUMarker ullMarkerId env).1.heap q = d.heap q)) := by
  have hlen1 : d.m_rgpMarkerActive.length < 35 := hlen
  constructor
  · intro p hp hq
    have hb : ∀ env0 : InsertEnv, d.InsertGPUMarker ullMarkerId env0 =
        ({ d with
            m_rgpMarkerFree := d.m_rgpMarkerFree.dropLast
            heap := Function.update d.heap p ⟨(d.heap p).m_pQuery, true, false, ullMarkerId⟩
            m_rgpMarkerActive := d.m_rgpMarkerActive ++ [p] }, S_OK) := by
      intro env0
      have hbody := InsertGPUMarker_body_reuse d ullMarkerId env0 ht he hid hdev p hp hq
      rw [InsertGPUMarker_of_body_ok d ullMarkerId env0 (by rw [hbody])
        (by rw [hbody]; simp only [List.length_append, List.length_singleton]; omega), hbody]
    rw [hb env]
    refine ⟨rfl, he, rfl, rfl, ?_, ?_, ?_⟩
    · simp only [Function.update_same]
    · intro q hne
      simp only [ne_eq, hne, not_false_eq_true, Function.update_noteq]
    · intro env2
      rw [hb env2]
  · intro hfree hc hq
    have hbody := InsertGPUMarker_body_create d ullMarkerId env ht he hid hdev hfree hc hq
    rw [InsertGPUMarker_of_body_ok d ullMarkerId env (by rw [hbody])
      (by rw [hbody]; simp only [List.length_append, List.length_singleton]; omega), hbody]
    refine ⟨rfl, he, rfl, hfree, ?_, ?_⟩
    · simp only [Function.update_same]
    · intro q hne
      simp only [ne_eq, hne, not_false_eq_true, Function.update_noteq]

theorem C16_InsertGPUMarker_appends_one_marker_witness :
    (exampleDevice.InsertGPUMarker 40 (envSuccess 5)).2 = S_OK ∧
    (exampleDevice.InsertGPUMarker 40 (envSuccess 5)).1.AreGPUMarkersEnabled = true ∧
    (exampleDevice.InsertGPUMarker 40 (envSuccess 5)).1.m_rgpMarkerActive
      = exampleDevice.m_rgpMarkerActive ++ [4] ∧
    (exampleDevice.InsertGPUMarker 40 (envSuccess 5)).1.m_rgpMarkerFree
      = exampleDevice.m_rgpMarkerFree.dropLast ∧
    (exampleDevice.InsertGPUMarker 40 (envSuccess 5)).1.heap 4
      = ⟨(exampleDevice.heap 4).m_pQuery, true, false, 40⟩ ∧
    (∀ q : Nat, q ≠ 4 →
      (exampleDevice.InsertGPUMarker 40 (envSuccess 5)).1.heap q = exampleDevice.heap q) ∧
    (∀ env2 : InsertEnv,
      exampleDevice.InsertGPUMarker 40 env2 = exampleDevice.InsertGPUMarker 40 (envSuccess 5)) :=
  (C16_InsertGPUMarker_appends_one_marker exampleDevice 40 (envSuccess 5) (by decide)
    (by decide) (by decide) (by decide) (by decide)).1 4 (by decide) (by decide)

set_option maxRecDepth 20000 in
/-- C16 (counterexample): after 35 successful `InsertGPUMarker` calls on a new
device (ids 1 to 35) tracking is on with 35 active markers.  A further call with
the id 36 whose native calls succeed returns `S_OK` but appends nothing: it
leaves the active array empty and tracking off, because the array would exceed
`GPU_MARKERS_MAX_ARRAY_SIZE`. -/
theorem C16_InsertGPUMarker_at_backlog_limit :
    exampleDevice35.AreGPUMarkersEnabled = true ∧
    exampleDevice35.AreGPUMarkersTested = true ∧
    exampleDevice35.m_pD3DDevice = 7 ∧
    exampleDevice35.m_ullLastMarkerId = 0 ∧
    exampleDevice35.m_rgpMarkerActive.length = 35 ∧
    exampleDevice35.m_rgpMarkerFree = [] ∧
    (exampleDevice35.InsertGPUMarker 36 (envSuccess 36)).2 = S_OK ∧
    (exampleDevice35.InsertGPUMarker 36 (envSuccess 36)).1.m_rgpMarkerActive = [] ∧
    (exampleDevice35.InsertGPUMarker 36 (envSuccess 36)).1.AreGPUMarkersEnabled = false := by
  decide

/-! ## The allocation loop -/

theorem deviceAllocation_spec (native : Nat → HRESULT)
    (FreeSomeVideoMemory : Nat → HRESULT → Bool) (n : Nat)
    (hfalse : FreeSomeVideoMemory n (native n) = false) :
    ∀ (fuel k : Nat), k ≤ n → n < k + fuel →
      (∀ j, k ≤ j → j < n → FreeSomeVideoMemory j (native j) = true) →
      deviceAllocation native FreeSomeVideoMemory fuel k = some (native n, n + 1) := by
  intro fuel
  induction fuel with
  | zero => intro k h1 h2 _; omega
  | succ fuel ih =>
    intro k h1 h2 htrue
    rw [deviceAllocation]
    by_cases hk : k = n
    · rw [hk, hfalse]
      simp
    · have hlt : k < n := by omega
      rw [htrue k (le_refl k) hlt]
      simp only [if_true]
      exact ih (k + 1) (by omega) (by omega) (fun j h3 h4 => htrue j (by omega) h4)

theorem deviceAllocation_none (native : Nat → HRESULT)
    (FreeSomeVideoMemory : Nat → HRESULT → Bool) :
    ∀ (fuel k : Nat),
      (∀ j, k ≤ j → j < k + fuel → FreeSomeVideoMemory j (native j) = true) →
      deviceAllocation native FreeSomeVideoMemory fuel k = none := by
  intro fuel
  induction fuel with
  | zero => intro k _; rfl
  | succ fuel ih =>
    intro k htrue
    rw [deviceAllocation, htrue k (le_refl k) (by omega)]
    simp only [if_true]
    exact ih (k + 1) (fun j h3 h4 => htrue j (by omega) (by omega))

/-- C11: if `FreeSomeVideoMemory` answers true after each of the attempts
`0 .. n-1` of the native call and false after attempt `n`, the allocation loop
ends after exactly `n + 1` attempts with the result of attempt `n` (and has not
ended after fewer), and `CreateVertexBuffer` returns that result passed through
`HandleDIE`.  So, when `FreeSomeVideoMemory` answers true only for
`D3DERR_OUTOFVIDEOMEMORY`, an attempt that succeeds after `n` retried attempts
ends the loop with its success; and a first attempt that fails for lack of
memory when nothing can be freed is returned as `D3DERR_OUTOFVIDEOMEMORY`. -/
theorem C11_allocation_loop (native : Nat → HRESULT)
    (FreeSomeVideoMemory : Nat → HRESULT → Bool) (n : Nat)
    (htrue : ∀ j, j < n → FreeSomeVideoMemory j (native j) = true) :
    (FreeSomeVideoMemory n (native n) = false →
      (∀ fuel, n < fuel →
        deviceAllocation native FreeSomeVideoMemory fuel 0 = some (native n, n + 1)) ∧
      (∀ fuel, fuel ≤ n → deviceAllocation native FreeSomeVideoMemory fuel 0 = none) ∧
      (∀ (d : CD3DDeviceLevel1) (fuel : Nat), n < fuel →
        d.CreateVertexBuffer native FreeSomeVideoMemory fuel
          = some ((d.HandleDIE (native n)).1, (d.HandleDIE (native n)).2, n + 1))) ∧
    ((∀ (j : Nat) (hr : HRESULT), FreeSomeVideoMemory j hr = true →
        hr = D3DERR_OUTOFVIDEOMEMORY) →
      0 ≤ native n →
      ∀ fuel, n < fuel →
        deviceAllocation native FreeSomeVideoMemory fuel 0 = some (native n, n + 1)) ∧
    (n = 0 → native 0 = D3DERR_OUTOFVIDEOMEMORY →
      FreeSomeVideoMemory 0 D3DERR_OUTOFVIDEOMEMORY = false →
      ∀ fuel, 0 < fuel →
        deviceAllocation native FreeSomeVideoMemory fuel 0
          = some (D3DERR_OUTOFVIDEOMEMORY, 1)) := by
  have hmain : FreeSomeVideoMemory n (native n) = false → ∀ fuel, n < fuel →
      deviceAllocation native FreeSomeVideoMemory fuel 0 = some (native n, n + 1) := by
    intro hfalse fuel hfuel
    exact deviceAllocation_spec native FreeSomeVideoMemory n hfalse fuel 0 (Nat.zero_le n)
      (by omega) (fun j _ h => htrue j h)
  refine ⟨?_, ?_, ?_⟩
  · intro hfalse
    refine ⟨hmain hfalse, ?_, ?_⟩
    · intro fuel hfuel
      exact deviceAllocation_none native FreeSomeVideoMemory fuel 0
        (fun j _ h => htrue j (by omega))
    · intro d fuel hfuel
      rw [CD3DDeviceLevel1.CreateVertexBuffer, hmain hfalse fuel hfuel]
  · intro honly hsucc fuel hfuel
    apply hmain _ fuel hfuel
    cases hf : FreeSomeVideoMemory n (native n) with
    | false => rfl
    | true =>
      have h := honly n (native n) hf
      rw [h] at hsucc
      exact absurd hsucc (by decide)
  · intro hn hoom hfalse fuel hfuel
    subst hn
    have h := hmain (by rw [hoom]; exact hfalse) fuel hfuel
    rw [h, hoom]

theorem C11_allocation_loop_witness :
    deviceAllocation (fun k => if k < 2 then D3DERR_OUTOFVIDEOMEMORY else S_OK)
        (fun _ hr => decide (hr = D3DERR_OUTOFVIDEOMEMORY)) 5 0 = some (S_OK, 3) :=
  (C11_allocation_loop (fun k => if k < 2 then D3DERR_OUTOFVIDEOMEMORY else S_OK)
    (fun _ hr => decide (hr = D3DERR_OUTOFVIDEOMEMORY)) 2
    (fun j hj => by simp [hj])).2.1
    (fun _ hr h => by simpa using h) (by decide) 5 (by decide)

/-! ## The sticky display-invalid code in `Present` and `CreateVertexBuffer` -/

/-- C13 (amended): on a device whose sticky display-invalid code is a
failure, `Present` returns that code and makes no call but `MarkUnusable`: no
`EndScene`, no `PresentWithD3D` (the native present), no `BeginScene`. -/
theorem C13_Present_short_circuits (d : CD3DDeviceLevel1) (env : PresentEnv)
    (h : FAILED d.m_hrDisplayInvalid = true) :
    d.Present env = (d.m_hrDisplayInvalid, [DeviceCall.MarkUnusable false]) ∧
    FAILED (d.Present env).1 = true ∧
    DeviceCall.PresentWithD3D ∉ (d.Present env).2 := by
  have hp : d.Present env = (d.m_hrDisplayInvalid, [DeviceCall.MarkUnusable false]) := by
    rw [CD3DDeviceLevel1.Present, if_pos h]
  rw [hp]
  exact ⟨rfl, h, by simp⟩

theorem C13_Present_short_circuits_witness :
    ((CD3DDeviceLevel1.ctor 7).HandleDIE D3DERR_DRIVERINTERNALERROR).1.Present
        ⟨true, S_OK, S_OK, S_OK, fun hr _ => hr⟩
      = (D3DERR_DRIVERINTERNALERROR, [DeviceCall.MarkUnusable false]) :=
  (C13_Present_short_circuits ((CD3DDeviceLevel1.ctor 7).HandleDIE
    D3DERR_DRIVERINTERNALERROR).1 ⟨true, S_OK, S_OK, S_OK, fun hr _ => hr⟩ (by decide)).1

/-- C13 (counterexample): after `HandleDIE` has recorded a driver-internal
error on a device, the sticky code is a failure, yet `CreateVertexBuffer` makes
its native `CreateBuffer` call (one attempt) and returns the success that the
call reports. -/
theorem C13_CreateVertexBuffer_ignores_sticky_code :
    FAILED ((CD3DDeviceLevel1.ctor 7).HandleDIE
      D3DERR_DRIVERINTERNALERROR).1.m_hrDisplayInvalid = true ∧
    (((CD3DDeviceLevel1.ctor 7).HandleDIE D3DERR_DRIVERINTERNALERROR).1.CreateVertexBuffer
        (fun _ => S_OK) (fun _ _ => false) 1).map (fun r => r.2)
      = some (S_OK, 1) := by
  decide

/-! ## `HandlePresentFailure` -/

/-- C14 (amended): when the window of the device context still exists,
`HandlePresentFailure` given `D3DERR_DEVICELOST`, `D3DERR_DEVICEHUNG` or
`D3DERR_DEVICEREMOVED` returns `WGXERR_DISPLAYSTATEINVALID` and calls
`MarkUnusable(false)`, once, as its last call. -/
theorem C14_HandlePresentFailure_device_loss (env : PresentFailureEnv) (hr : HRESULT)
    (hwnd : env.fIsWindow = true)
    (hhr : hr = D3DERR_DEVICELOST ∨ hr = D3DERR_DEVICEHUNG ∨ hr = D3DERR_DEVICEREMOVED) :
    (CD3DDeviceLevel1.HandlePresentFailure env hr).1 = WGXERR_DISPLAYSTATEINVALID ∧
    (CD3DDeviceLevel1.HandlePresentFailure env hr).2.count (DeviceCall.MarkUnusable false) = 1 ∧
    (CD3DDeviceLevel1.HandlePresentFailure env hr).2.getLast?
      = some (DeviceCall.MarkUnusable false) := by
  have h1 : ¬ (hr = E_FAIL ∨ hr = D3DERR_DRIVERINTERNALERROR) := by
    rcases hhr with h | h | h <;> rw [h] <;> decide
  have h2 : hr ≠ E_INVALIDARG := by
    rcases hhr with h | h | h <;> rw [h] <;> decide
  unfold CD3DDeviceLevel1.HandlePresentFailure
  simp only [hwnd, Bool.not_true, Bool.false_eq_true, if_false, h1, h2, hhr, if_true]
  cases env.fCurrentRenderTarget <;> simp

theorem C14_HandlePresentFailure_device_loss_witness :
    (CD3DDeviceLevel1.HandlePresentFailure (examplePresentFailureEnv true true) D3DERR_DEVICEHUNG).1
      = WGXERR_DISPLAYSTATEINVALID ∧
    (CD3DDeviceLevel1.HandlePresentFailure (examplePresentFailureEnv true true) D3DERR_DEVICEHUNG).2.count
      (DeviceCall.MarkUnusable false) = 1 ∧
    (CD3DDeviceLevel1.HandlePresentFailure (examplePresentFailureEnv true true) D3DERR_DEVICEHUNG).2.getLast?
      = some (DeviceCall.MarkUnusable false) :=
  C14_HandlePresentFailure_device_loss (examplePresentFailureEnv true true) D3DERR_DEVICEHUNG rfl
    (Or.inr (Or.inl rfl))

/-- C14 (counterexample): when the window of the device context no longer
exists, `HandlePresentFailure` given `D3DERR_DEVICELOST` returns
`HRESULT_FROM_WIN32(ERROR_INVALID_WINDOW_HANDLE)` and does not call
`MarkUnusable`. -/
theorem C14_HandlePresentFailure_without_window :
    CD3DDeviceLevel1.HandlePresentFailure (examplePresentFailureEnv false false) D3DERR_DEVICELOST
      = (HRESULT_FROM_WIN32_ERROR_INVALID_WINDOW_HANDLE, []) ∧
    HRESULT_FROM_WIN32_ERROR_INVALID_WINDOW_HANDLE ≠ WGXERR_DISPLAYSTATEINVALID := by
  decide

/-! ## Entry protection -/

theorem UINT_MOD_eq : UINT_MOD = 4294967296 := by decide

theorem Enter_m_cEntry (e : DeviceEntry) (tid : Nat) (h : e.m_cEntry + 1 < UINT_MOD) :
    CD3DDeviceLevel1.Enter e tid = ⟨e.m_cEntry + 1, tid⟩ := by
  rw [CD3DDeviceLevel1.Enter, Nat.mod_eq_of_lt h]

theorem Leave_m_cEntry (e : DeviceEntry) (h0 : 0 < e.m_cEntry) :
    CD3DDeviceLevel1.Leave e
      = ⟨e.m_cEntry - 1, if e.m_cEntry - 1 = 0 then 0 else e.m_dwThreadId⟩ := by
  have hne : e.m_cEntry ≠ 0 := by omega
  rw [CD3DDeviceLevel1.Leave]
  simp only [hne, if_false]
  split <;> rfl

/-- The state after a run of calls that never leaves more often than it has
entered and never nests `2 ^ 32` deep, from a state with counter `c0`. -/
theorem runEntryCalls_spec (tid : Nat) (calls : List EntryCall) :
    ∀ (e : DeviceEntry),
      (∀ k, k ≤ calls.length →
        (calls.take k).count EntryCall.Leave
            ≤ e.m_cEntry + (calls.take k).count EntryCall.Enter ∧
        e.m_cEntry + (calls.take k).count EntryCall.Enter
            - (calls.take k).count EntryCall.Leave < UINT_MOD) →
      (0 < e.m_cEntry → e.m_dwThreadId = tid) → (e.m_cEntry = 0 → e.m_dwThreadId = 0) →
      (runEntryCalls tid e calls).m_cEntry
          = e.m_cEntry + calls.count EntryCall.Enter - calls.count EntryCall.Leave ∧
        (0 < (runEntryCalls tid e calls).m_cEntry →
          (runEntryCalls tid e calls).m_dwThreadId = tid) ∧
        ((runEntryCalls tid e calls).m_cEntry = 0 →
          (runEntryCalls tid e calls).m_dwThreadId = 0) := by
  induction calls with
  | nil =>
    intro e _ h1 h2
    exact ⟨by simp [runEntryCalls], h1, h2⟩
  | cons c rest ih =>
    intro e hyp h1 h2
    simp only [UINT_MOD_eq] at hyp
    have hk0 := hyp 0 (Nat.zero_le _)
    have hk1 := hyp 1 (by simp)
    simp only [List.take_zero, List.count_nil, Nat.add_zero, Nat.sub_zero] at hk0
    cases c with
    | Enter =>
      simp only [List.take_succ_cons, List.take_zero, List.count_cons_self, List.count_nil,
        Nat.zero_add, ne_eq, reduceCtorEq, not_false_eq_true, List.count_cons_of_ne] at hk1
      have hE := Enter_m_cEntry e tid (by rw [UINT_MOD_eq]; omega)
      rw [runEntryCalls, hE]
      have hrec := ih ⟨e.m_cEntry + 1, tid⟩ (by
        intro k hk
        rw [UINT_MOD_eq]
        have h := hyp (k + 1) (by simpa using hk)
        simp only [List.take_succ_cons, List.count_cons_self, ne_eq, reduceCtorEq,
          not_false_eq_true, List.count_cons_of_ne] at h
        dsimp only
        omega) (fun _ => rfl) (by intro h; simp at h)
      simp only [List.count_cons_self, ne_eq, reduceCtorEq, not_false_eq_true,
        List.count_cons_of_ne]
      refine ⟨?_, hrec.2.1, hrec.2.2⟩
      rw [hrec.1]
      dsimp only
      omega
    | Leave =>
      simp only [List.take_succ_cons, List.take_zero, List.count_cons_self, List.count_nil,
        Nat.zero_add, ne_eq, reduceCtorEq, not_false_eq_true, List.count_cons_of_ne] at hk1
      have hL := Leave_m_cEntry e (by omega)
      rw [runEntryCalls, hL]
      have hrec := ih ⟨e.m_cEntry - 1, if e.m_cEntry - 1 = 0 then 0 else e.m_dwThreadId⟩ (by
        intro k hk
        rw [UINT_MOD_eq]
        have h := hyp (k + 1) (by simpa using hk)
        simp only [List.take_succ_cons, List.count_cons_self, ne_eq, reduceCtorEq,
          not_false_eq_true, List.count_cons_of_ne] at h
        dsimp only
        omega) (by
        intro h
        simp only at h
        have hne : ¬ (e.m_cEntry - 1 = 0) := by omega
        simp only [hne, if_false]
        exact h1 (by omega)) (by
        intro h
        simp only at h
        simp only [h, if_true])
      simp only [List.count_cons_self, ne_eq, reduceCtorEq, not_false_eq_true,
        List.count_cons_of_ne]
      refine ⟨?_, hrec.2.1, hrec.2.2⟩
      rw [hrec.1]
      dsimp only
      omega

/-- C23 (amended): for every run of `Enter` and `Leave` calls made by one
thread on a new device, in which no initial part contains more `Leave` than
`Enter` calls and the nesting depth (`Enter` calls minus `Leave` calls) stays
below `2 ^ 32`: after each initial part of the run the counter `m_cEntry` equals
the number of `Enter` calls minus the number of `Leave` calls made so far, and
`m_dwThreadId` is the id of the thread while the counter is positive and 0 when
the counter is 0 (`IsEntered` is true exactly in the first case). -/
theorem C23_entry_counter_counts_nesting (tid : Nat) (calls : List EntryCall)
    (hyp : ∀ k, k ≤ calls.length →
      (calls.take k).count EntryCall.Leave ≤ (calls.take k).count EntryCall.Enter ∧
      (calls.take k).count EntryCall.Enter - (calls.take k).count EntryCall.Leave
        < UINT_MOD) :
    ∀ k, k ≤ calls.length →
      (runEntryCalls tid DeviceEntry.ctor (calls.take k)).m_cEntry
          = (calls.take k).count EntryCall.Enter - (calls.take k).count EntryCall.Leave ∧
      (0 < (runEntryCalls tid DeviceEntry.ctor (calls.take k)).m_cEntry →
        (runEntryCalls tid DeviceEntry.ctor (calls.take k)).m_dwThreadId = tid) ∧
      ((runEntryCalls tid DeviceEntry.ctor (calls.take k)).m_cEntry = 0 →
        (runEntryCalls tid DeviceEntry.ctor (calls.take k)).m_dwThreadId = 0) ∧
      (CD3DDeviceLevel1.IsEntered (runEntryCalls tid DeviceEntry.ctor (calls.take k)) = true ↔
        (calls.take k).count EntryCall.Leave < (calls.take k).count EntryCall.Enter) := by
  intro k hk
  have h := runEntryCalls_spec tid (calls.take k) DeviceEntry.ctor (by
    intro j hj
    have hj1 : j ≤ k := by
      rw [List.length_take] at hj
      omega
    have hjk := hyp j (by omega)
    rw [List.take_take, Nat.min_eq_left hj1]
    have h0 : DeviceEntry.ctor.m_cEntry = 0 := rfl
    rw [h0, Nat.zero_add]
    exact hjk) (by intro h; exact absurd h (by decide)) (fun _ => rfl)
  have h0 : DeviceEntry.ctor.m_cEntry = 0 := rfl
  rw [h0, Nat.zero_add] at h
  refine ⟨h.1, h.2.1, h.2.2, ?_⟩
  rw [CD3DDeviceLevel1.IsEntered, h.1]
  simp only [gt_iff_lt, decide_eq_true_eq]
  omega

theorem C23_entry_counter_counts_nesting_witness :
    (runEntryCalls 5 DeviceEntry.ctor
        ([EntryCall.Enter, EntryCall.Enter, EntryCall.Leave, EntryCall.Leave].take 3)).m_cEntry
      = ([EntryCall.Enter, EntryCall.Enter, EntryCall.Leave, EntryCall.Leave].take 3).count
          EntryCall.Enter
        - ([EntryCall.Enter, EntryCall.Enter, EntryCall.Leave, EntryCall.Leave].take 3).count
          EntryCall.Leave :=
  (C23_entry_counter_counts_nesting 5
    [EntryCall.Enter, EntryCall.Enter, EntryCall.Leave, EntryCall.Leave]
    (by
      intro k hk
      have hk4 : k ≤ 4 := hk
      rw [UINT_MOD_eq]
      interval_cases k <;> decide) 3 (by decide)).1

theorem runEntryCalls_replicate_Enter (tid : Nat) (n : Nat) :
    ∀ e : DeviceEntry, e.m_cEntry < UINT_MOD →
      (runEntryCalls tid e (List.replicate n EntryCall.Enter)).m_cEntry
          = (e.m_cEntry + n) % UINT_MOD ∧
        (0 < n →
          (runEntryCalls tid e (List.replicate n EntryCall.Enter)).m_dwThreadId = tid) := by
  induction n with
  | zero =>
    intro e he
    rw [List.replicate_zero, runEntryCalls, Nat.add_zero, Nat.mod_eq_of_lt he]
    exact ⟨rfl, fun h => absurd h (Nat.lt_irrefl 0)⟩
  | succ n ih =>
    intro e he
    have hpos : 0 < UINT_MOD := by decide
    rw [List.replicate_succ, runEntryCalls]
    have h := ih (CD3DDeviceLevel1.Enter e tid) (Nat.mod_lt _ hpos)
    constructor
    · rw [h.1]
      show ((e.m_cEntry + 1) % UINT_MOD + n) % UINT_MOD = (e.m_cEntry + (n + 1)) % UINT_MOD
      rw [Nat.mod_add_mod, Nat.add_assoc, Nat.add_comm 1 n]
    · intro _
      cases n with
      | zero => rw [List.replicate_zero, runEntryCalls]; rfl
      | succ m => exact h.2 (Nat.succ_pos m)

/-- C23 (counterexample): `2 ^ 32` nested `Enter` calls of the thread 5 on a
new device, with no `Leave` call, leave the counter `m_cEntry` at 0, not at the
number of `Enter` calls, and the recorded thread id at 5 although the counter
is 0: the counter is a `UINT` and wraps. -/
theorem C23_entry_counter_wraps :
    (List.replicate 4294967296 EntryCall.Enter).count EntryCall.Enter = 4294967296 ∧
    (List.replicate 4294967296 EntryCall.Enter).count EntryCall.Leave = 0 ∧
    (runEntryCalls 5 DeviceEntry.ctor (List.replicate 4294967296 EntryCall.Enter)).m_cEntry
      = 0 ∧
    (runEntryCalls 5 DeviceEntry.ctor
      (List.replicate 4294967296 EntryCall.Enter)).m_dwThreadId = 5 := by
  have h := runEntryCalls_replicate_Enter 5 4294967296 DeviceEntry.ctor (by decide)
  refine ⟨List.count_replicate_self _ _, ?_, ?_, h.2 (by decide)⟩
  · rw [List.count_replicate]
    rfl
  · rw [h.1]
    decide

/-! ## Frame advance -/

/-- C24: on a new device the recorded frame number is 0, and after any
`AdvanceFrame` call it is the number given.  `AdvanceFrame` given the recorded
number changes nothing (with the recording resource manager: no call is
recorded); given another number it records that number and calls `EndFrame`,
`DestroyReleasedResourcesFromLastFrame` and `DestroyResources(WithDelay)`, in
this order, once each. -/
theorem C24_AdvanceFrame_same_number_is_noop {ρ : Type} (ops : ResourceManagerOps ρ)
    (s : DeviceFrame ρ) (calls : List ResourceManagerCall) (uFrameNumber : Nat) :
    (∀ rm : ρ, (DeviceFrame.ctor rm).m_uFrameNumber = 0) ∧
    (CD3DDeviceLevel1.AdvanceFrame ops s uFrameNumber).m_uFrameNumber = uFrameNumber ∧
    CD3DDeviceLevel1.AdvanceFrame ops s s.m_uFrameNumber = s ∧
    CD3DDeviceLevel1.AdvanceFrame ops (CD3DDeviceLevel1.AdvanceFrame ops s uFrameNumber)
        uFrameNumber = CD3DDeviceLevel1.AdvanceFrame ops s uFrameNumber ∧
    CD3DDeviceLevel1.AdvanceFrame recordingOps ⟨uFrameNumber, calls⟩ uFrameNumber
      = ⟨uFrameNumber, calls⟩ ∧
    (s.m_uFrameNumber ≠ uFrameNumber →
      CD3DDeviceLevel1.AdvanceFrame ops s uFrameNumber
        = ⟨uFrameNumber, ops.DestroyResources true
            (ops.DestroyReleasedResourcesFromLastFrame (ops.EndFrame s.m_resourceManager))⟩) ∧
    (∀ uOld : Nat, uOld ≠ uFrameNumber →
      CD3DDeviceLevel1.AdvanceFrame recordingOps ⟨uOld, calls⟩ uFrameNumber
        = ⟨uFrameNumber, calls ++ [ResourceManagerCall.EndFrame,
            ResourceManagerCall.DestroyReleasedResourcesFromLastFrame,
            ResourceManagerCall.DestroyResources true]⟩) := by
  have hsame : ∀ (t : DeviceFrame ρ), CD3DDeviceLevel1.AdvanceFrame ops t t.m_uFrameNumber = t := by
    intro t
    simp [CD3DDeviceLevel1.AdvanceFrame]
  have hnum : (CD3DDeviceLevel1.AdvanceFrame ops s uFrameNumber).m_uFrameNumber
      = uFrameNumber := by
    unfold CD3DDeviceLevel1.AdvanceFrame
    split
    · rfl
    · rename_i h
      simpa using h
  refine ⟨fun _ => rfl, hnum, hsame s, ?_, ?_, ?_, ?_⟩
  · have h := hsame (CD3DDeviceLevel1.AdvanceFrame ops s uFrameNumber)
    rw [hnum] at h
    exact h
  · simp [CD3DDeviceLevel1.AdvanceFrame]
  · intro h
    simp [CD3DDeviceLevel1.AdvanceFrame, h]
  · intro uOld h
    simp [CD3DDeviceLevel1.AdvanceFrame, h, recordingOps]

theorem C24_AdvanceFrame_same_number_is_noop_witness :
    CD3DDeviceLevel1.AdvanceFrame recordingOps (DeviceFrame.ctor []) 1
      = ⟨1, [ResourceManagerCall.EndFrame,
          ResourceManagerCall.DestroyReleasedResourcesFromLastFrame,
          ResourceManagerCall.DestroyResources true]⟩ :=
  (C24_AdvanceFrame_same_number_is_noop recordingOps (DeviceFrame.ctor []) [] 1).2.2.2.2.2.2
    0 (by decide)

/-! ## `FlushBufferFan` -/

theorem DynArray.put_of_le_length {α : Type} (rg : List α) (i : Nat) (a : α)
    (h : rg.length ≤ i) : DynArray.put rg i a = .error Fault.outOfBounds := by
  unfold DynArray.put
  rw [if_neg (by omega)]

theorem set_three (a b c : Nat) : ∀ (cur : Nat) (arr : List Nat), cur + 3 ≤ arr.length →
    ((arr.set cur a).set (cur + 1) b).set (cur + 2) c
      = arr.take cur ++ a :: b :: c :: arr.drop (cur + 3) := by
  intro cur
  induction cur with
  | zero =>
    intro arr h
    match arr, h with
    | x :: y :: z :: l, _ => simp
  | succ k ih =>
    intro arr h
    match arr, h with
    | x :: t, h =>
      have ht : k + 3 ≤ t.length := by
        simp only [List.length_cons] at h
        omega
      have := ih t ht
      simp only [List.set_cons_succ, List.take_succ_cons, List.drop_succ_cons,
        List.cons_append, List.cons.injEq, true_and]
      exact this

theorem fanIndices_length (n : Nat) : ∀ idx : Nat, (fanIndices n idx).length = 3 * n := by
  induction n with
  | zero => intro idx; rfl
  | succ n ih =>
    intro idx
    rw [fanIndices]
    simp only [List.length_cons, ih (idx + 1)]
    omega

/-- The loop of `FlushBufferFan` writes the fan indices over the `3 * n` elements
from `indexCur` on, when the array has them. -/
theorem FlushBufferFan_fill_spec (n : Nat) : ∀ (idx cur : Nat) (arr : List Nat),
    cur + 3 * n ≤ arr.length →
    FlushBufferFan_fill n idx cur arr
      = .ok (arr.take cur ++ fanIndices n idx ++ arr.drop (cur + 3 * n)) := by
  induction n with
  | zero =>
    intro idx cur arr _
    rw [FlushBufferFan_fill, fanIndices]
    simp
  | succ n ih =>
    intro idx cur arr h
    have h1 : cur < arr.length := by omega
    have h2 : cur + 1 < (arr.set cur 0).length := by rw [List.length_set]; omega
    have h3 : cur + 2 < ((arr.set cur 0).set (cur + 1) ((idx + 1) % WORD_MOD)).length := by
      rw [List.length_set, List.length_set]; omega
    rw [FlushBufferFan_fill, DynArray.put_of_lt _ _ _ h1]
    simp only
    rw [DynArray.put_of_lt _ _ _ h2]
    simp only
    rw [DynArray.put_of_lt _ _ _ h3]
    simp only
    rw [set_three 0 ((idx + 1) % WORD_MOD) ((idx + 2) % WORD_MOD) cur arr (by omega)]
    have hlen : (List.take cur arr ++ 0 :: ((idx + 1) % WORD_MOD) :: ((idx + 2) % WORD_MOD)
        :: List.drop (cur + 3) arr).length = arr.length := by
      simp only [List.length_append, List.length_take, List.length_cons, List.length_drop]
      omega
    rw [ih (idx + 1) (cur + 3) _ (by rw [hlen]; omega)]
    have htake : (List.take cur arr).length = cur := by
      rw [List.length_take]; omega
    have e1 : List.take cur arr ++ 0 :: ((idx + 1) % WORD_MOD) :: ((idx + 2) % WORD_MOD)
        :: List.drop (cur + 3) arr
        = (List.take cur arr ++ [0, (idx + 1) % WORD_MOD, (idx + 2) % WORD_MOD])
          ++ List.drop (cur + 3) arr := by simp
    have hl : (List.take cur arr ++ [0, (idx + 1) % WORD_MOD, (idx + 2) % WORD_MOD]).length
        = cur + 3 := by
      simp only [List.length_append, htake, List.length_cons, List.length_nil]
    rw [e1, List.take_left' hl]
    have e2 : cur + 3 + 3 * n = (cur + 3) + 3 * n := rfl
    rw [List.drop_append_eq_append_drop, hl]
    have e3 : cur + 3 + 3 * n - (cur + 3) = 3 * n := by omega
    have e4 : List.drop (cur + 3 + 3 * n)
        (List.take cur arr ++ [0, (idx + 1) % WORD_MOD, (idx + 2) % WORD_MOD]) = [] := by
      apply List.drop_eq_nil_of_le
      rw [hl]; omega
    rw [e3, e4, List.drop_drop, fanIndices]
    have e5 : cur + 3 * (n + 1) = 3 * n + (cur + 3) := by omega
    have e6 : cur + 3 + 3 * n = 3 * n + (cur + 3) := by omega
    simp only [List.nil_append, List.append_assoc, List.cons_append, e5]
    try rw [e6]

theorem fanIndices_getElem (n : Nat) : ∀ (idx i : Nat), i < n →
    (fanIndices n idx)[3 * i]? = some 0 ∧
    (fanIndices n idx)[3 * i + 1]? = some ((idx + i + 1) % WORD_MOD) ∧
    (fanIndices n idx)[3 * i + 2]? = some ((idx + i + 2) % WORD_MOD) := by
  induction n with
  | zero => intro idx i h; omega
  | succ n ih =>
    intro idx i h
    rw [fanIndices]
    cases i with
    | zero => simp
    | succ j =>
      have e0 : 3 * (j + 1) = 3 * j + 1 + 1 + 1 := by omega
      have e1 : 3 * (j + 1) + 1 = 3 * j + 1 + 1 + 1 + 1 := by omega
      have e2 : 3 * (j + 1) + 2 = 3 * j + 2 + 1 + 1 + 1 := by omega
      have a1 : idx + (j + 1) + 1 = idx + 1 + j + 1 := by omega
      have a2 : idx + (j + 1) + 2 = idx + 1 + j + 2 := by omega
      have hj := ih (idx + 1) j (by omega)
      rw [e2, e1, e0, a1, a2]
      simp only [List.getElem?_cons_succ]
      exact hj

theorem fanIndices_lt (n : Nat) : ∀ (idx N : Nat), idx + n + 2 ≤ N →
    ∀ x ∈ fanIndices n idx, x < N := by
  induction n with
  | zero =>
    intro idx N _ x hx
    simp [fanIndices] at hx
  | succ n ih =>
    intro idx N h x hx
    rw [fanIndices] at hx
    have m1 : (idx + 1) % WORD_MOD ≤ idx + 1 := Nat.mod_le _ _
    have m2 : (idx + 2) % WORD_MOD ≤ idx + 2 := Nat.mod_le _ _
    rcases List.mem_cons.mp hx with h0 | hx
    · omega
    · rcases List.mem_cons.mp hx with h0 | hx
      · omega
      · rcases List.mem_cons.mp hx with h0 | hx
        · omega
        · exact ih (idx + 1) N (by omega) x hx

/-- The loop of `FlushBufferFan` writes past the end of an array that has fewer
than `3 * n` elements from `indexCur` on. -/
theorem FlushBufferFan_fill_fault (n : Nat) : ∀ (idx cur : Nat) (arr : List Nat),
    cur ≤ arr.length → arr.length < cur + 3 * n →
    FlushBufferFan_fill n idx cur arr = .error Fault.outOfBounds := by
  induction n with
  | zero => intro idx cur arr h1 h2; omega
  | succ n ih =>
    intro idx cur arr h1 h2
    rw [FlushBufferFan_fill]
    by_cases c1 : cur < arr.length
    · rw [DynArray.put_of_lt _ _ _ c1]
      simp only
      by_cases c2 : cur + 1 < arr.length
      · rw [DynArray.put_of_lt _ _ _ (by rw [List.length_set]; exact c2)]
        simp only
        by_cases c3 : cur + 2 < arr.length
        · rw [DynArray.put_of_lt _ _ _
            (by rw [List.length_set, List.length_set]; exact c3)]
          simp only
          apply ih
          · simp only [List.length_set]; omega
          · simp only [List.length_set]; omega
        · rw [DynArray.put_of_le_length _ _ _
            (by rw [List.length_set, List.length_set]; omega)]
      · rw [DynArray.put_of_le_length _ _ _ (by rw [List.length_set]; omega)]
    · rw [DynArray.put_of_le_length _ _ _ (by omega)]

/-- C30 (amended): for a buffer of at most 2 vertices `FlushBufferFan` makes
no draw call and returns `S_OK`.  For `n > 2` vertices with `3 * (n - 2) < 2 ^ 31`
it makes one `DrawIndexedTriangleListUP` call, for `n` vertices and `n - 2`
triangles, whose index list has `3 * (n - 2)` entries, the triple `i` of which
(`i = 0 .. n - 3`) is `0, i + 1, i + 2` with each value kept modulo `2 ^ 16`;
when `n ≤ 65536` the triple is `0, i + 1, i + 2` itself and every index is
below `n`.  The call returns the result of the draw passed through
`HandleDIE`. -/
theorem C30_FlushBufferFan_indices (d : CD3DDeviceLevel1) (cVertices : Nat)
    (hrDraw : HRESULT) :
    (cVertices ≤ 2 → d.FlushBufferFan cVertices hrDraw = .ok (d, S_OK, none)) ∧
    (2 < cVertices → (cVertices - 2) * 3 < 2 ^ 31 →
      ∃ indexArray : List Nat,
        d.FlushBufferFan cVertices hrDraw
          = .ok ((d.HandleDIE hrDraw).1, (d.HandleDIE hrDraw).2,
              some ⟨cVertices, cVertices - 2, indexArray⟩) ∧
        indexArray.length = 3 * (cVertices - 2) ∧
        (∀ i, i < cVertices - 2 →
          indexArray[3 * i]? = some 0 ∧
          indexArray[3 * i + 1]? = some ((i + 1) % 65536) ∧
          indexArray[3 * i + 2]? = some ((i + 2) % 65536)) ∧
        (cVertices ≤ 65536 →
          (∀ i, i < cVertices - 2 →
            indexArray[3 * i + 1]? = some (i + 1) ∧ indexArray[3 * i + 2]? = some (i + 2)) ∧
          ∀ x ∈ indexArray, x < cVertices)) := by
  constructor
  · intro h
    rw [CD3DDeviceLevel1.FlushBufferFan, if_neg (by omega),
      HandleDIE_of_nonneg d S_OK (by decide)]
  · intro h hsmall
    have hW : WORD_MOD = 65536 := by decide
    have hmod : (cVertices - 2) * 3 % UINT_MOD = 3 * (cVertices - 2) := by
      rw [UINT_MOD_eq]
      omega
    have hfill := FlushBufferFan_fill_spec (cVertices - 2) 0 0
      (List.replicate (3 * (cVertices - 2)) 0) (by rw [List.length_replicate]; omega)
    have hdrop : List.drop (0 + 3 * (cVertices - 2)) (List.replicate (3 * (cVertices - 2)) 0)
        = [] := by
      apply List.drop_eq_nil_of_le
      rw [List.length_replicate]
      omega
    rw [hdrop, List.take_zero, List.nil_append, List.append_nil] at hfill
    refine ⟨fanIndices (cVertices - 2) 0, ?_, fanIndices_length _ _, ?_, ?_⟩
    · rw [CD3DDeviceLevel1.FlushBufferFan, if_pos h]
      simp only [hmod, hfill]
    · intro i hi
      have hg := fanIndices_getElem (cVertices - 2) 0 i hi
      rw [hW] at hg
      simpa using hg
    · intro hn
      refine ⟨?_, fanIndices_lt (cVertices - 2) 0 cVertices (by omega)⟩
      intro i hi
      have hg := fanIndices_getElem (cVertices - 2) 0 i hi
      rw [hW, Nat.zero_add, Nat.mod_eq_of_lt (by omega), Nat.mod_eq_of_lt (by omega)] at hg
      exact ⟨hg.2.1, hg.2.2⟩

theorem C30_FlushBufferFan_indices_witness :
    ∃ indexArray : List Nat,
      (CD3DDeviceLevel1.ctor 7).FlushBufferFan 5 S_OK
        = .ok (((CD3DDeviceLevel1.ctor 7).HandleDIE S_OK).1,
            ((CD3DDeviceLevel1.ctor 7).HandleDIE S_OK).2, some ⟨5, 5 - 2, indexArray⟩) ∧
      indexArray.length = 3 * (5 - 2) ∧
      (∀ i, i < 5 - 2 →
        indexArray[3 * i]? = some 0 ∧
        indexArray[3 * i + 1]? = some ((i + 1) % 65536) ∧
        indexArray[3 * i + 2]? = some ((i + 2) % 65536)) ∧
      (5 ≤ 65536 →
        (∀ i, i < 5 - 2 →
          indexArray[3 * i + 1]? = some (i + 1) ∧ indexArray[3 * i + 2]? = some (i + 2)) ∧
        ∀ x ∈ indexArray, x < 5) :=
  (C30_FlushBufferFan_indices (CD3DDeviceLevel1.ctor 7) 5 S_OK).2 (by decide) (by decide)

/-- C30 (counterexample): for a buffer of `2 ^ 31` vertices the product
`cTriangles * 3` wraps as a `UINT`, the index array is sized `2 ^ 31 - 6`
instead of `3 * (2 ^ 31 - 2)`, and the loop writes past its end: the call does
not issue a draw with an index list of length `3 * (n - 2)`. -/
theorem C30_FlushBufferFan_index_count_wraps :
    ((2147483648 - 2) * 3) % UINT_MOD = 2147483642 ∧
    3 * (2147483648 - 2) = 6442450938 ∧
    (CD3DDeviceLevel1.ctor 7).FlushBufferFan 2147483648 S_OK = .error Fault.outOfBounds := by
  have hfill : FlushBufferFan_fill (2147483648 - 2) 0 0
      (List.replicate ((2147483648 - 2) * 3 % UINT_MOD) 0) = .error Fault.outOfBounds := by
    apply FlushBufferFan_fill_fault
    · exact Nat.zero_le _
    · rw [List.length_replicate, UINT_MOD_eq]
      decide
  refine ⟨by decide, by decide, ?_⟩
  rw [CD3DDeviceLevel1.FlushBufferFan, if_pos (by decide)]
  simp only [hfill]

/-! ## The state-object caches -/

section
set_option linter.unusedSectionVars false
variable {R D S B : Type} [DecidableEq R] [DecidableEq D] [DecidableEq S] [DecidableEq B]

theorem SetRasterizerState_hit (s : CD3DRenderState R D S B) (desc : R) (env : CreateStateEnv)
    (h : Nat) (hs : s.m_compiledRasterizerStates desc = some h) :
    s.SetRasterizerState desc env
      = ({ s with calls := s.calls ++ [StateCall.RSSetState h] }, S_OK) := by
  simp only [CD3DRenderState.SetRasterizerState, hs]

theorem SetDepthStencilState_hit (s : CD3DRenderState R D S B) (desc : D)
    (env : CreateStateEnv) (h : Nat) (hs : s.m_compiledDepthStencilStates desc = some h) :
    s.SetDepthStencilState desc env
      = ({ s with calls := s.calls ++ [StateCall.OMSetDepthStencilState h] }, S_OK) := by
  simp only [CD3DRenderState.SetDepthStencilState, hs]

theorem SetSamplerState_hit (s : CD3DRenderState R D S B) (samplerIdx : Nat) (desc : S)
    (env : CreateStateEnv) (h : Nat) (hs : s.m_compiledSamplerStates desc = some h) :
    s.SetSamplerState samplerIdx desc env
      = ({ s with calls := s.calls ++ [StateCall.PSSetSamplers samplerIdx h] }, S_OK) := by
  simp only [CD3DRenderState.SetSamplerState, hs]

theorem SetBlendState_hit (s : CD3DRenderState R D S B) (desc : B) (dwBlendFactor : Nat)
    (env : CreateStateEnv) (h : Nat) (hs : s.m_compiledBlendStates desc = some h) :
    s.SetBlendState desc dwBlendFactor env
      = ({ s with calls := s.calls ++ [StateCall.OMSetBlendState h dwBlendFactor] }, S_OK) := by
  simp only [CD3DRenderState.SetBlendState, hs]

theorem SetRasterizerState_miss (s : CD3DRenderState R D S B) (desc : R) (env : CreateStateEnv)
    (hs : s.m_compiledRasterizerStates desc = none) :
    s.SetRasterizerState desc env
      = ({ s with
            m_compiledRasterizerStates :=
              Function.update s.m_compiledRasterizerStates desc (some env.stored)
            calls := s.calls ++
              [StateCall.CreateRasterizerState, StateCall.RSSetState env.stored] }, env.hr) := by
  simp only [CD3DRenderState.SetRasterizerState, hs]

theorem SetDepthStencilState_miss (s : CD3DRenderState R D S B) (desc : D)
    (env : CreateStateEnv) (hs : s.m_compiledDepthStencilStates desc = none) :
    s.SetDepthStencilState desc env
      = ({ s with
            m_compiledDepthStencilStates :=
              Function.update s.m_compiledDepthStencilStates desc (some env.stored)
            calls := s.calls ++
              [StateCall.CreateDepthStencilState,
                StateCall.OMSetDepthStencilState env.stored] }, env.hr) := by
  simp only [CD3DRenderState.SetDepthStencilState, hs]

theorem SetSamplerState_miss (s : CD3DRenderState R D S B) (samplerIdx : Nat) (desc : S)
    (env : CreateStateEnv) (hs : s.m_compiledSamplerStates desc = none) :
    s.SetSamplerState samplerIdx desc env
      = ({ s with
            m_compiledSamplerStates :=
              Function.update s.m_compiledSamplerStates desc (some env.stored)
            calls := s.calls ++
              [StateCall.CreateSamplerState,
                StateCall.PSSetSamplers samplerIdx env.stored] }, env.hr) := by
  simp only [CD3DRenderState.SetSamplerState, hs]

theorem SetBlendState_miss (s : CD3DRenderState R D S B) (desc : B) (dwBlendFactor : Nat)
    (env : CreateStateEnv) (hs : s.m_compiledBlendStates desc = none) :
    s.SetBlendState desc dwBlendFactor env
      = ({ s with
            m_compiledBlendStates :=
              Function.update s.m_compiledBlendStates desc (some env.stored)
            calls := s.calls ++
              [StateCall.CreateBlendState,
                StateCall.OMSetBlendState env.stored dwBlendFactor] }, env.hr) := by
  simp only [CD3DRenderState.SetBlendState, hs]

/-- An entry of a map is never overwritten: a map is written only on a miss. -/
theorem update_of_none_keeps {δ : Type} [DecidableEq δ] (m : δ → Option Nat) (desc desc0 : δ)
    (v h : Nat) (hm : m desc = none) (h0 : m desc0 = some h) :
    Function.update m desc (some v) desc0 = some h := by
  have hne : desc0 ≠ desc := by
    intro e
    rw [e, hm] at h0
    exact Option.noConfusion h0
  rw [Function.update_noteq hne, h0]

/-- Every setter call keeps the entries that the four maps hold. -/
theorem runStateOps_keeps (ops : List (StateOp R D S B)) :
    ∀ s : CD3DRenderState R D S B,
      (∀ (desc : R) (h : Nat), s.m_compiledRasterizerStates desc = some h →
        (s.runStateOps ops).m_compiledRasterizerStates desc = some h) ∧
      (∀ (desc : D) (h : Nat), s.m_compiledDepthStencilStates desc = some h →
        (s.runStateOps ops).m_compiledDepthStencilStates desc = some h) ∧
      (∀ (desc : S) (h : Nat), s.m_compiledSamplerStates desc = some h →
        (s.runStateOps ops).m_compiledSamplerStates desc = some h) ∧
      (∀ (desc : B) (h : Nat), s.m_compiledBlendStates desc = some h →
        (s.runStateOps ops).m_compiledBlendStates desc = some h) := by
  induction ops with
  | nil => intro s; exact ⟨fun _ _ h => h, fun _ _ h => h, fun _ _ h => h, fun _ _ h => h⟩
  | cons op rest ih =>
    intro s
    cases op with
    | rasterizer desc0 env =>
      rw [CD3DRenderState.runStateOps]
      obtain ⟨i1, i2, i3, i4⟩ := ih (s.SetRasterizerState desc0 env).1
      cases hm : s.m_compiledRasterizerStates desc0 with
      | none =>
        rw [SetRasterizerState_miss s desc0 env hm] at i1 i2 i3 i4 ⊢
        exact ⟨fun desc h hs => i1 desc h (update_of_none_keeps _ _ _ _ _ hm hs),
          fun desc h hs => i2 desc h hs, fun desc h hs => i3 desc h hs,
          fun desc h hs => i4 desc h hs⟩
      | some p =>
        rw [SetRasterizerState_hit s desc0 env p hm] at i1 i2 i3 i4 ⊢
        exact ⟨fun desc h hs => i1 desc h hs, fun desc h hs => i2 desc h hs,
          fun desc h hs => i3 desc h hs, fun desc h hs => i4 desc h hs⟩
    | depthStencil desc0 env =>
      rw [CD3DRenderState.runStateOps]
      obtain ⟨i1, i2, i3, i4⟩ := ih (s.SetDepthStencilState desc0 env).1
      cases hm : s.m_compiledDepthStencilStates desc0 with
      | none =>
        rw [SetDepthStencilState_miss s desc0 env hm] at i1 i2 i3 i4 ⊢
        exact ⟨fun desc h hs => i1 desc h hs,
          fun desc h hs => i2 desc h (update_of_none_keeps _ _ _ _ _ hm hs),
          fun desc h hs => i3 desc h hs, fun desc h hs => i4 desc h hs⟩
      | some p =>
        rw [SetDepthStencilState_hit s desc0 env p hm] at i1 i2 i3 i4 ⊢
        exact ⟨fun desc h hs => i1 desc h hs, fun desc h hs => i2 desc h hs,
          fun desc h hs => i3 desc h hs, fun desc h hs => i4 desc h hs⟩
    | sampler samplerIdx desc0 env =>
      rw [CD3DRenderState.runStateOps]
      obtain ⟨i1, i2, i3, i4⟩ := ih (s.SetSamplerState samplerIdx desc0 env).1
      cases hm : s.m_compiledSamplerStates desc0 with
      | none =>
        rw [SetSamplerState_miss s samplerIdx desc0 env hm] at i1 i2 i3 i4 ⊢
        exact ⟨fun desc h hs => i1 desc h hs, fun desc h hs => i2 desc h hs,
          fun desc h hs => i3 desc h (update_of_none_keeps _ _ _ _ _ hm hs),
          fun desc h hs => i4 desc h hs⟩
      | some p =>
        rw [SetSamplerState_hit s samplerIdx desc0 env p hm] at i1 i2 i3 i4 ⊢
        exact ⟨fun desc h hs => i1 desc h hs, fun desc h hs => i2 desc h hs,
          fun desc h hs => i3 desc h hs, fun desc h hs => i4 desc h hs⟩
    | blend desc0 dwBlendFactor env =>
      rw [CD3DRenderState.runStateOps]
      obtain ⟨i1, i2, i3, i4⟩ := ih (s.SetBlendState desc0 dwBlendFactor env).1
      cases hm : s.m_compiledBlendStates desc0 with
      | none =>
        rw [SetBlendState_miss s desc0 dwBlendFactor env hm] at i1 i2 i3 i4 ⊢
        exact ⟨fun desc h hs => i1 desc h hs, fun desc h hs => i2 desc h hs,
          fun desc h hs => i3 desc h hs,
          fun desc h hs => i4 desc h (update_of_none_keeps _ _ _ _ _ hm hs)⟩
      | some p =>
        rw [SetBlendState_hit s desc0 dwBlendFactor env p hm] at i1 i2 i3 i4 ⊢
        exact ⟨fun desc h hs => i1 desc h hs, fun desc h hs => i2 desc h hs,
          fun desc h hs => i3 desc h hs, fun desc h hs => i4 desc h hs⟩

end

section
set_option linter.unusedSectionVars false
variable {R D S B : Type} [DecidableEq R] [DecidableEq D] [DecidableEq S] [DecidableEq B]

/-- C12: in each of the four state categories, the first `Set...State` call
with a descriptor binds a handle `h`, and any later call on the same render
state with this descriptor value, after any setter calls in between, binds the
same handle `h`, returns `S_OK`, makes the bind call only (no native creation)
and leaves the four caches as they are. -/
theorem C12_equal_descriptors_bind_same_handle (s : CD3DRenderState R D S B)
    (ops : List (StateOp R D S B)) (env1 env2 : CreateStateEnv) :
    (∀ desc : R, ∃ h : Nat,
      (s.SetRasterizerState desc env1).1.calls.getLast? = some (StateCall.RSSetState h) ∧
      ((s.SetRasterizerState desc env1).1.runStateOps ops).SetRasterizerState desc env2
        = ({ (s.SetRasterizerState desc env1).1.runStateOps ops with
              calls := ((s.SetRasterizerState desc env1).1.runStateOps ops).calls
                ++ [StateCall.RSSetState h] }, S_OK)) ∧
    (∀ desc : D, ∃ h : Nat,
      (s.SetDepthStencilState desc env1).1.calls.getLast?
        = some (StateCall.OMSetDepthStencilState h) ∧
      ((s.SetDepthStencilState desc env1).1.runStateOps ops).SetDepthStencilState desc env2
        = ({ (s.SetDepthStencilState desc env1).1.runStateOps ops with
              calls := ((s.SetDepthStencilState desc env1).1.runStateOps ops).calls
                ++ [StateCall.OMSetDepthStencilState h] }, S_OK)) ∧
    (∀ (desc : S) (i1 i2 : Nat), ∃ h : Nat,
      (s.SetSamplerState i1 desc env1).1.calls.getLast?
        = some (StateCall.PSSetSamplers i1 h) ∧
      ((s.SetSamplerState i1 desc env1).1.runStateOps ops).SetSamplerState i2 desc env2
        = ({ (s.SetSamplerState i1 desc env1).1.runStateOps ops with
              calls := ((s.SetSamplerState i1 desc env1).1.runStateOps ops).calls
                ++ [StateCall.PSSetSamplers i2 h] }, S_OK)) ∧
    (∀ (desc : B) (f1 f2 : Nat), ∃ h : Nat,
      (s.SetBlendState desc f1 env1).1.calls.getLast?
        = some (StateCall.OMSetBlendState h f1) ∧
      ((s.SetBlendState desc f1 env1).1.runStateOps ops).SetBlendState desc f2 env2
        = ({ (s.SetBlendState desc f1 env1).1.runStateOps ops with
              calls := ((s.SetBlendState desc f1 env1).1.runStateOps ops).calls
                ++ [StateCall.OMSetBlendState h f2] }, S_OK)) := by
  refine ⟨?_, ?_, ?_, ?_⟩
  · intro desc
    cases hm : s.m_compiledRasterizerStates desc with
    | none =>
      refine ⟨env1.stored, ?_, ?_⟩
      · rw [SetRasterizerState_miss s desc env1 hm]
        simp
      · apply SetRasterizerState_hit
        apply (runStateOps_keeps ops _).1
        rw [SetRasterizerState_miss s desc env1 hm]
        simp
    | some p =>
      refine ⟨p, ?_, ?_⟩
      · rw [SetRasterizerState_hit s desc env1 p hm]
        simp
      · apply SetRasterizerState_hit
        apply (runStateOps_keeps ops _).1
        rw [SetRasterizerState_hit s desc env1 p hm]
        exact hm
  · intro desc
    cases hm : s.m_compiledDepthStencilStates desc with
    | none =>
      refine ⟨env1.stored, ?_, ?_⟩
      · rw [SetDepthStencilState_miss s desc env1 hm]
        simp
      · apply SetDepthStencilState_hit
        apply (runStateOps_keeps ops _).2.1
        rw [SetDepthStencilState_miss s desc env1 hm]
        simp
    | some p =>
      refine ⟨p, ?_, ?_⟩
      · rw [SetDepthStencilState_hit s desc env1 p hm]
        simp
      · apply SetDepthStencilState_hit
        apply (runStateOps_keeps ops _).2.1
        rw [SetDepthStencilState_hit s desc env1 p hm]
        exact hm
  · intro desc i1 i2
    cases hm : s.m_compiledSamplerStates desc with
    | none =>
      refine ⟨env1.stored, ?_, ?_⟩
      · rw [SetSamplerState_miss s i1 desc env1 hm]
        simp
      · apply SetSamplerState_hit
        apply (runStateOps_keeps ops _).2.2.1
        rw [SetSamplerState_miss s i1 desc env1 hm]
        simp
    | some p =>
      refine ⟨p, ?_, ?_⟩
      · rw [SetSamplerState_hit s i1 desc env1 p hm]
        simp
      · apply SetSamplerState_hit
        apply (runStateOps_keeps ops _).2.2.1
        rw [SetSamplerState_hit s i1 desc env1 p hm]
        exact hm
  · intro desc f1 f2
    cases hm : s.m_compiledBlendStates desc with
    | none =>
      refine ⟨env1.stored, ?_, ?_⟩
      · rw [SetBlendState_miss s desc f1 env1 hm]
        simp
      · apply SetBlendState_hit
        apply (runStateOps_keeps ops _).2.2.2
        rw [SetBlendState_miss s desc f1 env1 hm]
        simp
    | some p =>
      refine ⟨p, ?_, ?_⟩
      · rw [SetBlendState_hit s desc f1 env1 p hm]
        simp
      · apply SetBlendState_hit
        apply (runStateOps_keeps ops _).2.2.2
        rw [SetBlendState_hit s desc f1 env1 p hm]
        exact hm

end

section
set_option linter.unusedSectionVars false
variable {R D S B : Type} [DecidableEq R] [DecidableEq D] [DecidableEq S] [DecidableEq B]

/-- C28: in each of the four state setters, a call that misses its cache and
whose native creation fails returns that failure, binds the null handle and
stores the null handle under the descriptor; any later call with this descriptor
value, after any setter calls in between, returns `S_OK`, binds the null handle
and makes no creation call. -/
theorem C28_failed_creation_is_cached (s : CD3DRenderState R D S B)
    (ops : List (StateOp R D S B)) (env env2 : CreateStateEnv) (hfail : env.hr < 0) :
    (∀ desc : R, s.m_compiledRasterizerStates desc = none →
      (s.SetRasterizerState desc env).2 = env.hr ∧
      (s.SetRasterizerState desc env).1.m_compiledRasterizerStates desc = some 0 ∧
      (s.SetRasterizerState desc env).1.calls
        = s.calls ++ [StateCall.CreateRasterizerState, StateCall.RSSetState 0] ∧
      ((s.SetRasterizerState desc env).1.runStateOps ops).SetRasterizerState desc env2
        = ({ (s.SetRasterizerState desc env).1.runStateOps ops with
              calls := ((s.SetRasterizerState desc env).1.runStateOps ops).calls
                ++ [StateCall.RSSetState 0] }, S_OK)) ∧
    (∀ desc : D, s.m_compiledDepthStencilStates desc = none →
      (s.SetDepthStencilState desc env).2 = env.hr ∧
      (s.SetDepthStencilState desc env).1.m_compiledDepthStencilStates desc = some 0 ∧
      (s.SetDepthStencilState desc env).1.calls
        = s.calls ++ [StateCall.CreateDepthStencilState,
            StateCall.OMSetDepthStencilState 0] ∧
      ((s.SetDepthStencilState desc env).1.runStateOps ops).SetDepthStencilState desc env2
        = ({ (s.SetDepthStencilState desc env).1.runStateOps ops with
              calls := ((s.SetDepthStencilState desc env).1.runStateOps ops).calls
                ++ [StateCall.OMSetDepthStencilState 0] }, S_OK)) ∧
    (∀ (desc : S) (i1 i2 : Nat), s.m_compiledSamplerStates desc = none →
      (s.SetSamplerState i1 desc env).2 = env.hr ∧
      (s.SetSamplerState i1 desc env).1.m_compiledSamplerStates desc = some 0 ∧
      (s.SetSamplerState i1 desc env).1.calls
        = s.calls ++ [StateCall.CreateSamplerState, StateCall.PSSetSamplers i1 0] ∧
      ((s.SetSamplerState i1 desc env).1.runStateOps ops).SetSamplerState i2 desc env2
        = ({ (s.SetSamplerState i1 desc env).1.runStateOps ops with
              calls := ((s.SetSamplerState i1 desc env).1.runStateOps ops).calls
                ++ [StateCall.PSSetSamplers i2 0] }, S_OK)) ∧
    (∀ (desc : B) (f1 f2 : Nat), s.m_compiledBlendStates desc = none →
      (s.SetBlendState desc f1 env).2 = env.hr ∧
      (s.SetBlendState desc f1 env).1.m_compiledBlendStates desc = some 0 ∧
      (s.SetBlendState desc f1 env).1.calls
        = s.calls ++ [StateCall.CreateBlendState, StateCall.OMSetBlendState 0 f1] ∧
      ((s.SetBlendState desc f1 env).1.runStateOps ops).SetBlendState desc f2 env2
        = ({ (s.SetBlendState desc f1 env).1.runStateOps ops with
              calls := ((s.SetBlendState desc f1 env).1.runStateOps ops).calls
                ++ [StateCall.OMSetBlendState 0 f2] }, S_OK)) := by
  have hstored : env.stored = 0 := by
    simp [CreateStateEnv.stored, FAILED, hfail]
  refine ⟨?_, ?_, ?_, ?_⟩
  · intro desc hm
    have hmiss := SetRasterizerState_miss s desc env hm
    rw [hstored] at hmiss
    have hentry : (s.SetRasterizerState desc env).1.m_compiledRasterizerStates desc
        = some 0 := by
      rw [hmiss]
      simp
    refine ⟨by rw [hmiss], hentry, by rw [hmiss], ?_⟩
    exact SetRasterizerState_hit _ desc env2 0 ((runStateOps_keeps ops _).1 desc 0 hentry)
  · intro desc hm
    have hmiss := SetDepthStencilState_miss s desc env hm
    rw [hstored] at hmiss
    have hentry : (s.SetDepthStencilState desc env).1.m_compiledDepthStencilStates desc
        = some 0 := by
      rw [hmiss]
      simp
    refine ⟨by rw [hmiss], hentry, by rw [hmiss], ?_⟩
    exact SetDepthStencilState_hit _ desc env2 0 ((runStateOps_keeps ops _).2.1 desc 0 hentry)
  · intro desc i1 i2 hm
    have hmiss := SetSamplerState_miss s i1 desc env hm
    rw [hstored] at hmiss
    have hentry : (s.SetSamplerState i1 desc env).1.m_compiledSamplerStates desc
        = some 0 := by
      rw [hmiss]
      simp
    refine ⟨by rw [hmiss], hentry, by rw [hmiss], ?_⟩
    exact SetSamplerState_hit _ i2 desc env2 0 ((runStateOps_keeps ops _).2.2.1 desc 0 hentry)
  · intro desc f1 f2 hm
    have hmiss := SetBlendState_miss s desc f1 env hm
    rw [hstored] at hmiss
    have hentry : (s.SetBlendState desc f1 env).1.m_compiledBlendStates desc
        = some 0 := by
      rw [hmiss]
      simp
    refine ⟨by rw [hmiss], hentry, by rw [hmiss], ?_⟩
    exact SetBlendState_hit _ desc f2 env2 0 ((runStateOps_keeps ops _).2.2.2 desc 0 hentry)

end

theorem C28_failed_creation_is_cached_witness :
    (exampleRenderState.SetRasterizerState 3 ⟨E_FAIL, 0⟩).2 = E_FAIL ∧
    (exampleRenderState.SetRasterizerState 3 ⟨E_FAIL, 0⟩).1.m_compiledRasterizerStates 3
      = some 0 ∧
    (exampleRenderState.SetRasterizerState 3 ⟨E_FAIL, 0⟩).1.calls
      = exampleRenderState.calls
        ++ [StateCall.CreateRasterizerState, StateCall.RSSetState 0] ∧
    (((exampleRenderState.SetRasterizerState 3 ⟨E_FAIL, 0⟩).1.runStateOps
        [StateOp.blend 8 255 ⟨S_OK, 70⟩]).SetRasterizerState 3 ⟨S_OK, 71⟩)
      = ({ (exampleRenderState.SetRasterizerState 3 ⟨E_FAIL, 0⟩).1.runStateOps
            [StateOp.blend 8 255 ⟨S_OK, 70⟩] with
          calls := ((exampleRenderState.SetRasterizerState 3 ⟨E_FAIL, 0⟩).1.runStateOps
            [StateOp.blend 8 255 ⟨S_OK, 70⟩]).calls ++ [StateCall.RSSetState 0] }, S_OK) :=
  (C28_failed_creation_is_cached exampleRenderState [StateOp.blend 8 255 ⟨S_OK, 70⟩]
    ⟨E_FAIL, 0⟩ ⟨S_OK, 71⟩ (by decide)).1 3 rfl

/-! ## `GetD3DDevice` and the display state -/

theorem FAILED_WGXERR_DISPLAYSTATEINVALID : FAILED WGXERR_DISPLAYSTATEINVALID = true := by
  decide

theorem InitializeD3DReferences_stale (m : CD3DDeviceManager) (env : DeviceEnv)
    (pGivenDisplaySet : Nat) (hlatest : 0 ≤ env.hrLatestDisplaySet)
    (hgiven : pGivenDisplaySet ≠ 0) (hstale : pGivenDisplaySet ≠ env.pLatestDisplaySet) :
    m.InitializeD3DReferences env pGivenDisplaySet = (m, WGXERR_DISPLAYSTATEINVALID) := by
  have hF : FAILED env.hrLatestDisplaySet = false := by simp [FAILED, hlatest]
  simp [CD3DDeviceManager.InitializeD3DReferences, hF, hgiven, hstale]

/-- `CreateNewDevice` never changes the display set the manager holds. -/
theorem CreateNewDevice_m_pDisplaySet (m : CD3DDeviceManager) (env : DeviceEnv)
    (r : CD3DDeviceManager × HRESULT × Option Nat) (h : m.CreateNewDevice env = .ok r) :
    r.1.m_pDisplaySet = m.m_pDisplaySet := by
  rw [CD3DDeviceManager.CreateNewDevice] at h
  split at h
  · cases h; rfl
  · split at h
    · cases h; rfl
    · split at h
      · cases h; rfl
      · split at h
        · cases h; rfl
        · split at h
          · cases h; rfl
          · simp only at h
            split at h
            · exact absurd h (by simp)
            · split at h
              · exact absurd h (by simp)
              · cases h; rfl

theorem SetCount_succ_length {α : Type} (rg : List α) (fill : α) :
    DynArray.SetCount rg (rg.length + 1) fill = rg ++ [fill] := by
  unfold DynArray.SetCount
  rw [if_neg (by omega), Nat.add_sub_cancel_left]
  rfl

/-- `CreateNewDevice` on a pool without Unusable entries, when every step
succeeds: the new entry is appended. -/
theorem CreateNewDevice_at_end (m : CD3DDeviceManager) (env : DeviceEnv)
    (h0 : env.fChangedBeforeCreate = false) (h1 : 0 ≤ env.hrD3D11CreateDevice)
    (h2 : 0 ≤ env.hrQueryInterface) (h3 : 0 ≤ env.hrDeviceCreate)
    (h4 : 0 ≤ env.hrReserveSpace)
    (hu : m.m_iFirstUnusable = m.m_rgDeviceList.length)
    (hn : m.m_rgDeviceList.length + 1 < UINT_MOD) :
    m.CreateNewDevice env = .ok
      ({ m with
          m_rgDeviceList := m.m_rgDeviceList ++
            [{ env.uninitialised with
                pDeviceLevel1 := env.pNewDeviceLevel1, fIsDeviceLost := false }]
          m_iFirstUnusable := m.m_iFirstUnusable + 1
          m_cCallers := (m.m_cCallers + 1) % UINT_MOD },
        env.hrReserveSpace, some env.pNewDeviceLevel1) := by
  have f1 : FAILED env.hrD3D11CreateDevice = false := by simp [FAILED, h1]
  have f2 : FAILED env.hrQueryInterface = false := by simp [FAILED, h2]
  have f3 : FAILED env.hrDeviceCreate = false := by simp [FAILED, h3]
  have f4 : FAILED env.hrReserveSpace = false := by simp [FAILED, h4]
  have e1 : m.m_rgDeviceList.length % UINT_MOD = m.m_rgDeviceList.length :=
    Nat.mod_eq_of_lt (by omega)
  have e2 : (m.m_rgDeviceList.length + 1) % UINT_MOD = m.m_rgDeviceList.length + 1 :=
    Nat.mod_eq_of_lt hn
  have hat : DynArray.at (m.m_rgDeviceList ++ [env.uninitialised]) m.m_rgDeviceList.length
      = .ok env.uninitialised := by
    apply DynArray.at_of_getElem?
    simp
  rw [CD3DDeviceManager.CreateNewDevice]
  simp only [h0, f1, f2, f3, f4, Bool.false_eq_true, if_false, e1, e2, SetCount_succ_length,
    hu, Nat.lt_irrefl, hat]
  simp

/-- `CreateNewDevice` on a pool with an Unusable entry, when every step succeeds:
the first Unusable entry moves to the new last element and the new entry takes
its place. -/
theorem CreateNewDevice_displace (m : CD3DDeviceManager) (env : DeviceEnv)
    (h0 : env.fChangedBeforeCreate = false) (h1 : 0 ≤ env.hrD3D11CreateDevice)
    (h2 : 0 ≤ env.hrQueryInterface) (h3 : 0 ≤ env.hrDeviceCreate)
    (h4 : 0 ≤ env.hrReserveSpace)
    (a : D3DDeviceInformation) (ha : m.m_rgDeviceList[m.m_iFirstUnusable]? = some a)
    (hn : m.m_rgDeviceList.length + 1 < UINT_MOD) :
    m.CreateNewDevice env = .ok
      ({ m with
          m_rgDeviceList := m.m_rgDeviceList.set m.m_iFirstUnusable
              { a with pDeviceLevel1 := env.pNewDeviceLevel1, fIsDeviceLost := false } ++ [a]
          m_iFirstUnusable := m.m_iFirstUnusable + 1
          m_cCallers := (m.m_cCallers + 1) % UINT_MOD },
        env.hrReserveSpace, some env.pNewDeviceLevel1) := by
  have f1 : FAILED env.hrD3D11CreateDevice = false := by simp [FAILED, h1]
  have f2 : FAILED env.hrQueryInterface = false := by simp [FAILED, h2]
  have f3 : FAILED env.hrDeviceCreate = false := by simp [FAILED, h3]
  have f4 : FAILED env.hrReserveSpace = false := by simp [FAILED, h4]
  have hlt : m.m_iFirstUnusable < m.m_rgDeviceList.length := by
    rcases Nat.lt_or_ge m.m_iFirstUnusable m.m_rgDeviceList.length with h | h
    · exact h
    · rw [List.getElem?_eq_none h] at ha; cases ha
  have e1 : m.m_rgDeviceList.length % UINT_MOD = m.m_rgDeviceList.length :=
    Nat.mod_eq_of_lt (by omega)
  have e2 : (m.m_rgDeviceList.length + 1) % UINT_MOD = m.m_rgDeviceList.length + 1 :=
    Nat.mod_eq_of_lt hn
  have e3 : (m.m_iFirstUnusable + 1) % UINT_MOD = m.m_iFirstUnusable + 1 :=
    Nat.mod_eq_of_lt (by omega)
  have hcopy : DynArray.copy (m.m_rgDeviceList ++ [env.uninitialised])
      m.m_rgDeviceList.length m.m_iFirstUnusable = .ok (m.m_rgDeviceList ++ [a]) := by
    rw [DynArray.copy_of_getElem? _ _ _ a (by rw [List.getElem?_append_left hlt]; exact ha)
      (by simp)]
    simp
  have hat : DynArray.at (m.m_rgDeviceList ++ [a]) m.m_iFirstUnusable = .ok a := by
    apply DynArray.at_of_getElem?
    rw [List.getElem?_append_left hlt]
    exact ha
  rw [CD3DDeviceManager.CreateNewDevice]
  simp only [h0, f1, f2, f3, f4, Bool.false_eq_true, if_false, e1, e2, e3,
    SetCount_succ_length, hlt, if_true, hcopy, hat]
  rw [List.set_append_left _ _ hlt]

/-- On a well-formed pool `CreateNewDevice` completes, whatever the native layer
answers. -/
theorem CreateNewDevice_total (m : CD3DDeviceManager) (env : DeviceEnv)
    (hwf : m.m_iFirstUnusable ≤ m.m_rgDeviceList.length)
    (hn : m.m_rgDeviceList.length + 1 < UINT_MOD) :
    ∃ r, m.CreateNewDevice env = .ok r := by
  by_cases h0 : env.fChangedBeforeCreate = true
  · exact ⟨_, by rw [CD3DDeviceManager.CreateNewDevice, if_pos h0]⟩
  · have h0f : env.fChangedBeforeCreate = false := by simpa using h0
    by_cases f1 : FAILED env.hrD3D11CreateDevice = true
    · exact ⟨_, by rw [CD3DDeviceManager.CreateNewDevice, if_neg h0, if_pos f1]⟩
    · by_cases f2 : FAILED env.hrQueryInterface = true
      · exact ⟨_, by rw [CD3DDeviceManager.CreateNewDevice, if_neg h0, if_neg f1, if_pos f2]⟩
      · by_cases f3 : FAILED env.hrDeviceCreate = true
        · exact ⟨_, by
            rw [CD3DDeviceManager.CreateNewDevice, if_neg h0, if_neg f1, if_neg f2, if_pos f3]⟩
        · by_cases f4 : FAILED env.hrReserveSpace = true
          · exact ⟨_, by
              rw [CD3DDeviceManager.CreateNewDevice, if_neg h0, if_neg f1, if_neg f2,
                if_neg f3, if_pos f4]⟩
          · have h1 : 0 ≤ env.hrD3D11CreateDevice := by simpa [FAILED] using f1
            have h2 : 0 ≤ env.hrQueryInterface := by simpa [FAILED] using f2
            have h3 : 0 ≤ env.hrDeviceCreate := by simpa [FAILED] using f3
            have h4 : 0 ≤ env.hrReserveSpace := by simpa [FAILED] using f4
            rcases Nat.lt_or_ge m.m_iFirstUnusable m.m_rgDeviceList.length with hlt | hge
            · exact ⟨_, CreateNewDevice_displace m env h0f h1 h2 h3 h4
                m.m_rgDeviceList[m.m_iFirstUnusable] (List.getElem?_eq_getElem hlt) hn⟩
            · exact ⟨_, CreateNewDevice_at_end m env h0f h1 h2 h3 h4 (by omega) hn⟩

/-- C21: `GetD3DDevice` given a display whose display set is not the latest
one returns `WGXERR_DISPLAYSTATEINVALID` with a `NULL` device and leaves the
manager unchanged.  And on a well-formed pool, when the display set that the
manager holds at the end of the call reports a changed display state, the call
returns `WGXERR_DISPLAYSTATEINVALID` with a `NULL` device, whether or not a
device was found or created. -/
theorem C21_GetD3DDevice_display_state_invalid (m : CD3DDeviceManager) (env : DeviceEnv)
    (pGivenDisplaySet : Nat) :
    (0 ≤ env.hrLatestDisplaySet → pGivenDisplaySet ≠ 0 →
      pGivenDisplaySet ≠ env.pLatestDisplaySet →
      m.GetD3DDevice env pGivenDisplaySet = .ok (m, WGXERR_DISPLAYSTATEINVALID, none)) ∧
    (m.m_iFirstUnusable ≤ m.m_rgDeviceList.length →
      m.m_rgDeviceList.length + 1 < UINT_MOD →
      env.fChangedAtExit = true →
      (m.InitializeD3DReferences env pGivenDisplaySet).1.m_pDisplaySet ≠ 0 →
      ∃ m2, m.GetD3DDevice env pGivenDisplaySet
        = .ok (m2, WGXERR_DISPLAYSTATEINVALID, none)) := by
  constructor
  · intro hlatest hgiven hstale
    rw [CD3DDeviceManager.GetD3DDevice,
      InitializeD3DReferences_stale m env pGivenDisplaySet hlatest hgiven hstale]
    simp only [FAILED_WGXERR_DISPLAYSTATEINVALID, if_true]
    split <;> rfl
  · intro hwf hn hchanged hheld
    rw [CD3DDeviceManager.GetD3DDevice]
    have hlist : (m.InitializeD3DReferences env pGivenDisplaySet).1.m_rgDeviceList
        = m.m_rgDeviceList ∧
        (m.InitializeD3DReferences env pGivenDisplaySet).1.m_iFirstUnusable
        = m.m_iFirstUnusable := by
      rw [CD3DDeviceManager.InitializeD3DReferences]
      split
      · exact ⟨rfl, rfl⟩
      · split <;> exact ⟨rfl, rfl⟩
    generalize m.InitializeD3DReferences env pGivenDisplaySet = r at hheld hlist
    obtain ⟨m1, hr1⟩ := r
    simp only at hheld hlist ⊢
    by_cases hf : FAILED hr1 = true
    · simp only [hf, if_true, hheld, ne_eq, not_false_eq_true, hchanged, and_self]
      exact ⟨m1, rfl⟩
    · simp only [hf, Bool.false_eq_true, if_false]
      rw [CD3DDeviceManager.GetAvailableDevice]
      by_cases hlen : m1.m_rgDeviceList.length = 0
      · obtain ⟨r, hr⟩ := CreateNewDevice_total m1 env (by rw [hlist.1, hlist.2]; exact hwf)
          (by rw [hlist.1]; exact hn)
        have hds := CreateNewDevice_m_pDisplaySet m1 env r hr
        have hFE : FAILED E_FAIL = true := by decide
        simp only [hlen, if_true, hFE, hr]
        obtain ⟨m2, hr2, pp⟩ := r
        simp only at hds
        simp only [hds, hheld, ne_eq, not_false_eq_true, hchanged, and_self, if_true]
        exact ⟨m2, rfl⟩
      · have hpos : 0 < m1.m_rgDeviceList.length := Nat.pos_of_ne_zero hlen
        have hFS : FAILED S_OK = false := by decide
        simp only [hlen, if_false, DynArray.at_of_lt _ 0 hpos, hFS, Bool.false_eq_true,
          hheld, ne_eq, not_false_eq_true, hchanged, and_self, if_true]
        exact ⟨m1, rfl⟩

theorem C21_GetD3DDevice_display_state_invalid_witness :
    examplePool.GetD3DDevice exampleDeviceEnv 901
        = .ok (examplePool, WGXERR_DISPLAYSTATEINVALID, none) ∧
    ∃ m2, examplePool.GetD3DDevice { exampleDeviceEnv with fChangedAtExit := true } 900
        = .ok (m2, WGXERR_DISPLAYSTATEINVALID, none) :=
  ⟨(C21_GetD3DDevice_display_state_invalid examplePool exampleDeviceEnv 901).1
      (by decide) (by decide) (by decide),
   (C21_GetD3DDevice_display_state_invalid examplePool
      { exampleDeviceEnv with fChangedAtExit := true } 900).2
      (by decide) (by decide) rfl (by decide)⟩

/-! ## `CreateNewDevice` and the pool -/

/-- C26: on a well-formed pool, when the display state has not changed and
the native device is created: if wrapping and tracking succeed, `CreateNewDevice`
returns the new device, the pool has one entry more, the entry at the old
`m_iFirstUnusable` holds the new device with `fIsDeviceLost = false`,
`m_iFirstUnusable` is one more, every entry that was below the old
`m_iFirstUnusable` or above it is where it was, and the entry that was at the old
`m_iFirstUnusable`, if any, is in the new last element; if wrapping or tracking
fails, the call returns the failure with no device and leaves the pool array and
`m_iFirstUnusable` unchanged. -/
theorem C26_CreateNewDevice_tracks_new_device (m : CD3DDeviceManager) (env : DeviceEnv)
    (hwf : m.m_iFirstUnusable ≤ m.m_rgDeviceList.length)
    (hn : m.m_rgDeviceList.length + 1 < UINT_MOD)
    (h0 : env.fChangedBeforeCreate = false) (h1 : 0 ≤ env.hrD3D11CreateDevice)
    (h2 : 0 ≤ env.hrQueryInterface) :
    (0 ≤ env.hrDeviceCreate → 0 ≤ env.hrReserveSpace →
      ∃ m1, m.CreateNewDevice env
          = .ok (m1, env.hrReserveSpace, some env.pNewDeviceLevel1) ∧
        m1.m_rgDeviceList.length = m.m_rgDeviceList.length + 1 ∧
        m1.m_iFirstUnusable = m.m_iFirstUnusable + 1 ∧
        (∃ info, m1.m_rgDeviceList[m.m_iFirstUnusable]? = some info ∧
          info.pDeviceLevel1 = env.pNewDeviceLevel1 ∧ info.fIsDeviceLost = false) ∧
        (∀ j, j < m.m_iFirstUnusable → m1.m_rgDeviceList[j]? = m.m_rgDeviceList[j]?) ∧
        (∀ j, m.m_iFirstUnusable < j → j < m.m_rgDeviceList.length →
          m1.m_rgDeviceList[j]? = m.m_rgDeviceList[j]?) ∧
        (m.m_iFirstUnusable < m.m_rgDeviceList.length →
          m1.m_rgDeviceList[m.m_rgDeviceList.length]?
            = m.m_rgDeviceList[m.m_iFirstUnusable]?)) ∧
    (env.hrDeviceCreate < 0 ∨ env.hrReserveSpace < 0 →
      ∃ m1 hr, m.CreateNewDevice env = .ok (m1, hr, none) ∧ hr < 0 ∧
        m1.m_rgDeviceList = m.m_rgDeviceList ∧
        m1.m_iFirstUnusable = m.m_iFirstUnusable) := by
  have f1 : FAILED env.hrD3D11CreateDevice = false := by simp [FAILED, h1]
  have f2 : FAILED env.hrQueryInterface = false := by simp [FAILED, h2]
  constructor
  · intro h3 h4
    rcases Nat.lt_or_ge m.m_iFirstUnusable m.m_rgDeviceList.length with hlt | hge
    · have ha : m.m_rgDeviceList[m.m_iFirstUnusable]?
          = some m.m_rgDeviceList[m.m_iFirstUnusable] := List.getElem?_eq_getElem hlt
      refine ⟨_, CreateNewDevice_displace m env h0 h1 h2 h3 h4 _ ha hn, ?_, rfl, ?_, ?_, ?_, ?_⟩
      · simp
      · refine ⟨{ m.m_rgDeviceList[m.m_iFirstUnusable] with
            pDeviceLevel1 := env.pNewDeviceLevel1, fIsDeviceLost := false }, ?_, rfl, rfl⟩
        simp only
        rw [List.getElem?_append_left (by rw [List.length_set]; exact hlt),
          List.getElem?_set_self]
        simp [hlt]
      · intro j hj
        simp only
        rw [List.getElem?_append_left (by rw [List.length_set]; omega),
          List.getElem?_set_ne (by omega)]
      · intro j hj1 hj2
        simp only
        rw [List.getElem?_append_left (by rw [List.length_set]; omega),
          List.getElem?_set_ne (by omega)]
      · intro _
        simp only
        rw [List.getElem?_append_right (by rw [List.length_set]), List.length_set,
          Nat.sub_self, ha]
        rfl
    · have hu : m.m_iFirstUnusable = m.m_rgDeviceList.length := by omega
      refine ⟨_, CreateNewDevice_at_end m env h0 h1 h2 h3 h4 hu hn, ?_, rfl, ?_, ?_, ?_, ?_⟩
      · simp
      · refine ⟨{ env.uninitialised with
            pDeviceLevel1 := env.pNewDeviceLevel1, fIsDeviceLost := false }, ?_, rfl, rfl⟩
        simp only
        rw [hu, List.getElem?_append_right (le_refl _), Nat.sub_self]
        rfl
      · intro j hj
        simp only
        rw [List.getElem?_append_left (by omega)]
      · intro j hj1 hj2
        omega
      · intro h
        omega
  · intro hfail
    by_cases h3 : env.hrDeviceCreate < 0
    · have f3 : FAILED env.hrDeviceCreate = true := by simp [FAILED, h3]
      refine ⟨m, env.hrDeviceCreate, ?_, h3, rfl, rfl⟩
      rw [CD3DDeviceManager.CreateNewDevice]
      simp only [h0, f1, f2, f3, Bool.false_eq_true, if_false, if_true]
    · have h4 : env.hrReserveSpace < 0 := by
        rcases hfail with h | h
        · exact absurd h h3
        · exact h
      have f3 : FAILED env.hrDeviceCreate = false := by simp [FAILED, h3]
      have f4 : FAILED env.hrReserveSpace = true := by simp [FAILED, h4]
      refine ⟨{ m with deleted := m.deleted ++ [env.pNewDeviceLevel1] }, env.hrReserveSpace,
        ?_, h4, rfl, rfl⟩
      rw [CD3DDeviceManager.CreateNewDevice]
      simp only [h0, f1, f2, f3, f4, Bool.false_eq_true, if_false, if_true]

theorem C26_CreateNewDevice_tracks_new_device_witness :
    ∃ m1, examplePool4.CreateNewDevice exampleDeviceEnv
        = .ok (m1, exampleDeviceEnv.hrReserveSpace, some exampleDeviceEnv.pNewDeviceLevel1) ∧
      m1.m_rgDeviceList.length = examplePool4.m_rgDeviceList.length + 1 ∧
      m1.m_iFirstUnusable = examplePool4.m_iFirstUnusable + 1 ∧
      (∃ info, m1.m_rgDeviceList[examplePool4.m_iFirstUnusable]? = some info ∧
        info.pDeviceLevel1 = exampleDeviceEnv.pNewDeviceLevel1 ∧
        info.fIsDeviceLost = false) ∧
      (∀ j, j < examplePool4.m_iFirstUnusable →
        m1.m_rgDeviceList[j]? = examplePool4.m_rgDeviceList[j]?) ∧
      (∀ j, examplePool4.m_iFirstUnusable < j → j < examplePool4.m_rgDeviceList.length →
        m1.m_rgDeviceList[j]? = examplePool4.m_rgDeviceList[j]?) ∧
      (examplePool4.m_iFirstUnusable < examplePool4.m_rgDeviceList.length →
        m1.m_rgDeviceList[examplePool4.m_rgDeviceList.length]?
          = examplePool4.m_rgDeviceList[examplePool4.m_iFirstUnusable]?) :=
  (C26_CreateNewDevice_tracks_new_device examplePool4 exampleDeviceEnv (by decide) (by decide)
    rfl (by decide) (by decide)).1 (by decide) (by decide)

/-! ## `GetSWDevice` -/

/-- The first step of `GetSWDevice` leaves the pool and the software device as
they are. -/
theorem GetSWDevice_init (m : CD3DDeviceManager) (env : DeviceEnv) :
    (if m.m_pID3D = 0 then m.InitializeD3DReferences env 0 else (m, S_OK)).1.m_pSWDevice
        = m.m_pSWDevice ∧
    (if m.m_pID3D = 0 then m.InitializeD3DReferences env 0 else (m, S_OK)).1.m_rgDeviceList
        = m.m_rgDeviceList ∧
    (if m.m_pID3D = 0 then m.InitializeD3DReferences env 0 else (m, S_OK)).1.m_iFirstUnusable
        = m.m_iFirstUnusable := by
  split
  · rw [CD3DDeviceManager.InitializeD3DReferences]
    split
    · exact ⟨rfl, rfl, rfl⟩
    · split <;> exact ⟨rfl, rfl, rfl⟩
  · exact ⟨rfl, rfl, rfl⟩

theorem not_nonneg_of_FAILED (hr : HRESULT) (h : FAILED hr = true) :
    ¬ 0 ≤ (if hr = D3DERR_DEVICELOST then WGXERR_DISPLAYSTATEINVALID else hr) := by
  have hlt : hr < 0 := by simpa [FAILED] using h
  split
  · decide
  · exact not_le.mpr hlt

/-- What a successful `GetSWDevice` call returns. -/
theorem GetSWDevice_success (m : CD3DDeviceManager) (env : DeviceEnv)
    (hs : 0 ≤ (m.GetSWDevice env).2.1) :
    (m.m_pSWDevice ≠ 0 →
      (m.GetSWDevice env).2.2.1 = some m.m_pSWDevice ∧
      (m.GetSWDevice env).2.2.2 = false ∧
      (m.GetSWDevice env).1.m_pSWDevice = m.m_pSWDevice) ∧
    (m.m_pSWDevice = 0 →
      (m.GetSWDevice env).2.2.1 = some env.pNewDeviceLevel1 ∧
      (m.GetSWDevice env).2.2.2 = true ∧
      (m.GetSWDevice env).1.m_pSWDevice = env.pNewDeviceLevel1) := by
  have hinit := (GetSWDevice_init m env).1
  rw [CD3DDeviceManager.GetSWDevice] at hs ⊢
  generalize (if m.m_pID3D = 0 then m.InitializeD3DReferences env 0 else (m, S_OK)) = r
    at hs hinit ⊢
  obtain ⟨m1, hr1⟩ := r
  simp only at hs hinit ⊢
  by_cases f1 : FAILED hr1 = true
  · simp only [f1, if_true] at hs
    exact absurd hs (not_nonneg_of_FAILED hr1 f1)
  · by_cases f2 : FAILED env.hrEnsureSwRastIsRegistered = true
    · simp only [f1, f2, Bool.false_eq_true, if_false, if_true] at hs
      exact absurd hs (not_nonneg_of_FAILED _ f2)
    · by_cases hsw : m1.m_pSWDevice = 0
      · by_cases f3 : FAILED env.hrD3D11CreateDevice = true
        · simp only [f1, f2, hsw, f3, Bool.false_eq_true, if_false, if_true] at hs
          exact absurd hs (not_nonneg_of_FAILED _ f3)
        · by_cases f4 : FAILED env.hrQueryInterface = true
          · simp only [f1, f2, hsw, f3, f4, Bool.false_eq_true, if_false, if_true] at hs
            exact absurd hs (not_nonneg_of_FAILED _ f4)
          · by_cases f5 : FAILED env.hrDeviceCreate = true
            · simp only [f1, f2, hsw, f3, f4, f5, Bool.false_eq_true, if_false, if_true] at hs
              exact absurd hs (not_nonneg_of_FAILED _ f5)
            · simp only [f1, f2, hsw, f3, f4, f5, Bool.false_eq_true, if_false, if_true]
              rw [hsw] at hinit
              constructor
              · intro hne
                exact absurd hinit.symm hne
              · intro _
                simp
      · simp only [f1, f2, hsw, Bool.false_eq_true, if_false]
        constructor
        · intro _
          simp [hinit]
        · intro h0
          rw [hinit] at hsw
          exact absurd h0 hsw

/-- C22: no `GetSWDevice` call changes the adapter pool list or
`m_iFirstUnusable`.  A successful call (whose device wrapper, if it creates one,
is not `NULL`) returns a device `p`, which the manager then holds; and every
successful call made while the manager holds `p` returns `p` again, does not
call `D3D11CreateDevice` and leaves `p` held. -/
theorem C22_GetSWDevice_creates_once (m : CD3DDeviceManager) (env : DeviceEnv) :
    ((m.GetSWDevice env).1.m_rgDeviceList = m.m_rgDeviceList ∧
      (m.GetSWDevice env).1.m_iFirstUnusable = m.m_iFirstUnusable) ∧
    (0 ≤ (m.GetSWDevice env).2.1 → env.pNewDeviceLevel1 ≠ 0 →
      ∃ p : Nat, p ≠ 0 ∧ (m.GetSWDevice env).2.2.1 = some p ∧
        (m.GetSWDevice env).1.m_pSWDevice = p ∧
        ((m.GetSWDevice env).2.2.2 = true → m.m_pSWDevice = 0) ∧
        ∀ (m2 : CD3DDeviceManager) (env2 : DeviceEnv), m2.m_pSWDevice = p →
          0 ≤ (m2.GetSWDevice env2).2.1 →
          (m2.GetSWDevice env2).2.2.1 = some p ∧
          (m2.GetSWDevice env2).2.2.2 = false ∧
          (m2.GetSWDevice env2).1.m_pSWDevice = p) := by
  constructor
  · have hinit := (GetSWDevice_init m env).2
    rw [CD3DDeviceManager.GetSWDevice]
    generalize (if m.m_pID3D = 0 then m.InitializeD3DReferences env 0 else (m, S_OK)) = r
      at hinit ⊢
    obtain ⟨m1, hr1⟩ := r
    simp only at hinit ⊢
    split
    · exact hinit
    · split
      · exact hinit
      · split
        · split
          · exact hinit
          · split
            · exact hinit
            · split
              · exact hinit
              · exact hinit
        · exact hinit
  · intro hs hnew
    have hheld : ∀ (p : Nat) (m2 : CD3DDeviceManager) (env2 : DeviceEnv), p ≠ 0 →
        m2.m_pSWDevice = p → 0 ≤ (m2.GetSWDevice env2).2.1 →
        (m2.GetSWDevice env2).2.2.1 = some p ∧ (m2.GetSWDevice env2).2.2.2 = false ∧
        (m2.GetSWDevice env2).1.m_pSWDevice = p := by
      intro p m2 env2 hp hm2 hs2
      have h := (GetSWDevice_success m2 env2 hs2).1 (by rw [hm2]; exact hp)
      rw [hm2] at h
      exact h
    by_cases h0 : m.m_pSWDevice = 0
    · obtain ⟨e1, e2, e3⟩ := (GetSWDevice_success m env hs).2 h0
      exact ⟨env.pNewDeviceLevel1, hnew, e1, e3, fun _ => h0,
        fun m2 env2 => hheld _ m2 env2 hnew⟩
    · obtain ⟨e1, e2, e3⟩ := (GetSWDevice_success m env hs).1 h0
      refine ⟨m.m_pSWDevice, h0, e1, e3, ?_, fun m2 env2 => hheld _ m2 env2 h0⟩
      intro h
      rw [e2] at h
      exact absurd h (by decide)

theorem C22_GetSWDevice_creates_once_witness :
    ∃ p : Nat, p ≠ 0 ∧ (examplePool.GetSWDevice exampleDeviceEnv).2.2.1 = some p ∧
      (examplePool.GetSWDevice exampleDeviceEnv).1.m_pSWDevice = p ∧
      ((examplePool.GetSWDevice exampleDeviceEnv).2.2.2 = true → examplePool.m_pSWDevice = 0) ∧
      ∀ (m2 : CD3DDeviceManager) (env2 : DeviceEnv), m2.m_pSWDevice = p →
        0 ≤ (m2.GetSWDevice env2).2.1 →
        (m2.GetSWDevice env2).2.2.1 = some p ∧
        (m2.GetSWDevice env2).2.2.2 = false ∧
        (m2.GetSWDevice env2).1.m_pSWDevice = p :=
  (C22_GetSWDevice_creates_once examplePool exampleDeviceEnv).2 (by decide) (by decide)

/-! ## The delayed release -/

theorem mem_released_step (rm : CD3DResourceManager) (x : ReleasedResource) :
    x ∈ (CD3DResourceManager.DestroyResources true
      (CD3DResourceManager.DestroyReleasedResourcesFromLastFrame
        (CD3DResourceManager.EndFrame rm))).released ↔
    ∃ y ∈ rm.released, y.fRequiresDelayedRelease = true ∧ y.cFramesSinceRelease + 1 < 2 ∧
      x = { y with cFramesSinceRelease := y.cFramesSinceRelease + 1 } := by
  simp only [CD3DResourceManager.DestroyResources, CD3DResourceManager.EndFrame,
    CD3DResourceManager.DestroyReleasedResourcesFromLastFrame, if_true,
    List.mem_filter, List.mem_map, decide_eq_true_eq]
  constructor
  · rintro ⟨⟨⟨y, hy, rfl⟩, hd⟩, hc⟩
    exact ⟨y, hy, hd, hc, rfl⟩
  · rintro ⟨y, hy, hd, hc, rfl⟩
    exact ⟨⟨⟨y, hy, rfl⟩, hd⟩, hc⟩

theorem mem_finalized_step (rm : CD3DResourceManager) (p : Nat) :
    p ∈ (CD3DResourceManager.DestroyResources true
      (CD3DResourceManager.DestroyReleasedResourcesFromLastFrame
        (CD3DResourceManager.EndFrame rm))).finalized ↔
    p ∈ rm.finalized ∨
      (∃ y ∈ rm.released, y.fRequiresDelayedRelease = false ∧ y.pResource = p) ∨
      (∃ y ∈ rm.released, y.fRequiresDelayedRelease = true ∧ 2 ≤ y.cFramesSinceRelease + 1 ∧
        y.pResource = p) := by
  simp only [CD3DResourceManager.DestroyResources, CD3DResourceManager.EndFrame,
    CD3DResourceManager.DestroyReleasedResourcesFromLastFrame, if_true, List.mem_append,
    List.mem_filter, List.mem_map, decide_eq_true_eq, Bool.not_eq_true',
    decide_eq_false_iff_not, Nat.not_lt]
  constructor
  · rintro ((h | ⟨x, ⟨⟨y, hy, rfl⟩, hd⟩, rfl⟩) | ⟨x, ⟨⟨⟨y, hy, rfl⟩, hd⟩, hc⟩, rfl⟩)
    · exact Or.inl h
    · exact Or.inr (Or.inl ⟨y, hy, hd, rfl⟩)
    · exact Or.inr (Or.inr ⟨y, hy, hd, hc, rfl⟩)
  · rintro (h | ⟨y, hy, hd, rfl⟩ | ⟨y, hy, hd, hc, rfl⟩)
    · exact Or.inl (Or.inl h)
    · exact Or.inl (Or.inr ⟨_, ⟨⟨y, hy, rfl⟩, hd⟩, rfl⟩)
    · exact Or.inr ⟨_, ⟨⟨⟨y, hy, rfl⟩, hd⟩, hc⟩, rfl⟩

/-- The run of `AdvanceFrame` calls keeps what is finalized. -/
theorem advanceFrames_keeps_finalized (p : Nat) (frames : List Nat) :
    ∀ s : DeviceFrame CD3DResourceManager, p ∈ s.m_resourceManager.finalized →
      p ∈ (advanceFrames resourceManagerOps s frames).m_resourceManager.finalized := by
  induction frames with
  | nil => intro s h; exact h
  | cons f rest ih =>
    intro s h
    rw [advanceFrames]
    apply ih
    rw [CD3DDeviceLevel1.AdvanceFrame]
    split
    · exact (mem_finalized_step s.m_resourceManager p).mpr (Or.inl h)
    · exact h

/-- A resource queued with delayed release that has seen `c < 2` frame
boundaries is finalized by a run of `AdvanceFrame` calls exactly when the run
brings the number of boundaries to 2. -/
theorem advanceFrames_pending (p : Nat) (frames : List Nat) :
    ∀ (s : DeviceFrame CD3DResourceManager) (c : Nat), c < 2 →
      p ∉ s.m_resourceManager.finalized →
      (∃ x ∈ s.m_resourceManager.released, x.pResource = p) →
      (∀ x ∈ s.m_resourceManager.released, x.pResource = p →
        x.fRequiresDelayedRelease = true ∧ x.cFramesSinceRelease = c) →
      (p ∈ (advanceFrames resourceManagerOps s frames).m_resourceManager.finalized ↔
        2 ≤ c + newFrames s.m_uFrameNumber frames) := by
  induction frames with
  | nil =>
    intro s c hc hnot _ _
    rw [advanceFrames, newFrames]
    constructor
    · intro h; exact absurd h hnot
    · intro h; omega
  | cons f rest ih =>
    intro s c hc hnot hex hall
    rw [advanceFrames, newFrames]
    by_cases hf : s.m_uFrameNumber ≠ f
    · have hstep : CD3DDeviceLevel1.AdvanceFrame resourceManagerOps s f
          = ⟨f, CD3DResourceManager.DestroyResources true
              (CD3DResourceManager.DestroyReleasedResourcesFromLastFrame
                (CD3DResourceManager.EndFrame s.m_resourceManager))⟩ := by
        rw [CD3DDeviceLevel1.AdvanceFrame, if_pos hf]
        rfl
      rw [hstep, if_pos hf]
      by_cases hc1 : c + 1 < 2
      · have h := ih ⟨f, CD3DResourceManager.DestroyResources true
            (CD3DResourceManager.DestroyReleasedResourcesFromLastFrame
              (CD3DResourceManager.EndFrame s.m_resourceManager))⟩ (c + 1) hc1
          (by
            rw [mem_finalized_step]
            rintro (h | ⟨y, hy, hd, hp⟩ | ⟨y, hy, hd, hcc, hp⟩)
            · exact hnot h
            · have := (hall y hy hp).1
              rw [this] at hd
              exact absurd hd (by decide)
            · have := (hall y hy hp).2
              omega)
          (by
            obtain ⟨y, hy, hp⟩ := hex
            have := hall y hy hp
            exact ⟨_, (mem_released_step _ _).mpr ⟨y, hy, this.1, by omega, rfl⟩, hp⟩)
          (by
            intro x hx hxp
            obtain ⟨y, hy, hd, hcc, rfl⟩ := (mem_released_step _ _).mp hx
            have := hall y hy hxp
            exact ⟨hd, by simp only; omega⟩)
        rw [h]
        simp only
        omega
      · constructor
        · intro _
          omega
        · intro _
          apply advanceFrames_keeps_finalized
          rw [mem_finalized_step]
          obtain ⟨y, hy, hp⟩ := hex
          have := hall y hy hp
          exact Or.inr (Or.inr ⟨y, hy, this.1, by omega, hp⟩)
    · have hf1 : s.m_uFrameNumber = f := by
        by_contra h
        exact hf h
      have hstep : CD3DDeviceLevel1.AdvanceFrame resourceManagerOps s f = s := by
        rw [CD3DDeviceLevel1.AdvanceFrame, if_neg hf]
      rw [hstep, if_neg hf, ih s c hc hnot hex hall, hf1, Nat.zero_add]

/-- C25: a resource that requires delayed release (as every `CD3DTexture`
does) and is released while a device is in a frame is finalized by a run of
`AdvanceFrame` calls exactly when at least two of the calls are given a new
frame number.  So it is not finalized by a call with the current frame number
nor by the call for the next frame, it is finalized by the call for the frame
after that, and `DestroyResources(WithoutDelay)`, made at teardown, finalizes it
at once. -/
theorem C25_delayed_release_waits_two_frames (s : DeviceFrame CD3DResourceManager)
    (pResource : Nat) (hnot : pResource ∉ s.m_resourceManager.finalized)
    (hfresh : ∀ x ∈ s.m_resourceManager.released, x.pResource ≠ pResource) :
    (∀ frames : List Nat,
      pResource ∈ (advanceFrames resourceManagerOps
          ⟨s.m_uFrameNumber,
            s.m_resourceManager.Release pResource CD3DTexture.RequiresDelayedRelease⟩
          frames).m_resourceManager.finalized ↔
        2 ≤ newFrames s.m_uFrameNumber frames) ∧
    pResource ∉ (advanceFrames resourceManagerOps
        ⟨s.m_uFrameNumber,
          s.m_resourceManager.Release pResource CD3DTexture.RequiresDelayedRelease⟩
        [s.m_uFrameNumber]).m_resourceManager.finalized ∧
    (∀ uNext : Nat, uNext ≠ s.m_uFrameNumber →
      pResource ∉ (advanceFrames resourceManagerOps
          ⟨s.m_uFrameNumber,
            s.m_resourceManager.Release pResource CD3DTexture.RequiresDelayedRelease⟩
          [uNext]).m_resourceManager.finalized ∧
      ∀ uAfter : Nat, uAfter ≠ uNext →
        pResource ∈ (advanceFrames resourceManagerOps
          ⟨s.m_uFrameNumber,
            s.m_resourceManager.Release pResource CD3DTexture.RequiresDelayedRelease⟩
          [uNext, uAfter]).m_resourceManager.finalized) ∧
    pResource ∈ (CD3DResourceManager.DestroyResources false
      (s.m_resourceManager.Release pResource
        CD3DTexture.RequiresDelayedRelease)).finalized := by
  have hmain : ∀ frames : List Nat,
      pResource ∈ (advanceFrames resourceManagerOps
          ⟨s.m_uFrameNumber,
            s.m_resourceManager.Release pResource CD3DTexture.RequiresDelayedRelease⟩
          frames).m_resourceManager.finalized ↔
        2 ≤ newFrames s.m_uFrameNumber frames := by
    intro frames
    have h := advanceFrames_pending pResource frames
      ⟨s.m_uFrameNumber,
        s.m_resourceManager.Release pResource CD3DTexture.RequiresDelayedRelease⟩ 0
      (by decide) hnot
      ⟨⟨pResource, true, 0⟩, by simp [CD3DResourceManager.Release,
        CD3DTexture.RequiresDelayedRelease], rfl⟩
      (by
        intro x hx hxp
        simp only [CD3DResourceManager.Release, List.mem_append, List.mem_singleton] at hx
        rcases hx with hx | hx
        · exact absurd hxp (hfresh x hx)
        · rw [hx]
          exact ⟨rfl, rfl⟩)
    rw [h, Nat.zero_add]
  refine ⟨hmain, ?_, ?_, ?_⟩
  · rw [hmain]
    simp [newFrames]
  · intro uNext hNext
    constructor
    · rw [hmain]
      simp only [newFrames, Nat.add_zero, not_le]
      split <;> decide
    · intro uAfter hAfter
      rw [hmain]
      have h1 : s.m_uFrameNumber ≠ uNext := fun e => hNext e.symm
      have h2 : uNext ≠ uAfter := fun e => hAfter e.symm
      simp [newFrames, h1, h2]
  · simp [CD3DResourceManager.DestroyResources, CD3DResourceManager.Release]

theorem C25_delayed_release_waits_two_frames_witness :
    (41 : Nat) ∈ (advanceFrames resourceManagerOps
        ⟨exampleDeviceFrame.m_uFrameNumber,
          exampleDeviceFrame.m_resourceManager.Release 41
            CD3DTexture.RequiresDelayedRelease⟩
        [8, 8, 9]).m_resourceManager.finalized ↔
      2 ≤ newFrames exampleDeviceFrame.m_uFrameNumber [8, 8, 9] :=
  (C25_delayed_release_waits_two_frames exampleDeviceFrame 41 (by decide)
    (by decide)).1 [8, 8, 9]

end WpfGfx
